import Mathlib

/-!
# StockBuddy: registration, login, profile routes and the client session

A shallow embedding of `Backend/routes/auth.js`, `Backend/routes/profile.js`,
the upload configuration and helpers of `Backend/config/cloudinary.js`, the
session functions of the client's `context/AuthContext.js`, and the form
validation and submit handlers of the client's login, registration and CAPTCHA
screens.

Conventions of the embedding
* A request body field is a string or absent (`Option String`); `captchaVerified`
  is a boolean or absent. JavaScript truthiness of such a field is `truthy`.
* A string is a sequence of Unicode characters; `jsLength` is JavaScript's
  `length`, which counts UTF-16 code units. Strings with unpaired surrogates are
  not represented.
* The database is the list of stored `User` documents, in insertion order.
* Library calls whose result the routes do not control (bcrypt, jsonwebtoken,
  `Date` parsing, the clock, ObjectId generation, the image host) and the case
  tables of `String.prototype.toLowerCase` are fields of `Env` and `Ctx` or
  explicit outcome arguments.
-/

namespace StockBuddy

/-! ## JavaScript string primitives -/

/-- White space and line terminators of ECMAScript: the characters matched by
`\s` in a regular expression and removed by `String.prototype.trim`. -/
def isJsSpace (c : Char) : Bool :=
  [9, 10, 11, 12, 13, 32, 160, 5760, 8192, 8193, 8194, 8195, 8196, 8197, 8198,
   8199, 8200, 8201, 8202, 8232, 8233, 8239, 8287, 12288, 65279].contains c.toNat

/-- The list-level version of `String.prototype.trim`: white space is dropped at both ends. -/
def jsTrimList (l : List Char) : List Char :=
  ((l.dropWhile isJsSpace).reverse.dropWhile isJsSpace).reverse

/-- The method `s.trim()`. -/
def jsTrim (s : String) : String := ⟨jsTrimList s.data⟩

/-- The property `s.length`: the number of UTF-16 code units of the string. A
character beyond `U+FFFF` takes two. -/
def jsLength (s : String) : Nat := (s.data.map (fun c => if c.toNat < 65536 then 1 else 2)).sum

/-- JavaScript truthiness of a body field that is a string or absent:
`undefined` and the empty string are falsy. -/
def truthy (v : Option String) : Bool :=
  match v with
  | none => false
  | some s => s ≠ ""

/-- The expression `a || b` for a stored string `a` and a default `b`. -/
def strOr (a b : String) : String := if a = "" then b else a

/-- The expression `a || b` for a body field `a` (string or absent) and a default `b`. -/
def optOr (a : Option String) (b : String) : String :=
  match a with
  | none => b
  | some s => strOr s b

/-! ## Regular expressions

`Regex` is the fragment of the regular expression syntax the email literal of
`auth.js` needs; `Regex.test` decides whether the whole input is in the language
(the literal is anchored by `^` and `$`). -/

/-- Regular expressions over characters. -/
inductive Regex where
  | empty : Regex
  | eps : Regex
  | cls (p : Char → Bool) : Regex
  | seq (r s : Regex) : Regex
  | alt (r s : Regex) : Regex
  | star (r : Regex) : Regex

namespace Regex

/-- The quantifier `+`. -/
def plus (r : Regex) : Regex := seq r (star r)

/-- Whether the expression accepts the empty input. -/
def nullable : Regex → Bool
  | empty => false
  | eps => true
  | cls _ => false
  | seq r s => nullable r && nullable s
  | alt r s => nullable r || nullable s
  | star _ => true

/-- The derivative of an expression by one character. -/
def deriv : Regex → Char → Regex
  | empty, _ => empty
  | eps, _ => empty
  | cls p, c => if p c then eps else empty
  | seq r s, c => if nullable r then alt (seq (deriv r c) s) (deriv s c) else seq (deriv r c) s
  | alt r s, c => alt (deriv r c) (deriv s c)
  | star r, c => seq (deriv r c) (star r)

/-- Whether the whole input is matched: the anchored `regex.test(input)`. -/
def test : Regex → List Char → Bool
  | r, [] => nullable r
  | r, c :: cs => test (deriv r c) cs

end Regex

/-- The character class `[^\s@]`. -/
def notSpaceAt (c : Char) : Bool := !(isJsSpace c || c == '@')

/-- The literal `/^[^\s@]+@[^\s@]+\.[^\s@]+$/` of `auth.js` (line 62). -/
def emailRegex : Regex :=
  .seq (.plus (.cls notSpaceAt))
    (.seq (.cls (· == '@'))
      (.seq (.plus (.cls notSpaceAt))
        (.seq (.cls (· == '.')) (.plus (.cls notSpaceAt)))))

/-- The call `emailRegex.test(email)`. -/
def emailRegexTest (email : String) : Bool := emailRegex.test email.data

/-! ## JSON responses -/

/-- A primitive JSON value of a response: `null`, a boolean, a string, an
ObjectId or a `Date`. -/
inductive JVal where
  | null : JVal
  | bool (b : Bool) : JVal
  | str (s : String) : JVal
  | oid (n : Nat) : JVal
  | date (t : Int) : JVal
  deriving DecidableEq

/-- A field value of a response body: a primitive or an object of primitives. -/
inductive Json where
  | val (v : JVal) : Json
  | obj (fields : List (String × JVal)) : Json
  deriving DecidableEq

/-- An HTTP response: the status code and the fields of the JSON body. -/
structure Response where
  status : Nat
  body : List (String × Json)
  deriving DecidableEq

/-- The value of a top-level field of the body, if present. -/
def Response.field (r : Response) (k : String) : Option Json :=
  (r.body.find? (fun kv => kv.1 = k)).map Prod.snd

/-- The `message` of the body, if it is a string. -/
def Response.message (r : Response) : Option String :=
  match r.field "message" with
  | some (.val (.str s)) => some s
  | _ => none

/-- The entries `missing ? text : null` of the `validationErrors` objects. -/
def errIf (missing : Bool) (text : String) : JVal :=
  if missing then .str text else .null

/-! ## The User model and the database -/

/-- Modelled from the spec: the Mongoose model `models/User.js` is not among the
sources. A document carries the fields the routes read and write (the Identity
of the spec); `password` is the stored hash; `dateOfBirth` and `profilePicture`
may be unset. Values are stored as the routes assign them. -/
structure User where
  _id : Nat
  name : String
  email : String
  password : String
  countryCode : String
  phoneNumber : String
  address : String
  dateOfBirth : Option Int
  profilePicture : Option String
  captchaVerified : Bool
  createdAt : Int
  lastLogin : Int
  deriving DecidableEq

/-- The collection of stored documents. -/
abbrev Store := List User

/-- The primary-key guarantee of the database: no two documents share an `_id`. -/
def Store.WF (db : Store) : Prop := (db.map (·._id)).Nodup

/-- Modelled from the spec: `User.findOne` with an `email` filter (`findByEmail`), the first
document whose `email` field equals the queried value. -/
def findOne (db : Store) (email : String) : Option User :=
  db.find? (fun u => u.email = email)

/-- Modelled from the spec: `User.findById(id)`. -/
def findById (db : Store) (id : Nat) : Option User :=
  db.find? (fun u => u._id = id)

/-- Modelled from the spec: `doc.save()` for a document that is already stored:
the document with that `_id` is replaced. -/
def saveDoc : Store → User → Store
  | [], _ => []
  | v :: db, u => if v._id = u._id then u :: db else v :: saveDoc db u

/-- Modelled from the spec: `doc.save()` for a new document. The insert fails
(duplicate key) when the `_id` is already present. -/
def insertDoc (db : Store) (u : User) : Option Store :=
  if db.any (fun v => v._id = u._id) then none else some (db ++ [u])

/-- Modelled from the spec: `User.findByIdAndDelete(id)`. -/
def deleteById : Store → Nat → Store
  | [], _ => []
  | v :: db, id => if v._id = id then db else v :: deleteById db id

/-- The message of the error raised by a failed insert. -/
def duplicateKeyMessage : String := "E11000 duplicate key error"

/-! ## Collaborators -/

/-- The libraries and process configuration the routes call. -/
structure Env where
  /-- The call `bcrypt.genSalt(rounds)`, from the rounds and the generator's randomness. -/
  genSalt : Nat → Nat → String
  /-- The call `bcrypt.hash(password, salt)`. -/
  hash : String → String → String
  /-- The call `bcrypt.compare(password, hash)`. -/
  compare : String → String → Bool
  /-- The call `jwt.sign` with payload `userId`, a key and `expiresIn`, at the given time. -/
  jwtSign : Nat → String → String → Int → String
  /-- The constructor `new Date(text)`: `none` is an invalid date. -/
  parseDate : String → Option Int
  /-- The variable `process.env.JWT_SECRET`. -/
  JWT_SECRET : Option String
  /-- The method `s.toLowerCase()`, which maps by the Unicode case tables of the
  JavaScript engine. -/
  toLowerCase : String → String

/-- What one request draws from its surroundings: the clock, the randomness of
the salt generator and the ObjectId given to a new document. -/
structure Ctx where
  now : Int
  rand : Nat
  newId : Nat

/-- The signing key `process.env.JWT_SECRET || 'your-jwt-secret'`. -/
def jwtKey (env : Env) : String := optOr env.JWT_SECRET "your-jwt-secret"

/-! ## `POST /register` -/

/-- The body of a register request. -/
structure RegisterBody where
  name : Option String
  email : Option String
  password : Option String
  countryCode : Option String
  phoneNumber : Option String
  address : Option String
  dateOfBirth : Option String
  captchaVerified : Option Bool

/-- A `success: false` body with a message. -/
def failure (status : Nat) (message : String) (extra : List (String × Json)) : Response :=
  ⟨status, [("success", .val (.bool false)), ("message", .val (.str message))] ++ extra⟩

/-- The `user` object of the register response (lines 148-159). -/
def registerView (u : User) : Json :=
  .obj [("id", .oid u._id), ("name", .str u.name), ("email", .str u.email),
        ("countryCode", .str u.countryCode), ("phoneNumber", .str u.phoneNumber),
        ("address", .str u.address),
        ("dateOfBirth", match u.dateOfBirth with | some d => .date d | none => .null),
        ("createdAt", .date u.createdAt), ("lastLogin", .date u.lastLogin),
        ("captchaVerified", .bool u.captchaVerified)]

/-- The date of birth as lines 101-114 format it: `some none` when the field is
falsy, `some (some d)` for a valid date, `none` when the date is invalid. -/
def formatDateOfBirth (env : Env) (dateOfBirth : Option String) : Option (Option Int) :=
  if truthy dateOfBirth then
    match env.parseDate (dateOfBirth.getD "") with
    | some d => some (some d)
    | none => none
  else some none

/-- The handler of `router.post('/register')`: the response and the database afterwards. -/
def register (env : Env) (ctx : Ctx) (db : Store) (b : RegisterBody) : Response × Store :=
  if !truthy b.name || !truthy b.email || !truthy b.password then
    (failure 400 "Name, email and password are required"
      [("validationErrors", .obj
        [("name", errIf (!truthy b.name) "Name is required"),
         ("email", errIf (!truthy b.email) "Email is required"),
         ("password", errIf (!truthy b.password) "Password is required"),
         ("address", errIf (!truthy b.address) "Aeddress is reqired"),
         ("dateOfBirth", errIf (!truthy b.dateOfBirth) "Date Of Birth is Required")])], db)
  else
    let name := b.name.getD ""
    let email := b.email.getD ""
    let password := b.password.getD ""
    if jsLength password < 6 then
      (failure 400 "Password must be at least 6 characters long"
        [("validationErrors", .obj
          [("password", .str "Password must be at least 6 characters long")])], db)
    else if !emailRegexTest email then
      (failure 400 "Invalid email format"
        [("validationErrors", .obj [("email", .str "Invalid email format")])], db)
    else if (findOne db (env.toLowerCase email)).isSome then
      (failure 400 "User already exists"
        [("validationErrors", .obj [("email", .str "Email is already registered")])], db)
    else if !(b.captchaVerified.getD false) then
      (failure 403 "CAPTCHA verification required" [("requiresCaptcha", .val (.bool true))], db)
    else
      let salt := env.genSalt 10 ctx.rand
      let hashedPassword := env.hash password salt
      let currentTime := ctx.now
      match formatDateOfBirth env b.dateOfBirth with
      | none =>
        (failure 400 "Invalid date of birth format"
          [("validationErrors", .obj [("dateOfBirth", .str "Invalid date format")])], db)
      | some formattedDateOfBirth =>
        let user : User :=
          { _id := ctx.newId,
            name := jsTrim name,
            email := jsTrim (env.toLowerCase email),
            password := hashedPassword,
            countryCode := jsTrim (optOr b.countryCode "+1"),
            phoneNumber := jsTrim (optOr b.phoneNumber ""),
            address := jsTrim (optOr b.address ""),
            dateOfBirth := formattedDateOfBirth,
            profilePicture := none,
            captchaVerified := true,
            createdAt := currentTime,
            lastLogin := currentTime }
        match insertDoc db user with
        | none =>
          (failure 500 "Server error during registration"
            [("error", .val (.str duplicateKeyMessage))], db)
        | some db1 =>
          let token := env.jwtSign user._id (jwtKey env) "7d" ctx.now
          (⟨201, [("success", .val (.bool true)), ("token", .val (.str token)),
                  ("user", registerView user)]⟩, db1)

/-! ## `POST /login` -/

/-- The body of a login request. -/
structure LoginBody where
  email : Option String
  password : Option String

/-- The `user` object of the login response (lines 226-237). A stored `Date` is
an object and therefore truthy. -/
def loginView (u : User) : Json :=
  .obj [("id", .oid u._id), ("name", .str (strOr u.name "")), ("email", .str (strOr u.email "")),
        ("countryCode", .str (strOr u.countryCode "+1")),
        ("phoneNumber", .str (strOr u.phoneNumber "")),
        ("address", .str (strOr u.address "")),
        ("dateOfBirth", match u.dateOfBirth with | some d => .date d | none => .str ""),
        ("createdAt", .date u.createdAt), ("lastLogin", .date u.lastLogin),
        ("captchaVerified", .bool u.captchaVerified)]

/-- The handler of `router.post('/login')`: the response and the database afterwards. -/
def login (env : Env) (ctx : Ctx) (db : Store) (b : LoginBody) : Response × Store :=
  if !truthy b.email || !truthy b.password then
    (failure 400 "All fields are required" [], db)
  else
    let email := b.email.getD ""
    let password := b.password.getD ""
    match findOne db email with
    | none => (failure 400 "Invalid credentials" [], db)
    | some user =>
      if !env.compare password user.password then
        (failure 400 "Invalid credentials" [], db)
      else if !user.captchaVerified then
        (failure 403 "CAPTCHA verification required" [("requiresCaptcha", .val (.bool true))], db)
      else
        let user1 := { user with lastLogin := ctx.now }
        let db1 := saveDoc db user1
        match findById db1 user1._id with
        | none => (failure 500 "Server error" [], db1)
        | some updatedUser =>
          let token := env.jwtSign updatedUser._id (jwtKey env) "7d" ctx.now
          (⟨200, [("success", .val (.bool true)), ("token", .val (.str token)),
                  ("user", loginView updatedUser)]⟩, db1)

/-! ## `routes/profile.js` -/

/-- The `user` object of the profile responses (for instance lines 22-34). -/
def profileView (u : User) : Json :=
  .obj [("id", .oid u._id), ("name", .str (strOr u.name "")), ("email", .str (strOr u.email "")),
        ("countryCode", .str (strOr u.countryCode "+1")),
        ("phoneNumber", .str (strOr u.phoneNumber "")),
        ("address", .str (strOr u.address "")),
        ("profilePicture", .str (optOr u.profilePicture "")),
        ("dateOfBirth", match u.dateOfBirth with | some d => .date d | none => .null),
        ("createdAt", .date u.createdAt), ("lastLogin", .date u.lastLogin),
        ("captchaVerified", .bool u.captchaVerified)]

/-- The handler of `router.get('/')`; `userId` is what the auth middleware resolved. -/
def getProfile (db : Store) (userId : Nat) : Response :=
  match findById db userId with
  | none => failure 404 "User not found" []
  | some user => ⟨200, [("success", .val (.bool true)), ("user", profileView user)]⟩

/-- The body of a profile update. -/
structure ProfilePatch where
  name : Option String
  email : Option String
  countryCode : Option String
  phoneNumber : Option String
  address : Option String
  profilePicture : Option String

/-- The assignments of lines 59-77 of `profile.js`, applied to the fetched document. -/
def applyPatch (user : User) (p : ProfilePatch) : User :=
  let user := if truthy p.name then { user with name := p.name.getD "" } else user
  let user := if truthy p.countryCode then { user with countryCode := p.countryCode.getD "" } else user
  let user := match p.phoneNumber with
    | some v => { user with phoneNumber := v }
    | none => user
  let user := match p.address with
    | some v => { user with address := v }
    | none => user
  match p.profilePicture with
  | some v => { user with profilePicture := some v }
  | none => user

/-- The handler of `router.put('/')`. -/
def updateProfile (db : Store) (userId : Nat) (p : ProfilePatch) : Response × Store :=
  match findById db userId with
  | none => (failure 404 "User not found" [], db)
  | some user =>
    let email := p.email.getD ""
    let emailChanges : Bool := truthy p.email && decide (email ≠ user.email)
    if emailChanges && (findOne db email).isSome then
      (failure 400 "Email already in use" [], db)
    else
      let user := if emailChanges then { user with email := email } else user
      let user := applyPatch user p
      (⟨200, [("success", .val (.bool true)), ("user", profileView user)]⟩, saveDoc db user)

/-- What `upload.single('image')` hands to the route: an error, no file, or the
path of the stored file. -/
inductive MulterResult where
  | error (message : String) : MulterResult
  | noFile : MulterResult
  | file (path : String) : MulterResult

/-- How a call of `deleteFromCloudinary` ends: it returns a result or throws. -/
inductive HostDelete where
  | returned (result : String) : HostDelete
  | threw : HostDelete

/-- A call the route makes to the helpers of `config/cloudinary.js`. -/
inductive HostCall where
  | deleteFromCloudinary (url : String) : HostCall
  | uploadToCloudinary (path : String) : HostCall
  deriving DecidableEq

/-- The handler of `router.post('/upload-picture')`: the response, the database
afterwards and the host calls made, in order. `del` is the outcome of deleting
the old picture, `up` the outcome of the upload (the `secure_url`, or the error thrown). -/
def uploadPicture (db : Store) (userId : Nat) (m : MulterResult) (del : HostDelete)
    (up : Except String String) : Response × Store × List HostCall :=
  match m with
  | .error message => (failure 400 ("File upload error: " ++ message) [], db, [])
  | .noFile => (failure 400 "No file uploaded" [], db, [])
  | .file path =>
    match findById db userId with
    | none => (failure 404 "User not found" [], db, [])
    | some user =>
      let calls : List HostCall :=
        if truthy user.profilePicture then
          match del with
          | .returned _ => [.deleteFromCloudinary (user.profilePicture.getD "")]
          | .threw => [.deleteFromCloudinary (user.profilePicture.getD "")]
        else []
      match up with
      | .error _ =>
        (failure 500 "Server error during picture processing" [], db,
          calls ++ [.uploadToCloudinary path])
      | .ok url =>
        let user := { user with profilePicture := some url }
        (⟨200, [("success", .val (.bool true)), ("profilePicture", .val (.str url)),
                ("user", profileView user)]⟩, saveDoc db user,
          calls ++ [.uploadToCloudinary path])

/-- The handler of `router.delete('/profile-picture')`. -/
def deletePicture (db : Store) (userId : Nat) (del : HostDelete) :
    Response × Store × List HostCall :=
  match findById db userId with
  | none => (failure 404 "User not found" [], db, [])
  | some user =>
    if truthy user.profilePicture then
      let calls : List HostCall :=
        match del with
        | .returned _ => [.deleteFromCloudinary (user.profilePicture.getD "")]
        | .threw => [.deleteFromCloudinary (user.profilePicture.getD "")]
      let user := { user with profilePicture := some "" }
      (⟨200, [("success", .val (.bool true)), ("message", .val (.str "Profile picture removed")),
              ("user", profileView user)]⟩, saveDoc db user, calls)
    else
      (⟨200, [("success", .val (.bool true)), ("message", .val (.str "Profile picture removed")),
              ("user", profileView user)]⟩, db, [])

/-- The handler of `router.delete('/')`. -/
def deleteAccount (db : Store) (userId : Nat) : Response × Store :=
  match findById db userId with
  | none => (failure 404 "User not found" [], db)
  | some _ =>
    (⟨200, [("success", .val (.bool true)),
            ("message", .val (.str "Account successfully deleted"))]⟩, deleteById db userId)

/-! ## Sequences of requests -/

/-- One request to the service, with what it draws from its surroundings. -/
inductive Op where
  | register (ctx : Ctx) (b : RegisterBody) : Op
  | login (ctx : Ctx) (b : LoginBody) : Op
  | getProfile (userId : Nat) : Op
  | updateProfile (userId : Nat) (p : ProfilePatch) : Op
  | uploadPicture (userId : Nat) (m : MulterResult) (del : HostDelete) (up : Except String String) : Op
  | deletePicture (userId : Nat) (del : HostDelete) : Op
  | deleteAccount (userId : Nat) : Op

/-- The database after one request. -/
def step (env : Env) (db : Store) : Op → Store
  | .register ctx b => (register env ctx db b).2
  | .login ctx b => (login env ctx db b).2
  | .getProfile _ => db
  | .updateProfile userId p => (updateProfile db userId p).2
  | .uploadPicture userId m del up => (uploadPicture db userId m del up).2.1
  | .deletePicture userId del => (deletePicture db userId del).2.1
  | .deleteAccount userId => (deleteAccount db userId).2

/-- The database after a sequence of requests, starting from the empty database. -/
def run (env : Env) (ops : List Op) : Store := ops.foldl (step env) []

/-! ## Notions used by the statements -/

/-- Every stored document has a non-empty email, as register and profile update store it. -/
def Store.HasEmails (db : Store) : Prop := ∀ u ∈ db, u.email ≠ ""

/-- Whether a request creates a document with the given ObjectId. -/
def Op.mints (id : Nat) : Op → Bool
  | .register ctx _ => ctx.newId = id
  | _ => false

/-- Every stored document has `captchaVerified = true`. -/
def Store.AllVerified (db : Store) : Prop := ∀ u ∈ db, u.captchaVerified = true

/-- The first row of the decision table of register: a required field is empty,
the `length` of the password is below six, the email fails the shape check, or
a document with the lower-cased email exists. -/
def RegisterInvalid (env : Env) (db : Store) (b : RegisterBody) : Prop :=
  truthy b.name = false ∨ truthy b.email = false ∨ truthy b.password = false ∨
  jsLength (b.password.getD "") < 6 ∨ emailRegexTest (b.email.getD "") = false ∨
  (findOne db (env.toLowerCase (b.email.getD ""))).isSome = true

/-- The lifetime `7d` of a token, in milliseconds. -/
def sevenDays : Int := 7 * 24 * 60 * 60 * 1000

/-- No two stored documents have emails that are equal after lower-casing. -/
def EmailsCaseUnique (env : Env) (db : Store) : Prop :=
  (db.map (fun u => env.toLowerCase u.email)).Nodup

/-- The number of stored documents whose email is the given one. -/
def countEmail (db : Store) (email : String) : Nat := (db.filter (fun u => u.email = email)).length

/-- The number of stored documents whose email equals the given one after lower-casing. -/
def countEmailFolded (env : Env) (db : Store) (email : String) : Nat :=
  (db.filter (fun u => env.toLowerCase u.email = env.toLowerCase email)).length

/-- What the proofs use of `toLowerCase`: the lower-casing of a non-empty string
without white space is a non-empty string without white space. -/
def Env.LowerCaseKeepsShape (env : Env) : Prop :=
  ∀ s : String, s ≠ "" → (∀ c ∈ s.data, isJsSpace c = false) →
    env.toLowerCase s ≠ "" ∧ ∀ c ∈ (env.toLowerCase s).data, isJsSpace c = false

/-- A document with its password hash blanked. -/
def withoutHash (u : User) : User := { u with password := "" }

/-- Two databases that differ at most in stored password hashes. -/
def SameUpToHash (db1 db2 : Store) : Prop := db1.map withoutHash = db2.map withoutHash

/-- Whether a response carries a token. -/
def Response.hasToken (r : Response) : Bool := (r.field "token").isSome

/-- The shape `local@domain.tld` in the words of the specification: no white
space, exactly one `@`, something before it, and after it a `.` with at least
one character on each side. -/
def EmailShape (s : List Char) : Prop :=
  (∀ c ∈ s, isJsSpace c = false) ∧ s.count '@' = 1 ∧
  ∃ a d, s = a ++ '@' :: d ∧ a ≠ [] ∧ ∃ b c, d = b ++ '.' :: c ∧ b ≠ [] ∧ c ≠ []

/-- The language of a regular expression. -/
def Regex.Lang : Regex → List Char → Prop
  | .empty, _ => False
  | .eps, s => s = []
  | .cls p, s => ∃ c, s = [c] ∧ p c = true
  | .seq r1 r2, s => ∃ a b, s = a ++ b ∧ Regex.Lang r1 a ∧ Regex.Lang r2 b
  | .alt r1 r2, s => Regex.Lang r1 s ∨ Regex.Lang r2 s
  | .star r, s => ∃ parts : List (List Char), s = parts.flatten ∧ ∀ a ∈ parts, Regex.Lang r a

instance (db : Store) : Decidable (Store.HasEmails db) := by
  unfold Store.HasEmails
  infer_instance

instance (db : Store) : Decidable (Store.AllVerified db) := by
  unfold Store.AllVerified
  infer_instance

instance (env : Env) (db : Store) (b : RegisterBody) : Decidable (RegisterInvalid env db b) := by
  unfold RegisterInvalid
  infer_instance

instance (db : Store) : Decidable (Store.WF db) := by
  unfold Store.WF
  infer_instance

instance (db1 db2 : Store) : Decidable (SameUpToHash db1 db2) := by
  unfold SameUpToHash
  infer_instance

instance (env : Env) (db : Store) : Decidable (EmailsCaseUnique env db) := by
  unfold EmailsCaseUnique
  infer_instance

/-! ## Sample collaborators and requests

Concrete values at which the statements below are evaluated. -/

/-- The lower-case mapping of the Unicode tables on Basic Latin and Latin-1: the
capital letters `A`..`Z` and `À`..`Þ` (without the sign `×`) move by 32, every
other character of these blocks maps to itself. Characters beyond Latin-1 are
kept. -/
def lowerLatin1 (c : Char) : Char :=
  if (65 ≤ c.toNat ∧ c.toNat ≤ 90) ∨ (192 ≤ c.toNat ∧ c.toNat ≤ 222 ∧ c.toNat ≠ 215) then
    Char.ofNat (c.toNat + 32)
  else c

/-- The method `toLowerCase` of the sample collaborators; it agrees with
JavaScript on strings of Basic Latin and Latin-1 characters. -/
def toLowerCaseLatin1 (s : String) : String := ⟨s.data.map lowerLatin1⟩

/-- A toy instance of the collaborators: the hash is the salt, a separator and
the password; dates are recognised for one sample day; lower-casing covers
Basic Latin and Latin-1. -/
def sampleEnv : Env where
  genSalt := fun _ _ => "salt"
  hash := fun password salt => salt ++ "$" ++ password
  compare := fun password hashed => hashed = "salt$" ++ password
  jwtSign := fun _ _ _ _ => "token"
  parseDate := fun text => if text = "2000-01-01" then some 946684800000 else none
  JWT_SECRET := none
  toLowerCase := toLowerCaseLatin1

/-- A register request with the given name, email and password, CAPTCHA verified. -/
def sampleRegister (name email password : String) : RegisterBody :=
  { name := some name, email := some email, password := some password, countryCode := none,
    phoneNumber := none, address := some "1 Rd", dateOfBirth := some "2000-01-01",
    captchaVerified := some true }

/-- A profile update that carries only an email. -/
def emailPatch (email : String) : ProfilePatch :=
  { name := none, email := some email, countryCode := none, phoneNumber := none,
    address := none, profilePicture := none }

/-- Two registrations followed by a profile update of the second account to the
first account's email in another letter case. -/
def caseClashOps : List Op :=
  [.register ⟨1000, 0, 1⟩ (sampleRegister "Ann" "ann@x.com" "secret1"),
   .register ⟨2000, 0, 2⟩ (sampleRegister "Bob" "bob@x.com" "secret2"),
   .updateProfile 2 (emailPatch "ANN@x.com")]

/-- A registration followed by a profile update of that account to an email in
capital letters. -/
def capitalEmailOps : List Op :=
  [.register ⟨1000, 0, 1⟩ (sampleRegister "Bob" "bob@x.com" "secret1"),
   .updateProfile 1 (emailPatch "ANN@x.com")]

/-- A toy signer with a configured secret: the token is the key, a colon and as
many letters `t` as the user id says. -/
def tokenEnv : Env :=
  { sampleEnv with
    jwtSign := fun userId key _ _ => key ++ ":" ++ String.mk (List.replicate userId 't')
    JWT_SECRET := some "s3cret" }

/-- The resolver of the toy signer: a token that starts with the key and a colon
resolves to the number of characters after them; any other token is refused. -/
def tokenVerify (token key : String) (_at : Int) : Option Nat :=
  if (key ++ ":").data.isPrefixOf token.data then some (token.length - (key.length + 1))
  else none

/-- A stored account whose CAPTCHA flag is false; its hash is the sample hash of `secret1`. -/
def unverifiedAnn : User :=
  { _id := 1, name := "Ann", email := "ann@x.com", password := "salt$secret1",
    countryCode := "+1", phoneNumber := "", address := "1 Rd", dateOfBirth := none,
    profilePicture := none, captchaVerified := false, createdAt := 1000, lastLogin := 1000 }

/-- The same account with the CAPTCHA flag set. -/
def verifiedAnn : User := { unverifiedAnn with captchaVerified := true }

/-- The sample account with another stored hash. -/
def rehashedAnn : User := { verifiedAnn with password := "pepper$secret1" }

/-! ## Upload acceptance: `upload` of `config/cloudinary.js` -/

/-- A file sent in the multipart field `image`. -/
structure UploadFile where
  originalname : String
  mimetype : String
  size : Nat

/-- The `fileFilter` of the multer configuration (lines 38-45): only jpg, jpeg and png pass. -/
def fileFilter (file : UploadFile) : Bool :=
  file.mimetype = "image/jpeg" || file.mimetype = "image/jpg" || file.mimetype = "image/png"

/-- The rejection raised by `fileFilter`. -/
def unsupportedTypeMessage : String :=
  "Unsupported file type. Please upload only JPG or PNG images."

/-- The `limits.fileSize` of the multer configuration (line 36): 5MB. -/
def maxFileSize : Nat := 5 * 1024 * 1024

/-- The call `upload.single('image')`, by the documented contract of multer: the
file filter is asked first, then a file larger than `limits.fileSize` is refused
with the error `File too large`; an accepted file is stored under `path`. -/
def multerSingle (file : Option UploadFile) (path : String) : MulterResult :=
  match file with
  | none => .noFile
  | some f =>
    if fileFilter f then
      if f.size ≤ maxFileSize then .file path else .error "File too large"
    else .error unsupportedTypeMessage

/-- The route `POST /upload-picture` on a request that carries `file`. -/
def uploadPictureRequest (db : Store) (userId : Nat) (file : Option UploadFile) (path : String)
    (del : HostDelete) (up : Except String String) : Response × Store × List HostCall :=
  uploadPicture db userId (multerSingle file path) del up

/-! ## Public ids: `getPublicIdFromUrl` and `deleteFromCloudinary` -/

/-- The class `\d`. -/
def isDigit (c : Char) : Bool := '0' ≤ c && c ≤ '9'

/-- The class `[^/\.]`. -/
def notSlashDot (c : Char) : Bool := !(c == '/' || c == '.')

/-- The group `([^/\.]+)` at the head of the input: the longest non-empty run. -/
def captureRun (s : List Char) : Option (List Char) :=
  if s.takeWhile notSlashDot = [] then none else some (s.takeWhile notSlashDot)

/-- The part `(?:v\d+\/)?([^/\.]+)` of the literal after its leading `/`: the
optional version is tried first, and given up when the group cannot follow it. -/
def matchAfterSlash (s : List Char) : Option (List Char) :=
  let versioned : Option (List Char) :=
    match s with
    | 'v' :: r =>
      if r.takeWhile isDigit = [] then none
      else
        match r.dropWhile isDigit with
        | '/' :: t => captureRun t
        | _ => none
    | _ => none
  match versioned with
  | some cap => some cap
  | none => captureRun s

/-- The first capture group of `url.match(/\/(?:v\d+\/)?([^/\.]+)/)` (line 132):
the leftmost position where the literal matches decides. -/
def publicIdMatch : List Char → Option (List Char)
  | [] => none
  | c :: cs =>
    if c = '/' then
      match matchAfterSlash cs with
      | some cap => some cap
      | none => publicIdMatch cs
    else publicIdMatch cs

/-- The test `s.includes(sub)`. -/
def includes : List Char → List Char → Bool
  | [], sub => sub.isEmpty
  | c :: cs, sub => sub.isPrefixOf (c :: cs) || includes cs sub

/-- The worker of `splitPop`: `skip` counts the characters of a separator still
to pass over, `piece` holds the current piece in reverse. -/
def splitPopAux (sep : List Char) : List Char → Nat → List Char → List Char
  | [], _, piece => piece.reverse
  | _ :: cs, skip + 1, _ => splitPopAux sep cs skip []
  | c :: cs, 0, piece =>
    if sep ≠ [] ∧ sep.isPrefixOf (c :: cs) then splitPopAux sep cs (sep.length - 1) []
    else splitPopAux sep cs 0 (c :: piece)

/-- The expression `s.split(sep).pop()`: what follows the last separator. -/
def splitPop (s sep : List Char) : List Char := splitPopAux sep s 0 []

/-- The helper `getPublicIdFromUrl` (lines 126-152). -/
def getPublicIdFromUrl (url : String) : Option String :=
  if url = "" then none
  else
    match publicIdMatch url.data with
    | some fullPath =>
      if fullPath = [] then none
      else if includes url.data "profile-pictures/".data then
        some ("profile-pictures/" ++ String.mk (splitPop fullPath "profile-pictures/".data))
      else some (String.mk fullPath)
    | none => none

/-- The public id that `deleteFromCloudinary` (lines 94-123) hands to
`cloudinary.uploader.destroy`, if it reaches that call. -/
def destroyedId (imageUrl : String) : Option String :=
  if imageUrl = "" then none else getPublicIdFromUrl imageUrl

/-- The documented form of a picture URL (line 131):
`https://res.cloudinary.com/cloud_name/image/upload/vVERSION/public_id.format`. -/
def documentedUrl (cloudName version publicId format : String) : String :=
  "https://res.cloudinary.com/" ++ cloudName ++ "/image/upload/v" ++ version ++ "/" ++
    publicId ++ "." ++ format

/-- A picture URL of the documented form whose public id is `profile-pictures/res`. -/
def samplePictureUrl : String := documentedUrl "demo" "1" "profile-pictures/res" "jpg"

/-- The sample account with a stored picture. -/
def annWithPicture : User := { verifiedAnn with profilePicture := some samplePictureUrl }

/-- A PNG file of 2 MiB. -/
def samplePng : UploadFile :=
  { originalname := "me.png", mimetype := "image/png", size := 2 * 1024 * 1024 }

/-! ## The client: `context/AuthContext.js`

The provider keeps the signed-in user in memory and the session in AsyncStorage.
Calls of AsyncStorage are taken to complete, as the database calls of the routes
are; what the server or the device answers is an argument of each function. -/

namespace AuthContext

/-- The content of AsyncStorage: keys with their string values. -/
abbrev Storage := List (String × String)

/-- The call `AsyncStorage.getItem(key)`. -/
def getItem (s : Storage) (key : String) : Option String :=
  (s.find? (fun kv => kv.1 = key)).map Prod.snd

/-- The call `AsyncStorage.removeItem(key)`. -/
def removeItem (s : Storage) (key : String) : Storage :=
  s.filter (fun kv => kv.1 ≠ key)

/-- The call `AsyncStorage.setItem(key, value)`. -/
def setItem (s : Storage) (key value : String) : Storage :=
  removeItem s key ++ [(key, value)]

/-- The state of the provider: AsyncStorage and the `user`, `loading` and `error` hooks. -/
structure State where
  storage : Storage
  user : Option Json
  loading : Bool
  error : Option String
  deriving DecidableEq

/-- The object a provider function returns: `success`, `requiresCaptcha` and
`error`, each present or not. -/
structure Result where
  success : Option Bool
  requiresCaptcha : Option Bool
  error : Option String
  deriving DecidableEq

/-- The function `logout` (lines 111-121); its `catch` block is reached only when
a storage call rejects. -/
def logout (c : State) : Result × State :=
  let storage := removeItem c.storage "userToken"
  let storage := removeItem storage "userData"
  (⟨some true, none, none⟩, { c with storage := storage, user := none })

/-- How a call of `apiRequest` ends: with a response body, of which `success`
and `message` are read, or with a thrown error and its message. -/
inductive ApiOutcome where
  | responded (success : Bool) (message : Option String) : ApiOutcome
  | threw (message : Option String) : ApiOutcome

/-- The `catch` and `finally` blocks of `deleteAccount` (lines 197-202). -/
def deleteAccountFailed (c : State) (message : Option String) : Result × State :=
  (⟨some false, none, message⟩,
    { c with loading := false,
             error := some (optOr message "Error deleting account. Please try again.") })

/-- The function `deleteAccount` (lines 179-203). -/
def deleteAccount (c : State) (api : ApiOutcome) : Result × State :=
  let c := { c with loading := true, error := none }
  match api with
  | .responded success message =>
    if success then
      let storage := removeItem c.storage "userToken"
      let storage := removeItem storage "userData"
      let storage := removeItem storage "stored_credentials"
      let storage := removeItem storage "biometric_auth_enabled"
      (⟨some true, none, none⟩, { c with storage := storage, user := none, loading := false })
    else deleteAccountFailed c (some (optOr message "Failed to delete account"))
  | .threw message => deleteAccountFailed c message

/-- A device on which a user is signed in and has logged in through the login form. -/
def signedIn : State :=
  { storage := [("userToken", "token"), ("userData", "ann"),
                ("stored_credentials", "ann@x.com secret1"), ("biometric_auth_enabled", "true")],
    user := some (.val (.str "ann")), loading := false, error := none }

end AuthContext

/-! ## The client: login, register and the biometric gate -/

namespace AuthContext

/-- The calls of `JSON` the client makes: `JSON.stringify` of a user object and of
a credential pair, and `JSON.parse` of a stored string followed by the
destructuring into `email` and `password`, which throws with a message or yields
the two fields, each a string or absent. -/
structure Codec where
  stringifyUser : Json → String
  stringifyCredentials : String → String → String
  parseCredentials : String → Except String (Option String × Option String)

/-- Modelled from the spec: how a call of `apiRequest` to `/login` or `/register`
ends (`services/api` is not among the sources): with a response body, of which
`requiresCaptcha`, `token` and `user` are read, or with a thrown error and its
message. -/
inductive AuthOutcome where
  | responded (requiresCaptcha : Bool) (token : String) (user : Json) : AuthOutcome
  | threw (message : Option String) : AuthOutcome

/-- The server as `login` reaches it: how the request with the given email and
password ends. -/
abbrev LoginApi := Option String → Option String → AuthOutcome

/-- The server as `register` reaches it: how the request with the given body ends. -/
abbrev RegisterApi := RegisterBody → AuthOutcome

/-- The function `login` (lines 35-60). -/
def login (codec : Codec) (api : LoginApi) (c : State) (email password : Option String) :
    Result × State :=
  let c := { c with loading := true, error := none }
  match api email password with
  | .responded requiresCaptcha token userData =>
    if requiresCaptcha then (⟨none, some true, none⟩, { c with loading := false })
    else
      let storage := setItem c.storage "userToken" token
      let storage := setItem storage "userData" (codec.stringifyUser userData)
      (⟨some true, none, none⟩,
        { c with storage := storage, user := some userData, loading := false })
  | .threw message =>
    (⟨some false, none, message⟩,
      { c with loading := false, error := some (optOr message "Login failed. Please try again.") })

/-- The function `register` (lines 63-90), with the requests it sends. The
object `userData` is the request body; the server reads the fields of
`RegisterBody` from it. -/
def register (codec : Codec) (api : RegisterApi) (c : State) (userData : RegisterBody) :
    Result × State × List RegisterBody :=
  let c := { c with loading := true, error := none }
  if !(userData.captchaVerified.getD false) then
    (⟨some false, some true, some "CAPTCHA verification is required"⟩,
      { c with loading := false }, [])
  else
    match api userData with
    | .responded _ token newUser =>
      let storage := setItem c.storage "userToken" token
      let storage := setItem storage "userData" (codec.stringifyUser newUser)
      (⟨some true, none, none⟩,
        { c with storage := storage, user := some newUser, loading := false }, [userData])
    | .threw message =>
      (⟨some false, none, message⟩,
        { c with loading := false,
                 error := some (optOr message "Registration failed. Please try again.") },
        [userData])

/-- The function `verifyCaptcha` (lines 92-108): the `success` of the answer, or
`false` when the request throws. -/
def verifyCaptcha (api : ApiOutcome) : Bool :=
  match api with
  | .responded success _ => success
  | .threw _ => false

/-- Modelled from the spec: `biometricAuthService.enableBiometric()` sets the
stored boolean flag (`services/biometricAuth` is not among the sources; the key is
the one `deleteAccount` removes at line 191). -/
def serviceEnableBiometric (s : Storage) : Result × Storage :=
  (⟨some true, none, none⟩, setItem s "biometric_auth_enabled" "true")

/-- Modelled from the spec: `biometricAuthService.disableBiometric()` clears the
stored boolean flag. -/
def serviceDisableBiometric (s : Storage) : Result × Storage :=
  (⟨some true, none, none⟩, setItem s "biometric_auth_enabled" "false")

/-- The function `enableBiometric` (lines 134-142). -/
def enableBiometric (c : State) : Result × State :=
  let result := serviceEnableBiometric c.storage
  (result.1, { c with storage := result.2 })

/-- The function `disableBiometric` (lines 145-153). -/
def disableBiometric (c : State) : Result × State :=
  let result := serviceDisableBiometric c.storage
  (result.1, { c with storage := result.2 })

/-- Modelled from the spec: how `biometricAuthService.authenticate()` ends: with a
result object or with a thrown error and its message. -/
inductive BiometricOutcome where
  | returned (result : Result) : BiometricOutcome
  | threw (message : Option String) : BiometricOutcome

/-- The function `authenticateWithBiometric` (lines 156-176), with the calls of
`login` it makes, each recorded by its two arguments. -/
def authenticateWithBiometric (codec : Codec) (bio : BiometricOutcome) (api : LoginApi)
    (c : State) : Result × State × List (Option String × Option String) :=
  match bio with
  | .threw message => (⟨some false, none, message⟩, c, [])
  | .returned result =>
    if !(result.success.getD false) then (result, c, [])
    else if !truthy (getItem c.storage "stored_credentials") then
      (⟨some false, none, some "No stored credentials found"⟩, c, [])
    else
      match codec.parseCredentials ((getItem c.storage "stored_credentials").getD "") with
      | .error message => (⟨some false, none, some message⟩, c, [])
      | .ok (email, password) =>
        let loginResult := login codec api c email password
        (loginResult.1, loginResult.2, [(email, password)])

end AuthContext

/-! ## The client: `screens/auth/LoginScreen.js` -/

namespace LoginScreen

/-- The state `formData` of the login screen. -/
structure Form where
  email : String
  password : String

/-- The object `newErrors` of `validateForm` (lines 80-93), as its entries. -/
def formErrors (formData : Form) : List (String × String) :=
  (if formData.email = "" then [("email", "Email is required")]
   else if !emailRegexTest formData.email then [("email", "Please enter a valid email")]
   else []) ++
  (if formData.password = "" then [("password", "Password is required")] else [])

/-- The function `validateForm` (lines 79-97). -/
def validateForm (formData : Form) : Bool := (formErrors formData).length = 0

/-- The function `handleLogin` (lines 133-177) together with the callback it hands
to the CAPTCHA screen: the provider state afterwards and the calls of `login`
made. The flag `verified` tells whether the CAPTCHA screen called the callback
with `true`; `first` and `retry` are the server at the first call and at the
call after the CAPTCHA. -/
def handleLogin (codec : AuthContext.Codec) (first retry : AuthContext.LoginApi)
    (verified : Bool) (c : AuthContext.State) (formData : Form) :
    AuthContext.State × List (Option String × Option String) :=
  if validateForm formData then
    let result := AuthContext.login codec first c (some formData.email) (some formData.password)
    if result.1.requiresCaptcha.getD false then
      if verified then
        let loginResult :=
          AuthContext.login codec retry result.2 (some formData.email) (some formData.password)
        if loginResult.1.success.getD false then
          ({ loginResult.2 with
              storage := AuthContext.setItem loginResult.2.storage "stored_credentials"
                (codec.stringifyCredentials formData.email formData.password) },
           [(some formData.email, some formData.password),
            (some formData.email, some formData.password)])
        else
          (loginResult.2, [(some formData.email, some formData.password),
                           (some formData.email, some formData.password)])
      else (result.2, [(some formData.email, some formData.password)])
    else if result.1.success.getD false then
      ({ result.2 with
          storage := AuthContext.setItem result.2.storage "stored_credentials"
            (codec.stringifyCredentials formData.email formData.password) },
       [(some formData.email, some formData.password)])
    else (result.2, [(some formData.email, some formData.password)])
  else (c, [])

end LoginScreen

/-! ## The client: `screens/auth/CaptchaScreen.js` and `screens/auth/RegisterScreen.js` -/

namespace CaptchaScreen

/-- The function `handleVerify` (lines 40-65): whether it calls
`onVerificationComplete(true)`, for the typed answer and the way the verification
request ends. -/
def handleVerify (userInput : String) (api : String → AuthContext.ApiOutcome) : Bool :=
  if jsTrim userInput = "" then false
  else AuthContext.verifyCaptcha (api userInput)

end CaptchaScreen

namespace RegisterScreen

/-- The state `formData` of the registration screen; the date of birth is a `Date`,
as its time value, or null. -/
structure Form where
  name : String
  email : String
  password : String
  confirmPassword : String
  countryCode : String
  phoneNumber : String
  address : String
  dateOfBirth : Option Int

/-- The object `newErrors` of `validateForm` (lines 41-81), as its entries;
`today` is the time value of `new Date()`. -/
def formErrors (today : Int) (formData : Form) : List (String × String) :=
  (if jsTrim formData.name = "" then [("name", "Name is required")] else []) ++
  (if formData.email = "" then [("email", "Email is required")]
   else if !emailRegexTest formData.email then [("email", "Please enter a valid email")]
   else []) ++
  (if formData.password = "" then [("password", "Password is required")]
   else if jsLength formData.password < 6 then
     [("password", "Password must be at least 6 characters")]
   else []) ++
  (if formData.password ≠ formData.confirmPassword then
     [("confirmPassword", "Passwords do not match")]
   else []) ++
  (if jsTrim formData.address = "" then [("address", "Address is required")] else []) ++
  (match formData.dateOfBirth with
   | none => [("dateOfBirth", "Date of birth is required")]
   | some d =>
     if d > today then [("dateOfBirth", "Date of birth cannot be in the future")] else [])

/-- The function `validateForm` (lines 40-85). -/
def validateForm (today : Int) (formData : Form) : Bool := (formErrors today formData).length = 0

/-- The object handed to `register` at lines 100-104, as the server reads it;
`isoDate` is `toISOString().split('T')[0]`. -/
def requestBody (isoDate : Int → String) (formData : Form) (dateOfBirth : Int) : RegisterBody :=
  { name := some formData.name, email := some formData.email,
    password := some formData.password, countryCode := some formData.countryCode,
    phoneNumber := some formData.phoneNumber, address := some formData.address,
    dateOfBirth := some (isoDate dateOfBirth), captchaVerified := some true }

/-- The function `handleRegister` (lines 87-120) together with the callback it
hands to the CAPTCHA screen: the provider state afterwards and the register
requests sent. The flag `verified` tells whether the CAPTCHA screen called the
callback with `true`. -/
def handleRegister (codec : AuthContext.Codec) (isoDate : Int → String) (today : Int)
    (verified : Bool) (api : AuthContext.RegisterApi) (c : AuthContext.State)
    (formData : Form) : AuthContext.State × List RegisterBody :=
  if validateForm today formData then
    if verified then
      match formData.dateOfBirth with
      | none => (c, [])
      | some d =>
        let result := AuthContext.register codec api c (requestBody isoDate formData d)
        (result.2.1, result.2.2)
    else (c, [])
  else (c, [])

end RegisterScreen

/-! ## Requests to the server, the CAPTCHA Gate included -/

/-- Modelled from the spec: a request to the server is a request of `Op` or a
request to the CAPTCHA Gate, whose routes are not among the sources: a challenge
is issued, or an answer is verified against the issued challenge with the given
result. -/
inductive Request where
  | captchaIssue : Request
  | captchaVerify (success : Bool) : Request
  | api (op : Op) : Request

/-- The database after one request. The handlers of `Op` are the only code of
the sources that writes it. -/
def Request.step (env : Env) (db : Store) : Request → Store
  | .api op => StockBuddy.step env db op
  | _ => db

/-- The database after a sequence of requests, starting from the empty database. -/
def exec (env : Env) (requests : List Request) : Store := requests.foldl (Request.step env) []

/-- Whether a verification of a CAPTCHA answer succeeds somewhere in the sequence. -/
def gatePassed (requests : List Request) : Bool :=
  requests.any (fun r => match r with | .captchaVerify true => true | _ => false)

/-! ## Sample values of the client -/

/-- A toy codec: a credential pair is stored as the two strings with a blank
between them, and one stored string is understood. -/
def sampleCodec : AuthContext.Codec where
  stringifyUser := fun _ => "ann"
  stringifyCredentials := fun email password => email ++ " " ++ password
  parseCredentials := fun stored =>
    if stored = "ann@x.com secret1" then .ok (some "ann@x.com", some "secret1")
    else .error "Unexpected token"

/-- A server that knows one verified account. -/
def sampleLoginApi : AuthContext.LoginApi := fun email password =>
  if email = some "ann@x.com" ∧ password = some "secret1" then
    .responded false "token2" (.val (.str "ann"))
  else .threw (some "Invalid credentials")

/-- A server that asks for the CAPTCHA. -/
def captchaLoginApi : AuthContext.LoginApi := fun _ _ =>
  .responded true "" (.val .null)

/-- A server that accepts every registration. -/
def sampleRegisterApi : AuthContext.RegisterApi := fun _ =>
  .responded false "token" (.val (.str "ann"))

/-- A device that holds nothing. -/
def freshDevice : AuthContext.State :=
  { storage := [], user := none, loading := false, error := none }

/-- The login form of the sample account. -/
def sampleLoginForm : LoginScreen.Form := { email := "ann@x.com", password := "secret1" }

/-- A registration form that passes the validation of the screen. -/
def sampleRegisterForm : RegisterScreen.Form :=
  { name := "Ann", email := "ann@x.com", password := "secret1", confirmPassword := "secret1",
    countryCode := "+1", phoneNumber := "", address := "1 Rd", dateOfBirth := some 946684800000 }

/-- A toy `toISOString().split('T')[0]`, right on the sample date. -/
def sampleIsoDate (_d : Int) : String := "2000-01-01"

/-! ## Regular expressions: the matcher decides the language -/

theorem Regex.nullable_iff (r : Regex) : r.nullable = true ↔ r.Lang [] := by
  induction r with
  | empty => simp [Regex.nullable, Regex.Lang]
  | eps => simp [Regex.nullable, Regex.Lang]
  | cls p => simp [Regex.nullable, Regex.Lang]
  | seq r s ihr ihs =>
    simp only [Regex.nullable, Regex.Lang, Bool.and_eq_true, ihr, ihs]
    constructor
    · rintro ⟨h1, h2⟩
      exact ⟨[], [], rfl, h1, h2⟩
    · rintro ⟨a, b, hab, h1, h2⟩
      have hab2 := hab.symm
      rw [List.append_eq_nil] at hab2
      obtain ⟨rfl, rfl⟩ := hab2
      exact ⟨h1, h2⟩
  | alt r s ihr ihs => simp [Regex.nullable, Regex.Lang, ihr, ihs]
  | star r _ =>
    simp only [Regex.nullable, Regex.Lang, true_iff]
    exact ⟨[], rfl, by simp⟩

theorem Regex.star_cons_iff (r : Regex) (c : Char) (s : List Char) :
    (Regex.star r).Lang (c :: s) ↔
      ∃ a b, s = a ++ b ∧ r.Lang (c :: a) ∧ (Regex.star r).Lang b := by
  constructor
  · rintro ⟨parts, hs, hall⟩
    induction parts with
    | nil => simp at hs
    | cons p ps ih =>
      cases p with
      | nil =>
        simp only [List.flatten_cons, List.nil_append] at hs
        exact ih hs (fun a ha => hall a (List.mem_cons_of_mem _ ha))
      | cons x xs =>
        simp only [List.flatten_cons, List.cons_append, List.cons.injEq] at hs
        obtain ⟨rfl, rfl⟩ := hs
        exact ⟨xs, ps.flatten, rfl, hall _ (List.mem_cons_self _ _),
          ps, rfl, fun a ha => hall a (List.mem_cons_of_mem _ ha)⟩
  · rintro ⟨a, b, rfl, ha, parts, rfl, hall⟩
    refine ⟨(c :: a) :: parts, by simp, ?_⟩
    intro x hx
    rcases List.mem_cons.1 hx with rfl | hx
    · exact ha
    · exact hall x hx

theorem Regex.deriv_iff (r : Regex) (c : Char) (s : List Char) :
    (r.deriv c).Lang s ↔ r.Lang (c :: s) := by
  induction r generalizing s with
  | empty => simp [Regex.deriv, Regex.Lang]
  | eps => simp [Regex.deriv, Regex.Lang]
  | cls p =>
    simp only [Regex.deriv, Regex.Lang]
    by_cases hp : p c = true
    · simp only [hp, if_true, Regex.Lang]
      constructor
      · rintro rfl
        exact ⟨c, rfl, hp⟩
      · rintro ⟨x, hx, _⟩
        simp only [List.cons.injEq] at hx
        exact hx.2
    · simp only [hp, Regex.Lang, false_iff]
      rintro ⟨x, hx, hpx⟩
      simp only [List.cons.injEq] at hx
      rw [← hx.1] at hpx
      exact hp hpx
  | seq r1 r2 ih1 ih2 =>
    have key : (Regex.seq r1 r2).Lang (c :: s) ↔
        (∃ a b, s = a ++ b ∧ r1.Lang (c :: a) ∧ r2.Lang b) ∨ (r1.Lang [] ∧ r2.Lang (c :: s)) := by
      simp only [Regex.Lang]
      constructor
      · rintro ⟨a, b, hab, h1, h2⟩
        cases a with
        | nil =>
          simp only [List.nil_append] at hab
          subst hab
          exact Or.inr ⟨h1, h2⟩
        | cons x xs =>
          simp only [List.cons_append, List.cons.injEq] at hab
          obtain ⟨rfl, rfl⟩ := hab
          exact Or.inl ⟨xs, b, rfl, h1, h2⟩
      · rintro (⟨a, b, rfl, h1, h2⟩ | ⟨h1, h2⟩)
        · exact ⟨c :: a, b, rfl, h1, h2⟩
        · exact ⟨[], c :: s, rfl, h1, h2⟩
    rw [key]
    simp only [Regex.deriv]
    by_cases hn : r1.nullable = true
    · simp only [hn, if_true, Regex.Lang, ih1, ih2]
      have h0 := (Regex.nullable_iff r1).1 hn
      simp [h0]
    · simp only [hn, Regex.Lang, ih1]
      have h0 : ¬ r1.Lang [] := fun h => hn ((Regex.nullable_iff r1).2 h)
      simp [h0]
  | alt r1 r2 ih1 ih2 => simp [Regex.deriv, Regex.Lang, ih1, ih2]
  | star r ih =>
    rw [Regex.star_cons_iff]
    simp only [Regex.deriv]
    constructor
    · rintro ⟨a, b, hab, h1, h2⟩
      exact ⟨a, b, hab, (ih a).1 h1, h2⟩
    · rintro ⟨a, b, hab, h1, h2⟩
      exact ⟨a, b, hab, (ih a).2 h1, h2⟩

theorem Regex.test_iff (r : Regex) (s : List Char) : r.test s = true ↔ r.Lang s := by
  induction s generalizing r with
  | nil => simpa [Regex.test] using Regex.nullable_iff r
  | cons c cs ih => simp only [Regex.test, ih, Regex.deriv_iff]

theorem Regex.lang_star_cls (p : Char → Bool) (s : List Char) :
    (Regex.star (Regex.cls p)).Lang s ↔ ∀ c ∈ s, p c = true := by
  constructor
  · rintro ⟨parts, rfl, hall⟩ c hc
    obtain ⟨l, hl, hcl⟩ := List.mem_flatten.1 hc
    obtain ⟨x, rfl, hx⟩ := hall l hl
    rw [List.mem_singleton] at hcl
    rw [hcl]; exact hx
  · intro h
    refine ⟨s.map (fun c => [c]), ?_, ?_⟩
    · clear h
      induction s with
      | nil => rfl
      | cons x xs ih => simp [← ih]
    · intro a ha
      obtain ⟨c, hc, rfl⟩ := List.mem_map.1 ha
      exact ⟨c, rfl, h c hc⟩

theorem Regex.lang_plus_cls (p : Char → Bool) (s : List Char) :
    (Regex.plus (Regex.cls p)).Lang s ↔ s ≠ [] ∧ ∀ c ∈ s, p c = true := by
  unfold Regex.plus
  constructor
  · rintro ⟨a, b, rfl, ⟨x, rfl, hx⟩, hb⟩
    rw [Regex.lang_star_cls] at hb
    refine ⟨by simp, ?_⟩
    intro c hc
    rcases List.mem_append.1 hc with h | h
    · rw [List.mem_singleton] at h; rw [h]; exact hx
    · exact hb c h
  · rintro ⟨hne, hall⟩
    cases s with
    | nil => exact absurd rfl hne
    | cons x xs =>
      refine ⟨[x], xs, rfl, ⟨x, rfl, hall x (List.mem_cons_self _ _)⟩, ?_⟩
      rw [Regex.lang_star_cls]
      intro c hc
      exact hall c (List.mem_cons_of_mem _ hc)

theorem Regex.lang_seq (r1 r2 : Regex) (s : List Char) :
    (Regex.seq r1 r2).Lang s ↔ ∃ a b, s = a ++ b ∧ r1.Lang a ∧ r2.Lang b := Iff.rfl

theorem Regex.lang_cls (p : Char → Bool) (s : List Char) :
    (Regex.cls p).Lang s ↔ ∃ c, s = [c] ∧ p c = true := Iff.rfl

/-- The language of the email literal, part by part. -/
theorem emailRegex_lang (s : List Char) :
    emailRegex.Lang s ↔
      ∃ a b c, s = a ++ '@' :: (b ++ '.' :: c) ∧
        (a ≠ [] ∧ ∀ x ∈ a, notSpaceAt x = true) ∧
        (b ≠ [] ∧ ∀ x ∈ b, notSpaceAt x = true) ∧
        (c ≠ [] ∧ ∀ x ∈ c, notSpaceAt x = true) := by
  unfold emailRegex
  simp only [Regex.lang_seq, Regex.lang_cls, Regex.lang_plus_cls]
  constructor
  · rintro ⟨a, r1, rfl, ha, at1, r2, rfl, ⟨x, rfl, hx⟩, b, r3, rfl, hb, dot, c, rfl, ⟨y, rfl, hy⟩, hc⟩
    simp only [beq_iff_eq] at hx hy
    subst hx; subst hy
    exact ⟨a, b, c, by simp, ha, hb, hc⟩
  · rintro ⟨a, b, c, rfl, ha, hb, hc⟩
    exact ⟨a, _, rfl, ha, ['@'], _, rfl, ⟨'@', rfl, by simp⟩, b, _, rfl, hb, ['.'], c, rfl,
      ⟨'.', rfl, by simp⟩, hc⟩

theorem notSpaceAt_iff (c : Char) : notSpaceAt c = true ↔ isJsSpace c = false ∧ c ≠ '@' := by
  simp [notSpaceAt]

theorem emailRegex_lang_iff_shape (s : List Char) : emailRegex.Lang s ↔ EmailShape s := by
  rw [emailRegex_lang]
  constructor
  · rintro ⟨a, b, c, rfl, ⟨ha, ha2⟩, ⟨hb, hb2⟩, ⟨hc, hc2⟩⟩
    have na : ∀ x ∈ a, isJsSpace x = false ∧ x ≠ '@' := fun x hx => (notSpaceAt_iff x).1 (ha2 x hx)
    have nb : ∀ x ∈ b, isJsSpace x = false ∧ x ≠ '@' := fun x hx => (notSpaceAt_iff x).1 (hb2 x hx)
    have nc : ∀ x ∈ c, isJsSpace x = false ∧ x ≠ '@' := fun x hx => (notSpaceAt_iff x).1 (hc2 x hx)
    refine ⟨?_, ?_, a, _, rfl, ha, b, c, rfl, hb, hc⟩
    · intro x hx
      simp only [List.mem_append, List.mem_cons] at hx
      rcases hx with h | rfl | h | rfl | h
      · exact (na x h).1
      · decide
      · exact (nb x h).1
      · decide
      · exact (nc x h).1
    · have ca : a.count '@' = 0 := List.count_eq_zero.2 (fun h => (na _ h).2 rfl)
      have cb : b.count '@' = 0 := List.count_eq_zero.2 (fun h => (nb _ h).2 rfl)
      have cc : c.count '@' = 0 := List.count_eq_zero.2 (fun h => (nc _ h).2 rfl)
      simp [List.count_append, List.count_cons, ca, cb, cc]
  · rintro ⟨hsp, hcount, a, d, rfl, ha, b, c, rfl, hb, hc⟩
    simp only [List.count_append, List.count_cons, beq_self_eq_true, if_true] at hcount
    have hdot : (('.' : Char) == '@') = false := by decide
    simp only [hdot] at hcount
    have ca : a.count '@' = 0 := by omega
    have cb : b.count '@' = 0 := by omega
    have cc : c.count '@' = 0 := by omega
    rw [List.count_eq_zero] at ca cb cc
    refine ⟨a, b, c, rfl, ⟨ha, ?_⟩, ⟨hb, ?_⟩, ⟨hc, ?_⟩⟩
    · intro x hx
      exact (notSpaceAt_iff x).2 ⟨hsp x (by simp [hx]), fun h => ca (h ▸ hx)⟩
    · intro x hx
      exact (notSpaceAt_iff x).2 ⟨hsp x (by simp [hx]), fun h => cb (h ▸ hx)⟩
    · intro x hx
      exact (notSpaceAt_iff x).2 ⟨hsp x (by simp [hx]), fun h => cc (h ▸ hx)⟩

theorem emailRegexTest_iff (e : String) : emailRegexTest e = true ↔ EmailShape e.data := by
  unfold emailRegexTest
  rw [Regex.test_iff, emailRegex_lang_iff_shape]

/-! ## Trimming and lower-casing a validated email -/

theorem isJsSpace_lowerLatin1 (c : Char) (h : isJsSpace c = false) :
    isJsSpace (lowerLatin1 c) = false := by
  unfold lowerLatin1
  split
  · rename_i hr
    generalize c.toNat = n at hr
    rcases hr with ⟨h1, h2⟩ | ⟨h1, h2, _⟩
    · interval_cases n <;> decide
    · interval_cases n <;> decide
  · exact h

/-- The sample lower-casing has the property the proofs use. -/
theorem sampleEnv_lowerCase : sampleEnv.LowerCaseKeepsShape := by
  intro s hne hs
  constructor
  · intro h0
    apply hne
    have h1 : (toLowerCaseLatin1 s).data = [] := by
      have h2 : toLowerCaseLatin1 s = "" := h0
      rw [h2]
    simp only [toLowerCaseLatin1, List.map_eq_nil_iff] at h1
    cases s with
    | mk d => simp only at h1; rw [h1]
  · intro c hc
    have hc2 : c ∈ (toLowerCaseLatin1 s).data := hc
    simp only [toLowerCaseLatin1, List.mem_map] at hc2
    obtain ⟨x, hx, rfl⟩ := hc2
    exact isJsSpace_lowerLatin1 x (hs x hx)

theorem dropWhile_eq_self_of_head {p : Char → Bool} (l : List Char)
    (h : ∀ c ∈ l, p c = false) : l.dropWhile p = l := by
  cases l with
  | nil => rfl
  | cons x xs => simp [List.dropWhile, h x (List.mem_cons_self _ _)]

theorem jsTrimList_of_noSpace (l : List Char) (h : ∀ c ∈ l, isJsSpace c = false) :
    jsTrimList l = l := by
  unfold jsTrimList
  rw [dropWhile_eq_self_of_head l h, dropWhile_eq_self_of_head l.reverse, List.reverse_reverse]
  intro c hc
  exact h c (List.mem_reverse.1 hc)

theorem jsTrim_toLowerCase_of_test (env : Env) (henv : env.LowerCaseKeepsShape) (e : String)
    (h : emailRegexTest e = true) :
    jsTrim (env.toLowerCase e) = env.toLowerCase e ∧ env.toLowerCase e ≠ "" := by
  have hs := ((emailRegexTest_iff e).1 h).1
  have hne : e ≠ "" := by
    intro h0
    rw [h0] at h
    revert h
    decide
  obtain ⟨h1, h2⟩ := henv e hne hs
  refine ⟨?_, h1⟩
  unfold jsTrim
  rw [jsTrimList_of_noSpace _ h2]

/-! ## Register: duplicates, CAPTCHA, password length and email shape (C1, C5, C6, C7) -/

/-- What a register request does: it is rejected with the database kept, or it
answers 201 after storing one new document. -/
theorem register_cases (env : Env) (ctx : Ctx) (db : Store) (b : RegisterBody) :
    ((register env ctx db b).1.status ≠ 201 ∧ (register env ctx db b).2 = db) ∨
    ((register env ctx db b).1.status = 201 ∧
      truthy b.name = true ∧ truthy b.email = true ∧ truthy b.password = true ∧
      6 ≤ jsLength (b.password.getD "") ∧ emailRegexTest (b.email.getD "") = true ∧
      findOne db (env.toLowerCase (b.email.getD "")) = none ∧ b.captchaVerified = some true ∧
      (∀ v ∈ db, v._id ≠ ctx.newId) ∧
      ∃ u : User, (register env ctx db b).2 = db ++ [u] ∧ u._id = ctx.newId ∧
        u.email = jsTrim (env.toLowerCase (b.email.getD "")) ∧ u.captchaVerified = true ∧
        u.name = jsTrim (b.name.getD "") ∧
        u.password = env.hash (b.password.getD "") (env.genSalt 10 ctx.rand) ∧
        u.createdAt = ctx.now ∧ u.lastLogin = ctx.now ∧
        (register env ctx db b).1.field "user" = some (registerView u) ∧
        (register env ctx db b).1.hasToken = true) := by
  generalize hr : register env ctx db b = r
  unfold register at hr
  simp only [] at hr
  split_ifs at hr with h1 h2 h3 h4 h5
  · subst hr; left; exact ⟨by simp [failure], rfl⟩
  · subst hr; left; exact ⟨by simp [failure], rfl⟩
  · subst hr; left; exact ⟨by simp [failure], rfl⟩
  · subst hr; left; exact ⟨by simp [failure], rfl⟩
  · subst hr; left; exact ⟨by simp [failure], rfl⟩
  · split at hr
    · subst hr; left; exact ⟨by simp [failure], rfl⟩
    · rename_i dob hdob
      split at hr
      · subst hr; left; exact ⟨by simp [failure], rfl⟩
      · rename_i db1 hins
        subst hr
        right
        simp only [Bool.or_eq_true, Bool.not_eq_true', not_or, Bool.not_eq_false] at h1
        simp only [Bool.not_eq_true', Bool.not_eq_false, not_lt, Option.isSome_iff_ne_none,
          ne_eq, not_not] at h2 h3 h4 h5
        unfold insertDoc at hins
        split_ifs at hins with hany
        simp only [Option.some.injEq] at hins
        subst hins
        have hc : b.captchaVerified = some true := by
          cases hcv : b.captchaVerified with
          | none => simp [hcv] at h5
          | some v => simp [hcv] at h5; simp [h5]
        refine ⟨rfl, h1.1.1, h1.1.2, h1.2, h2, h3, h4, hc, ?_, _, rfl, rfl, rfl, rfl, rfl, rfl,
          rfl, rfl, rfl, rfl⟩
        intro v hv hid
        apply hany
        simp only [List.any_eq_true, decide_eq_true_eq]
        exact ⟨v, hv, hid⟩

theorem truthy_some {o : Option String} (h : truthy o = true) : ∃ s, o = some s ∧ s ≠ "" := by
  cases o with
  | none => simp [truthy] at h
  | some s => exact ⟨s, rfl, by simpa [truthy] using h⟩

/-- The duplicate branch of register (lines 73-83). -/
theorem register_existing (env : Env) (ctx : Ctx) (db : Store) (b : RegisterBody)
    (hn : truthy b.name = true) (he : truthy b.email = true) (hp : truthy b.password = true)
    (hlen : 6 ≤ jsLength (b.password.getD "")) (hre : emailRegexTest (b.email.getD "") = true)
    (hex : (findOne db (env.toLowerCase (b.email.getD ""))).isSome = true) :
    register env ctx db b =
      (failure 400 "User already exists"
        [("validationErrors", .obj [("email", .str "Email is already registered")])], db) := by
  unfold register
  simp only [hn, he, hp, hre, hex, Bool.not_true, Bool.or_self, Bool.false_eq_true, if_false,
    if_true, Nat.not_lt.2 hlen]

theorem findOne_append_isSome (db : Store) (u : User) (key : String) (h : u.email = key) :
    (findOne (db ++ [u]) key).isSome = true := by
  unfold findOne
  rw [List.find?_isSome]
  exact ⟨u, by simp, by simp [h]⟩

theorem countEmail_append (db : Store) (u : User) (key : String) (h : u.email = key)
    (hnone : findOne db key = none) : countEmail (db ++ [u]) key = 1 := by
  unfold countEmail
  unfold findOne at hnone
  rw [List.find?_eq_none] at hnone
  have h0 : db.filter (fun v => decide (v.email = key)) = [] := by
    rw [List.filter_eq_nil_iff]
    exact hnone
  simp [List.filter_append, h0, List.filter_cons, h]

theorem countFolded_append (env : Env) (db : Store) (u : User) (key : String)
    (hidem : env.toLowerCase (env.toLowerCase key) = env.toLowerCase key)
    (hnorm : ∀ v ∈ db, env.toLowerCase v.email = v.email) (hu : u.email = env.toLowerCase key)
    (hnone : findOne db (env.toLowerCase key) = none) :
    countEmailFolded env (db ++ [u]) key = 1 := by
  unfold countEmailFolded
  unfold findOne at hnone
  rw [List.find?_eq_none] at hnone
  have h0 : db.filter (fun v => decide (env.toLowerCase v.email = env.toLowerCase key)) = [] := by
    rw [List.filter_eq_nil_iff]
    intro v hv
    rw [hnorm v hv]
    exact hnone v hv
  simp [List.filter_append, h0, List.filter_cons, hu, hidem]

/-- The duplicate check of register. If a register request is answered 201, a
following register request whose email has the same lower-casing, and which is
otherwise valid, is answered 400 `User already exists`; the database is the one
the first request left, and it holds exactly one document whose email is the
lower-cased email. When the emails stored before were already in lower case, as
register stores them, it is also the only document whose email lower-cases to it. -/
theorem register_duplicate_rejected (env : Env) (henv : env.LowerCaseKeepsShape)
    (ctx1 ctx2 : Ctx) (db : Store)
    (b1 b2 : RegisterBody) (e1 e2 : String)
    (h1 : b1.email = some e1) (h2 : b2.email = some e2)
    (hcase : env.toLowerCase e1 = env.toLowerCase e2)
    (hname : truthy b2.name = true)
    (hpw : ∃ p, b2.password = some p ∧ 6 ≤ jsLength p)
    (hshape : emailRegexTest e2 = true)
    (hfirst : (register env ctx1 db b1).1.status = 201) :
    (register env ctx2 (register env ctx1 db b1).2 b2).1.status = 400 ∧
    (register env ctx2 (register env ctx1 db b1).2 b2).1.message = some "User already exists" ∧
    (register env ctx2 (register env ctx1 db b1).2 b2).2 = (register env ctx1 db b1).2 ∧
    countEmail (register env ctx2 (register env ctx1 db b1).2 b2).2 (env.toLowerCase e1) = 1 ∧
    (env.toLowerCase (env.toLowerCase e1) = env.toLowerCase e1 →
      (∀ v ∈ db, env.toLowerCase v.email = v.email) →
      countEmailFolded env (register env ctx2 (register env ctx1 db b1).2 b2).2 e1 = 1) := by
  rcases register_cases env ctx1 db b1 with ⟨hne, _⟩ | ⟨_, _, _, _, _, hre1, hnone, _, _, u, hdb, _, hmail, _⟩
  · exact absurd hfirst hne
  · simp only [h1, Option.getD_some] at hre1 hnone hmail
    rw [(jsTrim_toLowerCase_of_test env henv e1 hre1).1] at hmail
    obtain ⟨p, hp, hlen⟩ := hpw
    have hexists : (findOne (register env ctx1 db b1).2
        (env.toLowerCase (b2.email.getD ""))).isSome = true := by
      rw [hdb, h2, Option.getD_some, ← hcase]
      exact findOne_append_isSome db u _ hmail
    have hpne : p ≠ "" := by
      intro h0
      rw [h0] at hlen
      revert hlen
      decide
    have he2 : e2 ≠ "" := by
      intro h0
      rw [h0] at hshape
      revert hshape
      decide
    rw [register_existing env ctx2 _ b2 hname (by simp [h2, truthy, he2])
      (by simp [hp, truthy, hpne]) (by simpa [hp] using hlen) (by simpa [h2] using hshape) hexists]
    refine ⟨rfl, rfl, rfl, ?_, ?_⟩
    · rw [hdb]
      exact countEmail_append db u _ hmail hnone
    · intro hidem hnorm
      rw [hdb]
      exact countFolded_append env db u e1 hidem hnorm hmail hnone

/-- An instance of `register_duplicate_rejected`: `Ann@X.com`, then `ann@x.com`,
on the empty database. -/
theorem register_duplicate_rejected_instance :
    (register sampleEnv ⟨1000, 0, 1⟩ [] (sampleRegister "Ann" "Ann@X.com" "secret1")).1.status = 201 ∧
    (register sampleEnv ⟨2000, 0, 2⟩
        (register sampleEnv ⟨1000, 0, 1⟩ [] (sampleRegister "Ann" "Ann@X.com" "secret1")).2
        (sampleRegister "Anna" "ann@x.com" "secret2")).1.message = some "User already exists" ∧
    countEmailFolded sampleEnv (register sampleEnv ⟨2000, 0, 2⟩
        (register sampleEnv ⟨1000, 0, 1⟩ [] (sampleRegister "Ann" "Ann@X.com" "secret1")).2
        (sampleRegister "Anna" "ann@x.com" "secret2")).2 "Ann@X.com" = 1 :=
  have h := register_duplicate_rejected sampleEnv sampleEnv_lowerCase ⟨1000, 0, 1⟩ ⟨2000, 0, 2⟩ []
    (sampleRegister "Ann" "Ann@X.com" "secret1") (sampleRegister "Anna" "ann@x.com" "secret2")
    "Ann@X.com" "ann@x.com" rfl rfl (by decide) (by decide) ⟨"secret2", rfl, by decide⟩
    (by decide) (by decide)
  ⟨by decide, h.2.1, h.2.2.2.2 (by decide) (by simp)⟩

/-- Claim C1, evaluated on the code. An account registered as `bob@x.com` changes
its email to `ANN@x.com` through the profile update, which stores it as sent.
The register request for `ann@x.com` that follows is answered 201, and the one
for `Ann@X.com` after it is answered 400 `User already exists`; the database
then holds two documents whose emails are equal up to letter case, `ANN@x.com`
and `ann@x.com`. -/
theorem register_duplicate_after_capital_update :
    (run sampleEnv capitalEmailOps).map (fun u => (u._id, u.email)) = [(1, "ANN@x.com")] ∧
    (register sampleEnv ⟨2000, 0, 2⟩ (run sampleEnv capitalEmailOps)
      (sampleRegister "Ann" "ann@x.com" "secret2")).1.status = 201 ∧
    (register sampleEnv ⟨3000, 0, 3⟩
      (register sampleEnv ⟨2000, 0, 2⟩ (run sampleEnv capitalEmailOps)
        (sampleRegister "Ann" "ann@x.com" "secret2")).2
      (sampleRegister "Anna" "Ann@X.com" "secret3")).1.status = 400 ∧
    (register sampleEnv ⟨3000, 0, 3⟩
      (register sampleEnv ⟨2000, 0, 2⟩ (run sampleEnv capitalEmailOps)
        (sampleRegister "Ann" "ann@x.com" "secret2")).2
      (sampleRegister "Anna" "Ann@X.com" "secret3")).1.message = some "User already exists" ∧
    (register sampleEnv ⟨3000, 0, 3⟩
      (register sampleEnv ⟨2000, 0, 2⟩ (run sampleEnv capitalEmailOps)
        (sampleRegister "Ann" "ann@x.com" "secret2")).2
      (sampleRegister "Anna" "Ann@X.com" "secret3")).2.map (fun u => (u._id, u.email))
      = [(1, "ANN@x.com"), (2, "ann@x.com")] ∧
    countEmailFolded sampleEnv (register sampleEnv ⟨3000, 0, 3⟩
      (register sampleEnv ⟨2000, 0, 2⟩ (run sampleEnv capitalEmailOps)
        (sampleRegister "Ann" "ann@x.com" "secret2")).2
      (sampleRegister "Anna" "Ann@X.com" "secret3")).2 "ann@x.com" = 2 := by
  decide

/-- Claim C5. A register request whose `captchaVerified` is false or absent
leaves the database as it was, and every document a register request adds has
`captchaVerified = true`. -/
theorem register_requires_captcha (env : Env) (ctx : Ctx) (db : Store) (b : RegisterBody) :
    ((b.captchaVerified = none ∨ b.captchaVerified = some false) →
      (register env ctx db b).2 = db) ∧
    ((register env ctx db b).2 = db ∨
      ∃ u, (register env ctx db b).2 = db ++ [u] ∧ u.captchaVerified = true) := by
  rcases register_cases env ctx db b with ⟨_, hdb⟩ | ⟨_, _, _, _, _, _, _, hc, _, u, hdb, _, _, hcv, _⟩
  · exact ⟨fun _ => hdb, Or.inl hdb⟩
  · refine ⟨?_, Or.inr ⟨u, hdb, hcv⟩⟩
    rintro (h | h) <;> rw [h] at hc <;> exact absurd hc (by decide)

/-- A witness of `register_requires_captcha`: a valid request without the CAPTCHA
flag stores nothing. -/
theorem register_requires_captcha_witness :
    (register sampleEnv ⟨1000, 0, 1⟩ []
      { sampleRegister "Ann" "ann@x.com" "secret1" with captchaVerified := none }).2 = [] :=
  (register_requires_captcha sampleEnv ⟨1000, 0, 1⟩ []
    { sampleRegister "Ann" "ann@x.com" "secret1" with captchaVerified := none }).1 (Or.inl rfl)

/-- Claim C6, as stated, fails: the password of three emoji has three characters,
its `length` is six, and the request is answered 201 and stored. -/
theorem register_three_character_password :
    "😀😀😀".length = 3 ∧ jsLength "😀😀😀" = 6 ∧
    (register sampleEnv ⟨1000, 0, 1⟩ [] (sampleRegister "Ann" "ann@x.com" "😀😀😀")).1.status
      = 201 ∧
    (register sampleEnv ⟨1000, 0, 1⟩ []
      (sampleRegister "Ann" "ann@x.com" "😀😀😀")).2.map (fun u => u.email) = ["ann@x.com"] := by
  decide

/-- Claim C6, amended. A register request whose password is a string of fewer
than six UTF-16 code units, the measure of `length`, is answered with status
400 and leaves the database as it was, whatever the other fields are. -/
theorem register_short_password (env : Env) (ctx : Ctx) (db : Store) (b : RegisterBody)
    (p : String) (hp : b.password = some p) (hlen : jsLength p < 6) :
    (register env ctx db b).1.status = 400 ∧ (register env ctx db b).2 = db := by
  have h6 : jsLength (b.password.getD "") < 6 := by rw [hp]; exact hlen
  unfold register
  by_cases h1 : (!truthy b.name || !truthy b.email || !truthy b.password) = true
  · rw [if_pos h1]
    exact ⟨rfl, rfl⟩
  · rw [if_neg h1]
    simp only []
    rw [if_pos h6]
    exact ⟨rfl, rfl⟩

/-- A witness of `register_short_password`: the five-character password `abcde`. -/
theorem register_short_password_witness :
    (register sampleEnv ⟨1000, 0, 1⟩ [] (sampleRegister "Ann" "ann@x.com" "abcde")).1.status = 400 ∧
    (register sampleEnv ⟨1000, 0, 1⟩ [] (sampleRegister "Ann" "ann@x.com" "abcde")).2 = [] :=
  register_short_password sampleEnv ⟨1000, 0, 1⟩ [] (sampleRegister "Ann" "ann@x.com" "abcde")
    "abcde" rfl (by decide)

/-- Claim C7, as stated, fails: the email `ann@x` is not of the shape, and with
the password `abc` the request is rejected by the password check, which comes
first, not with `Invalid email format`. -/
theorem register_bad_email_short_password :
    emailRegexTest "ann@x" = false ∧
    (register sampleEnv ⟨1000, 0, 1⟩ [] (sampleRegister "Ann" "ann@x" "abc")).1
      = failure 400 "Password must be at least 6 characters long"
          [("validationErrors", .obj
            [("password", .str "Password must be at least 6 characters long")])] ∧
    (register sampleEnv ⟨1000, 0, 1⟩ [] (sampleRegister "Ann" "ann@x" "abc")).1.message
      ≠ some "Invalid email format" := by
  decide

/-- Claim C7, amended. The email check of register accepts a string exactly when
it has the shape `local@domain.tld` of the specification. A request whose email
is a string of another shape is answered with status 400 and leaves the database
as it was; when the request reaches the check (name and email non-empty, password
of at least six code units) the answer is the `Invalid email format` rejection. -/
theorem register_email_check :
    (∀ e : String, emailRegexTest e = true ↔ EmailShape e.data) ∧
    (∀ (env : Env) (ctx : Ctx) (db : Store) (b : RegisterBody) (e : String),
      b.email = some e → ¬ EmailShape e.data →
        (register env ctx db b).1.status = 400 ∧ (register env ctx db b).2 = db ∧
        (truthy b.name = true → e ≠ "" → (∃ p, b.password = some p ∧ 6 ≤ jsLength p) →
          (register env ctx db b).1 = failure 400 "Invalid email format"
            [("validationErrors", .obj [("email", .str "Invalid email format")])])) := by
  refine ⟨emailRegexTest_iff, ?_⟩
  intro env ctx db b e he hshape
  have htest : (!emailRegexTest (b.email.getD "")) = true := by
    rw [he, Option.getD_some]
    cases h : emailRegexTest e with
    | false => rfl
    | true => exact absurd ((emailRegexTest_iff e).1 h) hshape
  unfold register
  by_cases h1 : (!truthy b.name || !truthy b.email || !truthy b.password) = true
  · rw [if_pos h1]
    refine ⟨rfl, rfl, ?_⟩
    intro hn hne ⟨p, hp, hlen⟩
    have hpne : p ≠ "" := by
      intro h0
      rw [h0] at hlen
      revert hlen
      decide
    have hte : truthy b.email = true := by simp [he, truthy, hne]
    have htp : truthy b.password = true := by simp [hp, truthy, hpne]
    rw [hn, hte, htp] at h1
    exact absurd h1 (by decide)
  · rw [if_neg h1]
    simp only []
    by_cases h2 : jsLength (b.password.getD "") < 6
    · rw [if_pos h2]
      refine ⟨rfl, rfl, ?_⟩
      intro _ _ ⟨p, hp, hlen⟩
      rw [hp, Option.getD_some] at h2
      omega
    · rw [if_neg h2, if_pos htest]
      exact ⟨rfl, rfl, fun _ _ _ => rfl⟩

/-- A witness of `register_email_check`: the email `ann@x` has no dot after the `@`. -/
theorem register_email_check_witness :
    ¬ EmailShape "ann@x".data ∧
    (register sampleEnv ⟨1000, 0, 1⟩ [] (sampleRegister "Ann" "ann@x" "secret1")).1
      = failure 400 "Invalid email format"
          [("validationErrors", .obj [("email", .str "Invalid email format")])] :=
  have hshape : ¬ EmailShape "ann@x".data :=
    fun h => absurd ((register_email_check.1 "ann@x").2 h) (by decide)
  ⟨hshape,
   (register_email_check.2 sampleEnv ⟨1000, 0, 1⟩ [] (sampleRegister "Ann" "ann@x" "secret1")
      "ann@x" rfl hshape).2.2 (by decide) (by decide) ⟨"secret1", rfl, by decide⟩⟩

/-! ## Email case across register, login and profile update (C2, C3) -/

/-- Claim C2, evaluated on the code. After two registrations and a profile update
of the second account to the first account's email in another letter case, the
database holds the emails `ann@x.com` and `ANN@x.com`: two documents whose emails
are equal after case-folding. -/
theorem update_email_breaks_case_uniqueness :
    (run sampleEnv caseClashOps).map (fun u => (u._id, u.email)) =
      [(1, "ann@x.com"), (2, "ANN@x.com")] ∧
    ¬ EmailsCaseUnique sampleEnv (run sampleEnv caseClashOps) := by
  decide

/-- Claim C3, evaluated on the code. Registering `Ann@X.com` is answered 201 and
stores the email `ann@x.com`; the login that follows with the same email and
password is answered 400 `Invalid credentials`, while the login with the
lower-cased email is answered 200. -/
theorem login_after_register_mixed_case :
    (register sampleEnv ⟨1000, 0, 1⟩ [] (sampleRegister "Ann" "Ann@X.com" "secret1")).1.status = 201 ∧
    (register sampleEnv ⟨1000, 0, 1⟩ [] (sampleRegister "Ann" "Ann@X.com" "secret1")).1.field "user"
      = some (.obj [("id", .oid 1), ("name", .str "Ann"), ("email", .str "ann@x.com"),
          ("countryCode", .str "+1"), ("phoneNumber", .str ""), ("address", .str "1 Rd"),
          ("dateOfBirth", .date 946684800000), ("createdAt", .date 1000),
          ("lastLogin", .date 1000), ("captchaVerified", .bool true)]) ∧
    (login sampleEnv ⟨2000, 0, 0⟩
      (register sampleEnv ⟨1000, 0, 1⟩ [] (sampleRegister "Ann" "Ann@X.com" "secret1")).2
      ⟨some "Ann@X.com", some "secret1"⟩).1 = failure 400 "Invalid credentials" [] ∧
    (login sampleEnv ⟨2000, 0, 0⟩
      (register sampleEnv ⟨1000, 0, 1⟩ [] (sampleRegister "Ann" "Ann@X.com" "secret1")).2
      ⟨some "ann@x.com", some "secret1"⟩).1.status = 200 := by
  decide

/-! ## Login: rejected credentials and the CAPTCHA gate (C8, C9) -/

/-- Claim C8, as stated, fails: the email matches a stored account and the empty
password does not verify against its hash, yet the answer is 400 `All fields are
required`, not `Invalid credentials`. -/
theorem login_empty_password_not_invalid_credentials :
    (∃ u, findOne [verifiedAnn] "ann@x.com" = some u ∧ sampleEnv.compare "" u.password = false) ∧
    (login sampleEnv ⟨2000, 0, 0⟩ [verifiedAnn] ⟨some "ann@x.com", some ""⟩).1.message
      = some "All fields are required" ∧
    (login sampleEnv ⟨2000, 0, 0⟩ [verifiedAnn] ⟨some "ann@x.com", some ""⟩).1.message
      ≠ some "Invalid credentials" := by
  refine ⟨⟨verifiedAnn, by decide, by decide⟩, by decide, by decide⟩

/-- Claim C8, amended. A login whose email matches no stored document, or whose
password does not verify against the hash of the matched document, is answered
with status 400, carries no token and leaves the database as it was; the message
is `Invalid credentials` when email and password are both non-empty and
`All fields are required` otherwise. -/
theorem login_bad_credentials (env : Env) (ctx : Ctx) (db : Store) (b : LoginBody)
    (hbad : findOne db (b.email.getD "") = none ∨
      ∃ u, findOne db (b.email.getD "") = some u ∧
        env.compare (b.password.getD "") u.password = false) :
    (login env ctx db b).1.status = 400 ∧
    (login env ctx db b).1.hasToken = false ∧
    (login env ctx db b).2 = db ∧
    (login env ctx db b).1.message =
      some (if truthy b.email && truthy b.password then "Invalid credentials"
            else "All fields are required") := by
  unfold login
  by_cases h1 : (!truthy b.email || !truthy b.password) = true
  · rw [if_pos h1]
    have h2 : (truthy b.email && truthy b.password) = false := by
      revert h1
      cases truthy b.email <;> cases truthy b.password <;> simp
    rw [h2]
    exact ⟨rfl, rfl, rfl, rfl⟩
  · rw [if_neg h1]
    have h2 : (truthy b.email && truthy b.password) = true := by
      revert h1
      cases truthy b.email <;> cases truthy b.password <;> simp
    rw [h2]
    simp only []
    rcases hbad with hnone | ⟨u, hu, hcmp⟩
    · rw [hnone]
      exact ⟨rfl, rfl, rfl, rfl⟩
    · rw [hu]
      have hc : (!env.compare (b.password.getD "") u.password) = true := by rw [hcmp]; rfl
      simp only []
      rw [if_pos hc]
      exact ⟨rfl, rfl, rfl, rfl⟩

/-- A witness of `login_bad_credentials`: a wrong password for a stored account. -/
theorem login_bad_credentials_witness :
    (login sampleEnv ⟨2000, 0, 0⟩ [verifiedAnn] ⟨some "ann@x.com", some "wrong"⟩).1.status = 400 ∧
    (login sampleEnv ⟨2000, 0, 0⟩ [verifiedAnn] ⟨some "ann@x.com", some "wrong"⟩).1.hasToken = false ∧
    (login sampleEnv ⟨2000, 0, 0⟩ [verifiedAnn] ⟨some "ann@x.com", some "wrong"⟩).2 = [verifiedAnn] ∧
    (login sampleEnv ⟨2000, 0, 0⟩ [verifiedAnn] ⟨some "ann@x.com", some "wrong"⟩).1.message =
      some (if truthy (some "ann@x.com") && truthy (some "wrong") then "Invalid credentials"
            else "All fields are required") :=
  login_bad_credentials sampleEnv ⟨2000, 0, 0⟩ [verifiedAnn] ⟨some "ann@x.com", some "wrong"⟩
    (Or.inr ⟨verifiedAnn, by decide, by decide⟩)

/-- Claim C9, as stated, fails: a login with a wrong password against an account
whose CAPTCHA flag is false is answered 400 `Invalid credentials`, not 403. -/
theorem login_unverified_wrong_password :
    findOne [unverifiedAnn] "ann@x.com" = some unverifiedAnn ∧
    unverifiedAnn.captchaVerified = false ∧
    (login sampleEnv ⟨2000, 0, 0⟩ [unverifiedAnn] ⟨some "ann@x.com", some "wrong"⟩).1
      = failure 400 "Invalid credentials" [] ∧
    (login sampleEnv ⟨2000, 0, 0⟩ [unverifiedAnn] ⟨some "ann@x.com", some "wrong"⟩).1.status
      ≠ 403 := by
  decide

/-- Claim C9, amended. A login against a stored account whose CAPTCHA flag is
false carries no token and leaves the database, and so the account's `lastLogin`,
as it was; when email and password are non-empty and the password verifies, the
answer is 403 `CAPTCHA verification required` with `requiresCaptcha: true`. -/
theorem login_captcha_required (env : Env) (ctx : Ctx) (db : Store) (b : LoginBody) (u : User)
    (hu : findOne db (b.email.getD "") = some u) (hcv : u.captchaVerified = false) :
    (login env ctx db b).1.hasToken = false ∧
    (login env ctx db b).2 = db ∧
    (truthy b.email = true → truthy b.password = true →
      env.compare (b.password.getD "") u.password = true →
      (login env ctx db b).1 =
        failure 403 "CAPTCHA verification required" [("requiresCaptcha", .val (.bool true))]) := by
  unfold login
  by_cases h1 : (!truthy b.email || !truthy b.password) = true
  · rw [if_pos h1]
    refine ⟨rfl, rfl, ?_⟩
    intro he hp _
    rw [he, hp] at h1
    exact absurd h1 (by decide)
  · rw [if_neg h1]
    simp only []
    rw [hu]
    simp only []
    have hv : (!u.captchaVerified) = true := by rw [hcv]; rfl
    by_cases hcmp : env.compare (b.password.getD "") u.password = true
    · have hc : ¬ ((!env.compare (b.password.getD "") u.password) = true) := by
        rw [hcmp]; decide
      rw [if_neg hc, if_pos hv]
      exact ⟨rfl, rfl, fun _ _ _ => rfl⟩
    · have hc : (!env.compare (b.password.getD "") u.password) = true := by
        simpa using hcmp
      rw [if_pos hc]
      exact ⟨rfl, rfl, fun _ _ h => absurd h hcmp⟩

/-- A witness of `login_captcha_required`: the right password for the unverified account. -/
theorem login_captcha_required_witness :
    (login sampleEnv ⟨2000, 0, 0⟩ [unverifiedAnn] ⟨some "ann@x.com", some "secret1"⟩).1.hasToken
      = false ∧
    (login sampleEnv ⟨2000, 0, 0⟩ [unverifiedAnn] ⟨some "ann@x.com", some "secret1"⟩).2
      = [unverifiedAnn] ∧
    (login sampleEnv ⟨2000, 0, 0⟩ [unverifiedAnn] ⟨some "ann@x.com", some "secret1"⟩).1 =
        failure 403 "CAPTCHA verification required" [("requiresCaptcha", .val (.bool true))] :=
  have h := login_captcha_required sampleEnv ⟨2000, 0, 0⟩ [unverifiedAnn]
    ⟨some "ann@x.com", some "secret1"⟩ unverifiedAnn (by decide) (by decide)
  ⟨h.1, h.2.1, h.2.2 (by decide) (by decide) (by decide)⟩

/-! ## Login: the frame of a successful login (C10) -/

theorem findOne_split (db : Store) (e : String) (u : User) (h : findOne db e = some u) :
    u.email = e ∧ ∃ pre post, db = pre ++ u :: post := by
  unfold findOne at h
  have h1 := List.find?_some h
  have h2 := List.mem_of_find?_eq_some h
  obtain ⟨pre, post, hdb⟩ := List.append_of_mem h2
  exact ⟨by simpa using h1, pre, post, hdb⟩

theorem saveDoc_split (pre post : Store) (u w : User) (hid : w._id = u._id)
    (hpre : ∀ v ∈ pre, v._id ≠ u._id) :
    saveDoc (pre ++ u :: post) w = pre ++ w :: post := by
  induction pre with
  | nil => simp [saveDoc, hid]
  | cons x xs ih =>
    have hx : x._id ≠ w._id := by
      rw [hid]
      exact hpre x (List.mem_cons_self _ _)
    rw [List.cons_append, saveDoc, if_neg hx, ih (fun v hv => hpre v (List.mem_cons_of_mem _ hv))]
    rfl

theorem findById_split (pre post : Store) (w : User) (hpre : ∀ v ∈ pre, v._id ≠ w._id) :
    findById (pre ++ w :: post) w._id = some w := by
  unfold findById
  induction pre with
  | nil => simp
  | cons x xs ih =>
    have hx : x._id ≠ w._id := hpre x (List.mem_cons_self _ _)
    simp only [List.cons_append, List.find?_cons, hx, decide_False]
    exact ih (fun v hv => hpre v (List.mem_cons_of_mem _ hv))

theorem WF_split (pre post : Store) (u : User) (h : Store.WF (pre ++ u :: post)) :
    ∀ v ∈ pre, v._id ≠ u._id := by
  unfold Store.WF at h
  rw [List.map_append, List.map_cons] at h
  intro v hv hid
  have hdis := (List.nodup_append.1 h).2.2
  exact hdis (List.mem_map.2 ⟨v, hv, rfl⟩) (by rw [hid]; exact List.mem_cons_self _ _)

/-- Claim C10. A login answered 200 sets the `lastLogin` of the account it found to
the time of the login and changes nothing else: every other field of that
document and every other document of the database is as before. -/
theorem login_success_frame (env : Env) (ctx : Ctx) (db : Store) (b : LoginBody)
    (hwf : db.WF) (h200 : (login env ctx db b).1.status = 200) :
    ∃ pre u post, db = pre ++ u :: post ∧ findOne db (b.email.getD "") = some u ∧
      (login env ctx db b).2 = pre ++ { u with lastLogin := ctx.now } :: post := by
  unfold login at h200 ⊢
  by_cases h1 : (!truthy b.email || !truthy b.password) = true
  · rw [if_pos h1] at h200
    simp [failure] at h200
  · rw [if_neg h1] at h200 ⊢
    simp only [] at h200 ⊢
    cases hfind : findOne db (b.email.getD "") with
    | none =>
      rw [hfind] at h200
      simp [failure] at h200
    | some u =>
      rw [hfind] at h200
      simp only [] at h200 ⊢
      obtain ⟨_, pre, post, hdb⟩ := findOne_split db _ u hfind
      have hpre : ∀ v ∈ pre, v._id ≠ u._id := WF_split pre post u (hdb ▸ hwf)
      by_cases hc : (!env.compare (b.password.getD "") u.password) = true
      · rw [if_pos hc] at h200
        simp [failure] at h200
      · rw [if_neg hc] at h200 ⊢
        by_cases hv : (!u.captchaVerified) = true
        · rw [if_pos hv] at h200
          simp [failure] at h200
        · rw [if_neg hv] at h200 ⊢
          refine ⟨pre, u, post, hdb, rfl, ?_⟩
          have hsave : saveDoc db { u with lastLogin := ctx.now }
              = pre ++ { u with lastLogin := ctx.now } :: post := by
            rw [hdb]
            exact saveDoc_split pre post u _ rfl hpre
          rw [hsave]
          have hfb : findById (pre ++ { u with lastLogin := ctx.now } :: post) u._id
              = some { u with lastLogin := ctx.now } :=
            findById_split pre post { u with lastLogin := ctx.now } hpre
          simp only [hfb]

/-- A witness of `login_success_frame`: the verified account logs in at time 2000. -/
theorem login_success_frame_witness :
    Store.WF [verifiedAnn] ∧
    (login sampleEnv ⟨2000, 0, 0⟩ [verifiedAnn] ⟨some "ann@x.com", some "secret1"⟩).1.status = 200 ∧
    (login sampleEnv ⟨2000, 0, 0⟩ [verifiedAnn] ⟨some "ann@x.com", some "secret1"⟩).2
      = [{ verifiedAnn with lastLogin := 2000 }] ∧
    ∃ pre u post, [verifiedAnn] = pre ++ u :: post ∧
      findOne [verifiedAnn] ((some "ann@x.com" : Option String).getD "") = some u ∧
      (login sampleEnv ⟨2000, 0, 0⟩ [verifiedAnn] ⟨some "ann@x.com", some "secret1"⟩).2
        = pre ++ { u with lastLogin := 2000 } :: post :=
  ⟨by decide, by decide, by decide,
   login_success_frame sampleEnv ⟨2000, 0, 0⟩ [verifiedAnn] ⟨some "ann@x.com", some "secret1"⟩
    (by decide) (by decide)⟩

/-! ## Responses do not depend on stored hashes (C4) -/

theorem option_map_cases {α β : Type} (f : α → β) (o1 o2 : Option α)
    (h : o1.map f = o2.map f) :
    (o1 = none ∧ o2 = none) ∨ ∃ a b, o1 = some a ∧ o2 = some b ∧ f a = f b := by
  cases o1 <;> cases o2 <;> simp_all

theorem sameHash_findById (db1 db2 : Store) (h : SameUpToHash db1 db2) (id : Nat) :
    (findById db1 id).map withoutHash = (findById db2 id).map withoutHash := by
  unfold SameUpToHash at h
  have key : ∀ db : Store, (findById db id).map withoutHash
      = (db.map withoutHash).find? (fun u => u._id = id) := by
    intro db
    unfold findById
    rw [List.find?_map]
    rfl
  rw [key, key, h]

theorem sameHash_findOne (db1 db2 : Store) (h : SameUpToHash db1 db2) (e : String) :
    (findOne db1 e).map withoutHash = (findOne db2 e).map withoutHash := by
  unfold SameUpToHash at h
  have key : ∀ db : Store, (findOne db e).map withoutHash
      = (db.map withoutHash).find? (fun u => u.email = e) := by
    intro db
    unfold findOne
    rw [List.find?_map]
    rfl
  rw [key, key, h]

theorem sameHash_findOne_isSome (db1 db2 : Store) (h : SameUpToHash db1 db2) (e : String) :
    (findOne db1 e).isSome = (findOne db2 e).isSome := by
  have := congrArg Option.isSome (sameHash_findOne db1 db2 h e)
  simpa using this

theorem sameHash_any (db1 db2 : Store) (h : SameUpToHash db1 db2) (id : Nat) :
    db1.any (fun v => decide (v._id = id)) = db2.any (fun v => decide (v._id = id)) := by
  unfold SameUpToHash at h
  have key : ∀ db : Store, db.any (fun v => decide (v._id = id))
      = (db.map withoutHash).any (fun v => decide (v._id = id)) := by
    intro db
    rw [List.any_map]
    rfl
  rw [key db1, key db2, h]

theorem sameHash_saveDoc (db1 db2 : Store) (h : SameUpToHash db1 db2) (w1 w2 : User)
    (hw : withoutHash w1 = withoutHash w2) :
    SameUpToHash (saveDoc db1 w1) (saveDoc db2 w2) := by
  unfold SameUpToHash at h ⊢
  have hid : w1._id = w2._id := congrArg (fun w => w._id) hw
  induction db1 generalizing db2 with
  | nil =>
    cases db2 with
    | nil => rfl
    | cons y ys => simp at h
  | cons x xs ih =>
    cases db2 with
    | nil => simp at h
    | cons y ys =>
      simp only [List.map_cons, List.cons.injEq] at h
      have hxy : x._id = y._id := congrArg (fun w => w._id) h.1
      simp only [saveDoc]
      by_cases hx : x._id = w1._id
      · have hy : y._id = w2._id := by rw [← hxy, hx, hid]
        rw [if_pos hx, if_pos hy]
        simp only [List.map_cons, hw, h.2]
      · have hy : ¬ y._id = w2._id := by rw [← hxy, ← hid]; exact hx
        rw [if_neg hx, if_neg hy]
        simp only [List.map_cons, h.1, ih ys h.2]

theorem profileView_applyPatch (u : User) (p : ProfilePatch) :
    profileView (applyPatch (withoutHash u) p) = profileView (applyPatch u p) := by
  unfold applyPatch
  simp only []
  split_ifs <;> cases p.phoneNumber <;> cases p.address <;> cases p.profilePicture <;> rfl

theorem profileView_of_sameHash (u1 u2 : User) (h : withoutHash u1 = withoutHash u2) :
    profileView u1 = profileView u2 :=
  show profileView (withoutHash u1) = profileView (withoutHash u2) from congrArg profileView h

theorem loginView_of_sameHash (u1 u2 : User) (h : withoutHash u1 = withoutHash u2) :
    loginView u1 = loginView u2 :=
  show loginView (withoutHash u1) = loginView (withoutHash u2) from congrArg loginView h

theorem getProfile_sameHash (db1 db2 : Store) (h : SameUpToHash db1 db2) (id : Nat) :
    getProfile db1 id = getProfile db2 id := by
  unfold getProfile
  rcases option_map_cases _ _ _ (sameHash_findById db1 db2 h id) with ⟨h1, h2⟩ | ⟨a, b, h1, h2, hab⟩
  · rw [h1, h2]
  · rw [h1, h2]
    simp only [profileView_of_sameHash a b hab]

theorem updateProfile_sameHash (db1 db2 : Store) (h : SameUpToHash db1 db2) (id : Nat)
    (p : ProfilePatch) : (updateProfile db1 id p).1 = (updateProfile db2 id p).1 := by
  unfold updateProfile
  rcases option_map_cases _ _ _ (sameHash_findById db1 db2 h id) with ⟨h1, h2⟩ | ⟨a, b, h1, h2, hab⟩
  · rw [h1, h2]
  · rw [h1, h2]
    have hmail : a.email = b.email := congrArg (fun w => w.email) hab
    simp only [hmail, sameHash_findOne_isSome db1 db2 h]
    split_ifs with hc he
    · rfl
    · simp only
      rw [← profileView_applyPatch, ← profileView_applyPatch { b with email := _ }]
      have : withoutHash { a with email := p.email.getD "" }
          = withoutHash { b with email := p.email.getD "" } := by
        have := congrArg (fun w : User => { w with email := p.email.getD "" }) hab
        exact this
      rw [this]
    · simp only
      rw [← profileView_applyPatch, ← profileView_applyPatch b, hab]

theorem uploadPicture_sameHash (db1 db2 : Store) (h : SameUpToHash db1 db2) (id : Nat)
    (m : MulterResult) (del : HostDelete) (up : Except String String) :
    (uploadPicture db1 id m del up).1 = (uploadPicture db2 id m del up).1 := by
  unfold uploadPicture
  cases m with
  | error msg => rfl
  | noFile => rfl
  | file path =>
    simp only
    rcases option_map_cases _ _ _ (sameHash_findById db1 db2 h id) with ⟨h1, h2⟩ | ⟨a, b, h1, h2, hab⟩
    · rw [h1, h2]
    · rw [h1, h2]
      cases up with
      | error e => rfl
      | ok url =>
        simp only
        have : withoutHash { a with profilePicture := some url }
            = withoutHash { b with profilePicture := some url } :=
          congrArg (fun w : User => { w with profilePicture := some url }) hab
        rw [profileView_of_sameHash _ _ this]

theorem deletePicture_sameHash (db1 db2 : Store) (h : SameUpToHash db1 db2) (id : Nat)
    (del : HostDelete) : (deletePicture db1 id del).1 = (deletePicture db2 id del).1 := by
  unfold deletePicture
  rcases option_map_cases _ _ _ (sameHash_findById db1 db2 h id) with ⟨h1, h2⟩ | ⟨a, b, h1, h2, hab⟩
  · rw [h1, h2]
  · rw [h1, h2]
    have hpic : a.profilePicture = b.profilePicture := congrArg (fun w => w.profilePicture) hab
    simp only [hpic]
    split_ifs
    · have : withoutHash { a with profilePicture := some "" }
          = withoutHash { b with profilePicture := some "" } :=
        congrArg (fun w : User => { w with profilePicture := some "" }) hab
      simp only [profileView_of_sameHash _ _ this]
    · simp only [profileView_of_sameHash a b hab]

theorem deleteAccount_sameHash (db1 db2 : Store) (h : SameUpToHash db1 db2) (id : Nat) :
    (deleteAccount db1 id).1 = (deleteAccount db2 id).1 := by
  unfold deleteAccount
  rcases option_map_cases _ _ _ (sameHash_findById db1 db2 h id) with ⟨h1, h2⟩ | ⟨a, b, h1, h2, _⟩
  · rw [h1, h2]
  · rw [h1, h2]

theorem register_sameHash (env : Env) (ctx : Ctx) (db1 db2 : Store) (h : SameUpToHash db1 db2)
    (b : RegisterBody) : (register env ctx db1 b).1 = (register env ctx db2 b).1 := by
  unfold register insertDoc
  simp only [sameHash_findOne_isSome db1 db2 h, sameHash_any db1 db2 h]
  split_ifs
  · rfl
  · rfl
  · rfl
  · rfl
  · rfl
  · split <;> rfl
  · split <;> rfl

theorem register_hash_irrelevant (env : Env) (ctx : Ctx) (db : Store) (b : RegisterBody)
    (hash2 : String → String → String) (genSalt2 : Nat → Nat → String) :
    (register { env with hash := hash2, genSalt := genSalt2 } ctx db b).1
      = (register env ctx db b).1 := by
  unfold register insertDoc
  have hk : jwtKey { env with hash := hash2, genSalt := genSalt2 } = jwtKey env := rfl
  have hd : formatDateOfBirth { env with hash := hash2, genSalt := genSalt2 } b.dateOfBirth
      = formatDateOfBirth env b.dateOfBirth := rfl
  rw [hk, hd]
  simp only []
  split_ifs
  · rfl
  · rfl
  · rfl
  · rfl
  · rfl
  · split
    · rfl
    · split_ifs <;> rfl

theorem login_sameHash (env : Env) (ctx : Ctx) (db1 db2 : Store) (h : SameUpToHash db1 db2)
    (b : LoginBody) (hst : (login env ctx db1 b).1.status = (login env ctx db2 b).1.status) :
    (login env ctx db1 b).1 = (login env ctx db2 b).1 := by
  unfold login at hst ⊢
  by_cases h1 : (!truthy b.email || !truthy b.password) = true
  · rw [if_pos h1, if_pos h1]
  · rw [if_neg h1, if_neg h1] at hst
    rw [if_neg h1, if_neg h1]
    simp only [] at hst ⊢
    rcases option_map_cases _ _ _ (sameHash_findOne db1 db2 h (b.email.getD ""))
      with ⟨h1, h2⟩ | ⟨u1, u2, h1, h2, hab⟩
    · rw [h1, h2]
    · rw [h1, h2] at hst
      rw [h1, h2]
      simp only [] at hst ⊢
      have hcv : u1.captchaVerified = u2.captchaVerified := congrArg (fun w => w.captchaVerified) hab
      have hid : u1._id = u2._id := congrArg (fun w => w._id) hab
      have hw : withoutHash { u1 with lastLogin := ctx.now }
          = withoutHash { u2 with lastLogin := ctx.now } :=
        congrArg (fun w : User => { w with lastLogin := ctx.now }) hab
      have hsave := sameHash_saveDoc db1 db2 h _ _ hw
      have hfind : (findById (saveDoc db1 { u1 with lastLogin := ctx.now }) u1._id).map withoutHash
          = (findById (saveDoc db2 { u2 with lastLogin := ctx.now }) u2._id).map withoutHash := by
        have := sameHash_findById _ _ hsave u1._id
        rw [this]
        exact congrArg (fun i => (findById _ i).map withoutHash) hid
      by_cases hc1 : (!env.compare (b.password.getD "") u1.password) = true <;>
        by_cases hc2 : (!env.compare (b.password.getD "") u2.password) = true
      · rw [if_pos hc1, if_pos hc2]
      · rw [if_pos hc1, if_neg hc2] at hst
        exfalso
        revert hst
        split_ifs
        · simp [failure]
        · split <;> simp [failure]
      · rw [if_neg hc1, if_pos hc2] at hst
        exfalso
        revert hst
        split_ifs
        · simp [failure]
        · split <;> simp [failure]
      · rw [if_neg hc1, if_neg hc2]
        by_cases hv : (!u1.captchaVerified) = true
        · have hv2 : (!u2.captchaVerified) = true := hcv ▸ hv
          rw [if_pos hv, if_pos hv2]
        · have hv2 : ¬ (!u2.captchaVerified) = true := hcv ▸ hv
          rw [if_neg hv, if_neg hv2]
          rcases option_map_cases _ _ _ hfind with ⟨e1, e2⟩ | ⟨x, y, e1, e2, hxy⟩
          · simp only [e1, e2]
          · have hxid : x._id = y._id := congrArg (fun w => w._id) hxy
            simp only [e1, e2, hxid, loginView_of_sameHash x y hxy]

/-- Claim C4. No response carries a stored password hash. For two databases that
differ at most in stored hashes, get profile, update profile, upload picture,
delete picture, delete account and register answer identically; the register
response is also the same whatever hash is computed for the new account; and two
login responses with the same status are identical, so that a login response
depends on the stored hash only through the outcome of the password check. -/
theorem responses_do_not_carry_hash (env : Env) (db1 db2 : Store) (h : SameUpToHash db1 db2) :
    (∀ id, getProfile db1 id = getProfile db2 id) ∧
    (∀ id p, (updateProfile db1 id p).1 = (updateProfile db2 id p).1) ∧
    (∀ id m del up, (uploadPicture db1 id m del up).1 = (uploadPicture db2 id m del up).1) ∧
    (∀ id del, (deletePicture db1 id del).1 = (deletePicture db2 id del).1) ∧
    (∀ id, (deleteAccount db1 id).1 = (deleteAccount db2 id).1) ∧
    (∀ ctx b, (register env ctx db1 b).1 = (register env ctx db2 b).1) ∧
    (∀ ctx b hash2 genSalt2,
      (register { env with hash := hash2, genSalt := genSalt2 } ctx db1 b).1
        = (register env ctx db1 b).1) ∧
    (∀ ctx b, (login env ctx db1 b).1.status = (login env ctx db2 b).1.status →
      (login env ctx db1 b).1 = (login env ctx db2 b).1) :=
  ⟨getProfile_sameHash db1 db2 h, updateProfile_sameHash db1 db2 h,
   uploadPicture_sameHash db1 db2 h, deletePicture_sameHash db1 db2 h,
   deleteAccount_sameHash db1 db2 h, fun ctx b => register_sameHash env ctx db1 db2 h b,
   fun ctx b hash2 genSalt2 => register_hash_irrelevant env ctx db1 b hash2 genSalt2,
   fun ctx b hst => login_sameHash env ctx db1 db2 h b hst⟩

/-- A witness of `responses_do_not_carry_hash`: the sample account under two hashes. -/
theorem responses_do_not_carry_hash_witness :
    SameUpToHash [verifiedAnn] [rehashedAnn] ∧ verifiedAnn.password ≠ rehashedAnn.password ∧
    getProfile [verifiedAnn] 1 = getProfile [rehashedAnn] 1 ∧
    (updateProfile [verifiedAnn] 1 (emailPatch "anna@x.com")).1
      = (updateProfile [rehashedAnn] 1 (emailPatch "anna@x.com")).1 :=
  ⟨by decide, by decide,
   (responses_do_not_carry_hash sampleEnv [verifiedAnn] [rehashedAnn] (by decide)).1 1,
   (responses_do_not_carry_hash sampleEnv [verifiedAnn] [rehashedAnn] (by decide)).2.1 1
     (emailPatch "anna@x.com")⟩

/-! ## The primary key is unique in every reachable database -/

theorem saveDoc_ids (db : Store) (w : User) :
    (saveDoc db w).map (·._id) = db.map (·._id) := by
  induction db with
  | nil => rfl
  | cons x xs ih =>
    simp only [saveDoc]
    split_ifs with hx
    · simp [hx]
    · simp [ih]

theorem saveDoc_WF (db : Store) (w : User) (h : db.WF) : (saveDoc db w).WF := by
  unfold Store.WF at h ⊢
  rw [saveDoc_ids]
  exact h

theorem deleteById_sublist (db : Store) (id : Nat) : (deleteById db id).Sublist db := by
  induction db with
  | nil => exact List.Sublist.refl _
  | cons x xs ih =>
    simp only [deleteById]
    split_ifs
    · exact List.sublist_cons_self x xs
    · exact ih.cons₂ x

theorem deleteById_WF (db : Store) (id : Nat) (h : db.WF) : (deleteById db id).WF := by
  unfold Store.WF at h ⊢
  exact h.sublist ((deleteById_sublist db id).map _)

theorem register_WF (env : Env) (ctx : Ctx) (db : Store) (b : RegisterBody) (h : db.WF) :
    (register env ctx db b).2.WF := by
  rcases register_cases env ctx db b with ⟨_, hdb⟩ | ⟨_, _, _, _, _, _, _, _, hfresh, u, hdb, hid, _⟩
  · rw [hdb]; exact h
  · rw [hdb]
    unfold Store.WF at h ⊢
    rw [List.map_append, List.nodup_append]
    refine ⟨h, by simp, ?_⟩
    intro a ha hb
    simp only [List.map_cons, List.map_nil, List.mem_singleton] at hb
    obtain ⟨v, hv, rfl⟩ := List.mem_map.1 ha
    exact hfresh v hv (hb.trans hid)

theorem login_WF (env : Env) (ctx : Ctx) (db : Store) (b : LoginBody) (h : db.WF) :
    (login env ctx db b).2.WF := by
  unfold login
  simp only []
  split_ifs
  · exact h
  · split
    · exact h
    · split_ifs
      · exact h
      · exact h
      · split
        · exact saveDoc_WF db _ h
        · exact saveDoc_WF db _ h

theorem updateProfile_WF (db : Store) (id : Nat) (p : ProfilePatch) (h : db.WF) :
    (updateProfile db id p).2.WF := by
  unfold updateProfile
  split
  · exact h
  · simp only []
    split_ifs
    · exact h
    · exact saveDoc_WF db _ h
    · exact saveDoc_WF db _ h

theorem uploadPicture_WF (db : Store) (id : Nat) (m : MulterResult) (del : HostDelete)
    (up : Except String String) (h : db.WF) : (uploadPicture db id m del up).2.1.WF := by
  unfold uploadPicture
  cases m with
  | error msg => exact h
  | noFile => exact h
  | file path =>
    simp only []
    cases findById db id with
    | none => exact h
    | some user =>
      cases up with
      | error e => exact h
      | ok url => exact saveDoc_WF db _ h

theorem deletePicture_WF (db : Store) (id : Nat) (del : HostDelete) (h : db.WF) :
    (deletePicture db id del).2.1.WF := by
  unfold deletePicture
  split
  · exact h
  · split_ifs
    · exact saveDoc_WF db _ h
    · exact h

theorem deleteAccount_WF (db : Store) (id : Nat) (h : db.WF) : (deleteAccount db id).2.WF := by
  unfold deleteAccount
  split
  · exact h
  · exact deleteById_WF db id h

theorem step_WF (env : Env) (db : Store) (op : Op) (h : db.WF) : (step env db op).WF := by
  cases op with
  | register ctx b => exact register_WF env ctx db b h
  | login ctx b => exact login_WF env ctx db b h
  | getProfile id => exact h
  | updateProfile id p => exact updateProfile_WF db id p h
  | uploadPicture id m del up => exact uploadPicture_WF db id m del up h
  | deletePicture id del => exact deletePicture_WF db id del h
  | deleteAccount id => exact deleteAccount_WF db id h

/-- Every database reached from the empty one by requests has unique `_id`s. -/
theorem run_WF (env : Env) (ops : List Op) : (run env ops).WF := by
  unfold run
  have key : ∀ (db : Store), db.WF → (ops.foldl (step env) db).WF := by
    induction ops with
    | nil => intro db h; exact h
    | cons op rest ih => intro db h; exact ih _ (step_WF env db op h)
  exact key [] (by simp [Store.WF])

/-! ## Profile update: atomicity and frame (C11, C12) -/

theorem findById_mem (db : Store) (id : Nat) (u : User) (h : findById db id = some u) :
    u._id = id ∧ ∃ pre post, db = pre ++ u :: post := by
  unfold findById at h
  have h1 := List.find?_some h
  have h2 := List.mem_of_find?_eq_some h
  obtain ⟨pre, post, hdb⟩ := List.append_of_mem h2
  exact ⟨by simpa using h1, pre, post, hdb⟩

theorem findOne_isSome_of_mem (db : Store) (e : String) (other : User) (hm : other ∈ db)
    (he : other.email = e) : (findOne db e).isSome = true := by
  unfold findOne
  rw [List.find?_isSome]
  exact ⟨other, hm, by simp [he]⟩

/-- Claim C11. A profile update whose email differs from the current one and is
the email of a stored document is answered 400 `Email already in use` and leaves
the database as it was, whatever else the patch carries; an update for an id
that is not stored is answered 404 `User not found` with the database unchanged. -/
theorem updateProfile_atomic (db : Store) (id : Nat) (p : ProfilePatch) :
    (∀ user e other, db.HasEmails → findById db id = some user → p.email = some e →
      e ≠ user.email → other ∈ db → other.email = e →
      updateProfile db id p = (failure 400 "Email already in use" [], db)) ∧
    (findById db id = none →
      updateProfile db id p = (failure 404 "User not found" [], db)) := by
  constructor
  · intro user e other hemails hu he hne hm hoe
    have hne0 : e ≠ "" := by
      rw [← hoe]
      exact hemails other hm
    have hsome := findOne_isSome_of_mem db e other hm hoe
    unfold updateProfile
    rw [hu]
    simp only [he, Option.getD_some, truthy, hsome]
    simp [hne, hne0]
  · intro hnone
    unfold updateProfile
    rw [hnone]

/-- A witness of `updateProfile_atomic`: the second account asks for the first
account's email and for a new name. -/
theorem updateProfile_atomic_witness :
    updateProfile [verifiedAnn, { verifiedAnn with _id := 2, email := "bob@x.com" }] 2
        { emailPatch "ann@x.com" with name := some "Robert", address := some "2 Rd" }
      = (failure 400 "Email already in use" [],
          [verifiedAnn, { verifiedAnn with _id := 2, email := "bob@x.com" }]) ∧
    updateProfile [verifiedAnn] 7 (emailPatch "zed@x.com")
      = (failure 404 "User not found" [], [verifiedAnn]) :=
  ⟨(updateProfile_atomic [verifiedAnn, { verifiedAnn with _id := 2, email := "bob@x.com" }] 2
      { emailPatch "ann@x.com" with name := some "Robert", address := some "2 Rd" }).1
      { verifiedAnn with _id := 2, email := "bob@x.com" } "ann@x.com" verifiedAnn
      (by decide) (by decide) rfl (by decide) (by decide) (by decide),
   (updateProfile_atomic [verifiedAnn] 7 (emailPatch "zed@x.com")).2 (by decide)⟩

theorem applyPatch_frame (u : User) (p : ProfilePatch) :
    (applyPatch u p)._id = u._id ∧ (applyPatch u p).email = u.email ∧
    (applyPatch u p).password = u.password ∧
    (applyPatch u p).dateOfBirth = u.dateOfBirth ∧ (applyPatch u p).createdAt = u.createdAt ∧
    (applyPatch u p).lastLogin = u.lastLogin ∧
    (applyPatch u p).captchaVerified = u.captchaVerified := by
  unfold applyPatch
  simp only []
  split_ifs <;> cases p.phoneNumber <;> cases p.address <;> cases p.profilePicture <;>
    exact ⟨rfl, rfl, rfl, rfl, rfl, rfl, rfl⟩

theorem applyPatch_absent (u : User) (p : ProfilePatch) :
    (p.name = none → (applyPatch u p).name = u.name) ∧
    (p.countryCode = none → (applyPatch u p).countryCode = u.countryCode) ∧
    (p.phoneNumber = none → (applyPatch u p).phoneNumber = u.phoneNumber) ∧
    (p.address = none → (applyPatch u p).address = u.address) ∧
    (p.profilePicture = none → (applyPatch u p).profilePicture = u.profilePicture) := by
  obtain ⟨name, email, cc, phone, addr, pic⟩ := p
  refine ⟨?_, ?_, ?_, ?_, ?_⟩
  · intro h
    simp only at h
    subst h
    simp only [applyPatch, truthy, Bool.false_eq_true, if_false]
    split_ifs <;> cases phone <;> cases addr <;> cases pic <;> rfl
  · intro h
    simp only at h
    subst h
    simp only [applyPatch, truthy, Bool.false_eq_true, if_false]
    split_ifs <;> cases phone <;> cases addr <;> cases pic <;> rfl
  · intro h
    simp only at h
    subst h
    simp only [applyPatch]
    split_ifs <;> cases addr <;> cases pic <;> rfl
  · intro h
    simp only at h
    subst h
    simp only [applyPatch]
    split_ifs <;> cases phone <;> cases pic <;> rfl
  · intro h
    simp only at h
    subst h
    simp only [applyPatch]
    split_ifs <;> cases phone <;> cases addr <;> rfl

/-- Claim C12. A profile update answered 200 replaces the document of the given id
and nothing else. In the new document the id, the password hash, the date of
birth, `createdAt`, `lastLogin` and `captchaVerified` are as before, and so is
every field that the patch does not carry. -/
theorem updateProfile_frame (db : Store) (id : Nat) (p : ProfilePatch)
    (hwf : db.WF) (h200 : (updateProfile db id p).1.status = 200) :
    ∃ pre u post w, db = pre ++ u :: post ∧ u._id = id ∧
      (updateProfile db id p).2 = pre ++ w :: post ∧
      w._id = u._id ∧ w.password = u.password ∧ w.dateOfBirth = u.dateOfBirth ∧
      w.createdAt = u.createdAt ∧ w.lastLogin = u.lastLogin ∧
      w.captchaVerified = u.captchaVerified ∧
      (p.name = none → w.name = u.name) ∧ (p.email = none → w.email = u.email) ∧
      (p.countryCode = none → w.countryCode = u.countryCode) ∧
      (p.phoneNumber = none → w.phoneNumber = u.phoneNumber) ∧
      (p.address = none → w.address = u.address) ∧
      (p.profilePicture = none → w.profilePicture = u.profilePicture) := by
  unfold updateProfile at h200 ⊢
  cases hfind : findById db id with
  | none =>
    rw [hfind] at h200
    simp [failure] at h200
  | some u =>
    rw [hfind] at h200
    simp only [] at h200 ⊢
    obtain ⟨hid, pre, post, hdb⟩ := findById_mem db id u hfind
    have hpre : ∀ v ∈ pre, v._id ≠ u._id := WF_split pre post u (hdb ▸ hwf)
    by_cases hc : (truthy p.email && decide (p.email.getD "" ≠ u.email) &&
        (findOne db (p.email.getD "")).isSome) = true
    · rw [if_pos hc] at h200
      simp [failure] at h200
    · rw [if_neg hc]
      have hsave : ∀ w : User, w._id = u._id → saveDoc db w = pre ++ w :: post := by
        intro w hw
        rw [hdb]
        exact saveDoc_split pre post u w hw hpre
      by_cases hch : (truthy p.email && decide (p.email.getD "" ≠ u.email)) = true
      · simp only [hch, if_true]
        obtain ⟨f1, f2, f3, f4, f5, f6, f7⟩ :=
          applyPatch_frame { u with email := p.email.getD "" } p
        obtain ⟨a1, a2, a3, a4, a5⟩ := applyPatch_absent { u with email := p.email.getD "" } p
        refine ⟨pre, u, post, _, hdb, hid, hsave _ f1, f1, f3, f4, f5, f6, f7, a1, ?_, a2, a3,
          a4, a5⟩
        intro hnone
        rw [hnone] at hch
        simp [truthy] at hch
      · simp only [hch, if_false, Bool.false_eq_true]
        obtain ⟨f1, f2, f3, f4, f5, f6, f7⟩ := applyPatch_frame u p
        obtain ⟨a1, a2, a3, a4, a5⟩ := applyPatch_absent u p
        exact ⟨pre, u, post, _, hdb, hid, hsave _ f1, f1, f3, f4, f5, f6, f7, a1, fun _ => f2, a2,
          a3, a4, a5⟩

/-- A witness of `updateProfile_frame`: a patch that carries only an email. -/
theorem updateProfile_frame_witness :
    (updateProfile [verifiedAnn] 1 (emailPatch "anna@x.com")).2
      = [{ verifiedAnn with email := "anna@x.com" }] ∧
    ∃ pre u post w, [verifiedAnn] = pre ++ u :: post ∧ u._id = 1 ∧
      (updateProfile [verifiedAnn] 1 (emailPatch "anna@x.com")).2 = pre ++ w :: post ∧
      w._id = u._id ∧ w.password = u.password ∧ w.dateOfBirth = u.dateOfBirth ∧
      w.createdAt = u.createdAt ∧ w.lastLogin = u.lastLogin ∧
      w.captchaVerified = u.captchaVerified ∧
      ((emailPatch "anna@x.com").name = none → w.name = u.name) ∧
      ((emailPatch "anna@x.com").email = none → w.email = u.email) ∧
      ((emailPatch "anna@x.com").countryCode = none → w.countryCode = u.countryCode) ∧
      ((emailPatch "anna@x.com").phoneNumber = none → w.phoneNumber = u.phoneNumber) ∧
      ((emailPatch "anna@x.com").address = none → w.address = u.address) ∧
      ((emailPatch "anna@x.com").profilePicture = none → w.profilePicture = u.profilePicture) :=
  ⟨by decide,
   updateProfile_frame [verifiedAnn] 1 (emailPatch "anna@x.com") (by decide) (by decide)⟩

/-! ## Account deletion (C13) -/

theorem findById_eq_none_iff (db : Store) (id : Nat) :
    findById db id = none ↔ ∀ v ∈ db, v._id ≠ id := by
  unfold findById
  rw [List.find?_eq_none]
  simp

theorem absent_of_ids (db1 db2 : Store) (id : Nat)
    (hsub : ∀ i ∈ db2.map (·._id), i ∈ db1.map (·._id)) (h : findById db1 id = none) :
    findById db2 id = none := by
  rw [findById_eq_none_iff] at h ⊢
  intro v hv hid
  have := hsub v._id (List.mem_map.2 ⟨v, hv, rfl⟩)
  obtain ⟨w, hw, hwid⟩ := List.mem_map.1 this
  exact h w hw (hwid.trans hid)

theorem absent_saveDoc (db : Store) (w : User) (id : Nat) (h : findById db id = none) :
    findById (saveDoc db w) id = none :=
  absent_of_ids db _ id (by rw [saveDoc_ids]; exact fun _ hi => hi) h

theorem absent_deleteById (db : Store) (k id : Nat) (h : findById db id = none) :
    findById (deleteById db k) id = none :=
  absent_of_ids db _ id (fun _ hi => ((deleteById_sublist db k).map _).subset hi) h

theorem step_absent (env : Env) (db : Store) (op : Op) (id : Nat)
    (hm : op.mints id = false) (h : findById db id = none) :
    findById (step env db op) id = none := by
  cases op with
  | register ctx b =>
    simp only [step]
    rcases register_cases env ctx db b with ⟨_, hdb⟩ | ⟨_, _, _, _, _, _, _, _, _, u, hdb, hid, _⟩
    · rw [hdb]; exact h
    · rw [hdb]
      rw [findById_eq_none_iff] at h ⊢
      intro v hv
      rcases List.mem_append.1 hv with hv | hv
      · exact h v hv
      · rw [List.mem_singleton] at hv
        subst hv
        rw [hid]
        simpa [Op.mints] using hm
  | login ctx b =>
    simp only [step]
    unfold login
    simp only []
    split_ifs
    · exact h
    · split
      · exact h
      · split_ifs
        · exact h
        · exact h
        · split
          · exact absent_saveDoc db _ id h
          · exact absent_saveDoc db _ id h
  | getProfile k => exact h
  | updateProfile k p =>
    simp only [step]
    unfold updateProfile
    split
    · exact h
    · simp only []
      split_ifs
      · exact h
      · exact absent_saveDoc db _ id h
      · exact absent_saveDoc db _ id h
  | uploadPicture k m del up =>
    simp only [step]
    unfold uploadPicture
    cases m with
    | error msg => exact h
    | noFile => exact h
    | file path =>
      simp only []
      cases findById db k with
      | none => exact h
      | some user =>
        cases up with
        | error e => exact h
        | ok url => exact absent_saveDoc db _ id h
  | deletePicture k del =>
    simp only [step]
    unfold deletePicture
    split
    · exact h
    · split_ifs
      · exact absent_saveDoc db _ id h
      · exact h
  | deleteAccount k =>
    simp only [step]
    unfold deleteAccount
    split
    · exact h
    · exact absent_deleteById db k id h

theorem foldl_step_absent (env : Env) (ops : List Op) (db : Store) (id : Nat)
    (hm : ∀ op ∈ ops, op.mints id = false) (h : findById db id = none) :
    findById (ops.foldl (step env) db) id = none := by
  induction ops generalizing db with
  | nil => exact h
  | cons op rest ih =>
    exact ih (step env db op) (fun o ho => hm o (List.mem_cons_of_mem _ ho))
      (step_absent env db op id (hm op (List.mem_cons_self _ _)) h)

theorem deleteById_split (pre post : Store) (x : User) (hpre : ∀ v ∈ pre, v._id ≠ x._id) :
    deleteById (pre ++ x :: post) x._id = pre ++ post := by
  induction pre with
  | nil => simp [deleteById]
  | cons y ys ih =>
    have hy : y._id ≠ x._id := hpre y (List.mem_cons_self _ _)
    rw [List.cons_append, deleteById, if_neg hy, ih (fun v hv => hpre v (List.mem_cons_of_mem _ hv))]
    rfl

theorem WF_split_post (pre post : Store) (u : User) (h : Store.WF (pre ++ u :: post)) :
    ∀ v ∈ post, v._id ≠ u._id := by
  unfold Store.WF at h
  rw [List.map_append, List.map_cons] at h
  have h2 := (List.nodup_append.1 h).2.1
  rw [List.nodup_cons] at h2
  intro v hv hid
  exact h2.1 (hid ▸ List.mem_map.2 ⟨v, hv, rfl⟩)

theorem getProfile_absent (db : Store) (id : Nat) (h : findById db id = none) :
    getProfile db id = failure 404 "User not found" [] := by
  unfold getProfile
  rw [h]

theorem updateProfile_absent (db : Store) (id : Nat) (p : ProfilePatch)
    (h : findById db id = none) :
    updateProfile db id p = (failure 404 "User not found" [], db) := by
  unfold updateProfile
  rw [h]

theorem deletePicture_absent (db : Store) (id : Nat) (del : HostDelete)
    (h : findById db id = none) :
    deletePicture db id del = (failure 404 "User not found" [], db, []) := by
  unfold deletePicture
  rw [h]

theorem deleteAccount_absent (db : Store) (id : Nat) (h : findById db id = none) :
    deleteAccount db id = (failure 404 "User not found" [], db) := by
  unfold deleteAccount
  rw [h]

/-- Claim C13. Deleting the account of a stored document X is answered 200 and
removes X and nothing else. From then on, whatever requests follow (none of them
creating a document with X's id, which the generator of ObjectIds never issues
again), get profile, update profile, delete picture and delete account for X's
id are answered 404 `User not found`. Deleting an id that is not stored is
answered 404 and leaves the database as it was. -/
theorem deleteAccount_removes (env : Env) (db : Store) (x : User) (hwf : db.WF) (hx : x ∈ db) :
    (deleteAccount db x._id).1.status = 200 ∧
    x ∉ (deleteAccount db x._id).2 ∧
    (∃ pre post, db = pre ++ x :: post ∧ (deleteAccount db x._id).2 = pre ++ post) ∧
    (∀ ops : List Op, (∀ op ∈ ops, op.mints x._id = false) →
      getProfile (ops.foldl (step env) (deleteAccount db x._id).2) x._id
        = failure 404 "User not found" [] ∧
      (∀ p, (updateProfile (ops.foldl (step env) (deleteAccount db x._id).2) x._id p).1
        = failure 404 "User not found" []) ∧
      (∀ del, (deletePicture (ops.foldl (step env) (deleteAccount db x._id).2) x._id del).1
        = failure 404 "User not found" []) ∧
      (deleteAccount (ops.foldl (step env) (deleteAccount db x._id).2) x._id).1
        = failure 404 "User not found" []) ∧
    (∀ id, findById db id = none →
      deleteAccount db id = (failure 404 "User not found" [], db)) := by
  obtain ⟨pre, post, hdb⟩ := List.append_of_mem hx
  have hpre : ∀ v ∈ pre, v._id ≠ x._id := WF_split pre post x (hdb ▸ hwf)
  have hpost : ∀ v ∈ post, v._id ≠ x._id := WF_split_post pre post x (hdb ▸ hwf)
  have hfind : findById db x._id = some x := by
    rw [hdb]
    exact findById_split pre post x hpre
  have hdel : (deleteAccount db x._id).2 = pre ++ post := by
    unfold deleteAccount
    rw [hfind]
    simp only []
    rw [hdb]
    exact deleteById_split pre post x hpre
  have habs : findById (deleteAccount db x._id).2 x._id = none := by
    rw [hdel, findById_eq_none_iff]
    intro v hv
    rcases List.mem_append.1 hv with hv | hv
    · exact hpre v hv
    · exact hpost v hv
  refine ⟨?_, ?_, ⟨pre, post, hdb, hdel⟩, ?_, ?_⟩
  · unfold deleteAccount
    rw [hfind]
  · intro hmem
    rw [findById_eq_none_iff] at habs
    exact habs x hmem rfl
  · intro ops hops
    have hlater := foldl_step_absent env ops _ x._id hops habs
    refine ⟨getProfile_absent _ _ hlater, ?_, ?_, ?_⟩
    · intro p
      rw [updateProfile_absent _ _ p hlater]
    · intro del
      rw [deletePicture_absent _ _ del hlater]
    · rw [deleteAccount_absent _ _ hlater]
  · intro id hnone
    exact deleteAccount_absent db id hnone

/-- A witness of `deleteAccount_removes`: the first of two accounts is deleted,
then the second logs in. -/
theorem deleteAccount_removes_witness :
    (deleteAccount [verifiedAnn, { verifiedAnn with _id := 2, email := "bob@x.com" }] 1).2
      = [{ verifiedAnn with _id := 2, email := "bob@x.com" }] ∧
    getProfile
      ([Op.login ⟨3000, 0, 0⟩ ⟨some "bob@x.com", some "secret1"⟩].foldl (step sampleEnv)
        (deleteAccount [verifiedAnn, { verifiedAnn with _id := 2, email := "bob@x.com" }]
          verifiedAnn._id).2) verifiedAnn._id
      = failure 404 "User not found" [] :=
  ⟨by decide,
   ((deleteAccount_removes sampleEnv
      [verifiedAnn, { verifiedAnn with _id := 2, email := "bob@x.com" }] verifiedAnn
      (by decide) (by decide)).2.2.2.1
      [Op.login ⟨3000, 0, 0⟩ ⟨some "bob@x.com", some "secret1"⟩] (by decide)).1⟩

/-! ## Every reachable database stores non-empty emails -/

theorem saveDoc_mem (db : Store) (w v : User) (h : v ∈ saveDoc db w) : v ∈ db ∨ v = w := by
  induction db with
  | nil => simp [saveDoc] at h
  | cons x xs ih =>
    simp only [saveDoc] at h
    split_ifs at h
    · rcases List.mem_cons.1 h with h | h
      · exact Or.inr h
      · exact Or.inl (List.mem_cons_of_mem _ h)
    · rcases List.mem_cons.1 h with h | h
      · exact Or.inl (h ▸ List.mem_cons_self _ _)
      · rcases ih h with h | h
        · exact Or.inl (List.mem_cons_of_mem _ h)
        · exact Or.inr h

theorem saveDoc_HasEmails (db : Store) (w : User) (h : db.HasEmails) (hw : w.email ≠ "") :
    (saveDoc db w).HasEmails := by
  intro v hv
  rcases saveDoc_mem db w v hv with hv | hv
  · exact h v hv
  · rw [hv]; exact hw

theorem findById_mem_of_some (db : Store) (id : Nat) (u : User) (h : findById db id = some u) :
    u ∈ db := List.mem_of_find?_eq_some h

theorem step_HasEmails (env : Env) (henv : env.LowerCaseKeepsShape) (db : Store) (op : Op)
    (h : db.HasEmails) :
    (step env db op).HasEmails := by
  cases op with
  | register ctx b =>
    simp only [step]
    rcases register_cases env ctx db b with ⟨_, hdb⟩ |
      ⟨_, _, he, _, _, hre, _, _, _, u, hdb, _, hmail, _⟩
    · rw [hdb]; exact h
    · rw [hdb]
      intro v hv
      rcases List.mem_append.1 hv with hv | hv
      · exact h v hv
      · rw [List.mem_singleton] at hv
        subst hv
        rw [hmail, (jsTrim_toLowerCase_of_test env henv _ hre).1]
        exact (jsTrim_toLowerCase_of_test env henv _ hre).2
  | login ctx b =>
    simp only [step]
    unfold login
    simp only []
    split_ifs
    · exact h
    · split
      · exact h
      · rename_i user hfind
        have hu : user.email ≠ "" := h user (List.mem_of_find?_eq_some hfind)
        split_ifs
        · exact h
        · exact h
        · split
          · exact saveDoc_HasEmails db _ h hu
          · exact saveDoc_HasEmails db _ h hu
  | getProfile k => exact h
  | updateProfile k p =>
    simp only [step]
    unfold updateProfile
    split
    · exact h
    · rename_i user hfind
      have hu : user.email ≠ "" := h user (findById_mem_of_some db k user hfind)
      simp only []
      split_ifs with h1 h2
      · exact h
      · apply saveDoc_HasEmails db _ h
        rw [(applyPatch_frame _ p).2.1]
        simp only [Bool.and_eq_true] at h2
        obtain ⟨s, hs, hne⟩ := truthy_some h2.1
        rw [hs, Option.getD_some]
        exact hne
      · apply saveDoc_HasEmails db _ h
        rw [(applyPatch_frame _ p).2.1]
        exact hu
  | uploadPicture k m del up =>
    simp only [step]
    unfold uploadPicture
    cases m with
    | error msg => exact h
    | noFile => exact h
    | file path =>
      simp only []
      cases hfind : findById db k with
      | none => exact h
      | some user =>
        cases up with
        | error e => exact h
        | ok url => exact saveDoc_HasEmails db _ h (h user (findById_mem_of_some db k user hfind))
  | deletePicture k del =>
    simp only [step]
    unfold deletePicture
    split
    · exact h
    · rename_i user hfind
      split_ifs
      · exact saveDoc_HasEmails db _ h (h user (findById_mem_of_some db k user hfind))
      · exact h
  | deleteAccount k =>
    simp only [step]
    unfold deleteAccount
    split
    · exact h
    · intro v hv
      exact h v ((deleteById_sublist db k).subset hv)

/-- Every database reached from the empty one by requests stores only non-empty
emails, lower-casing being as `LowerCaseKeepsShape` says. -/
theorem run_HasEmails (env : Env) (henv : env.LowerCaseKeepsShape) (ops : List Op) :
    (run env ops).HasEmails := by
  unfold run
  have key : ∀ (db : Store), db.HasEmails → (ops.foldl (step env) db).HasEmails := by
    induction ops with
    | nil => intro db h; exact h
    | cons op rest ih => intro db h; exact ih _ (step_HasEmails env henv db op h)
  exact key [] (by simp [Store.HasEmails])

/-! ## Picture upload and deletion (C14, C16, C17) -/

theorem fileFilter_iff (f : UploadFile) :
    fileFilter f = true ↔
      (f.mimetype = "image/jpeg" ∨ f.mimetype = "image/jpg" ∨ f.mimetype = "image/png") := by
  simp [fileFilter, or_assoc]

/-- Claim C14. A file is accepted for picture upload exactly when its MIME type is
`image/jpeg`, `image/jpg` or `image/png` and its size is at most 5242880 bytes.
A file of another type is answered 400 with the unsupported-type error, a larger
file is answered 400, and in both cases the database is left as it was. -/
theorem upload_acceptance (db : Store) (userId : Nat) (f : UploadFile) (path : String)
    (del : HostDelete) (up : Except String String) :
    maxFileSize = 5242880 ∧
    ((∃ stored, multerSingle (some f) path = .file stored) ↔
      ((f.mimetype = "image/jpeg" ∨ f.mimetype = "image/jpg" ∨ f.mimetype = "image/png") ∧
        f.size ≤ 5242880)) ∧
    (¬ (f.mimetype = "image/jpeg" ∨ f.mimetype = "image/jpg" ∨ f.mimetype = "image/png") →
      uploadPictureRequest db userId (some f) path del up
        = (failure 400 ("File upload error: " ++ unsupportedTypeMessage) [], db, [])) ∧
    (5242880 < f.size →
      (uploadPictureRequest db userId (some f) path del up).1.status = 400 ∧
      (uploadPictureRequest db userId (some f) path del up).2.1 = db ∧
      (uploadPictureRequest db userId (some f) path del up).2.2 = []) := by
  have hmax : maxFileSize = 5242880 := by decide
  refine ⟨hmax, ?_, ?_, ?_⟩
  · rw [← fileFilter_iff, ← hmax]
    unfold multerSingle
    simp only []
    by_cases hf : fileFilter f = true
    · by_cases hs : f.size ≤ maxFileSize
      · simp [hf, hs]
      · simp [hf, hs]
    · simp [hf]
  · intro hbad
    rw [← fileFilter_iff] at hbad
    unfold uploadPictureRequest multerSingle
    simp only [hbad, if_false, Bool.false_eq_true]
    rfl
  · intro hbig
    have hs : ¬ f.size ≤ maxFileSize := by rw [hmax]; omega
    unfold uploadPictureRequest multerSingle
    simp only []
    by_cases hf : fileFilter f = true
    · simp only [hf, hs, if_true, if_false]
      exact ⟨rfl, rfl, rfl⟩
    · simp only [hf, if_false, Bool.false_eq_true]
      exact ⟨rfl, rfl, rfl⟩

/-- A witness of `upload_acceptance`: a GIF is refused, a 6 MiB JPEG is refused. -/
theorem upload_acceptance_witness :
    uploadPictureRequest [annWithPicture] 1
        (some { originalname := "me.gif", mimetype := "image/gif", size := 100 }) "temp/image-1.gif"
        (.returned "ok") (.ok "https://res.cloudinary.com/demo/image/upload/v2/profile-pictures/new.jpg")
      = (failure 400 ("File upload error: " ++ unsupportedTypeMessage) [], [annWithPicture], []) ∧
    (uploadPictureRequest [annWithPicture] 1
        (some { originalname := "me.jpg", mimetype := "image/jpeg", size := 6 * 1024 * 1024 })
        "temp/image-1.jpg" (.returned "ok")
        (.ok "https://res.cloudinary.com/demo/image/upload/v2/profile-pictures/new.jpg")).1.status
      = 400 :=
  ⟨(upload_acceptance [annWithPicture] 1
      { originalname := "me.gif", mimetype := "image/gif", size := 100 } "temp/image-1.gif"
      (.returned "ok")
      (.ok "https://res.cloudinary.com/demo/image/upload/v2/profile-pictures/new.jpg")).2.2.1
      (by decide),
   ((upload_acceptance [annWithPicture] 1
      { originalname := "me.jpg", mimetype := "image/jpeg", size := 6 * 1024 * 1024 }
      "temp/image-1.jpg" (.returned "ok")
      (.ok "https://res.cloudinary.com/demo/image/upload/v2/profile-pictures/new.jpg")).2.2.2
      (by decide)).1⟩

theorem findById_saveDoc (db : Store) (id : Nat) (u w : User) (h : findById db id = some u)
    (hw : w._id = id) : findById (saveDoc db w) id = some w := by
  unfold findById at h ⊢
  induction db with
  | nil => simp at h
  | cons x xs ih =>
    simp only [saveDoc]
    by_cases hx : x._id = id
    · have hxw : x._id = w._id := hx.trans hw.symm
      rw [if_pos hxw]
      simp [hw]
    · have hxw : ¬ x._id = w._id := fun hc => hx (hc.trans hw)
      rw [if_neg hxw]
      simp only [List.find?_cons, hx, decide_False] at h ⊢
      exact ih h

theorem multerSingle_accepted (f : UploadFile) (path : String) (hf : fileFilter f = true)
    (hs : f.size ≤ maxFileSize) : multerSingle (some f) path = .file path := by
  unfold multerSingle
  simp only [hf, hs, if_true]

/-- Claim C16. An accepted upload for a stored account whose host upload succeeds
is answered 200; the stored picture reference then is the url the host returned,
and so is the `profilePicture` of the response, whatever the outcome of deleting
the old picture and also when there was none to delete. -/
theorem upload_success (db : Store) (userId : Nat) (user : User) (f : UploadFile)
    (path : String) (del : HostDelete) (url : String)
    (hu : findById db userId = some user) (hf : fileFilter f = true)
    (hs : f.size ≤ maxFileSize) :
    (uploadPictureRequest db userId (some f) path del (.ok url)).1.status = 200 ∧
    (uploadPictureRequest db userId (some f) path del (.ok url)).1.field "profilePicture"
      = some (.val (.str url)) ∧
    findById (uploadPictureRequest db userId (some f) path del (.ok url)).2.1 userId
      = some { user with profilePicture := some url } ∧
    (uploadPictureRequest db userId (some f) path del (.ok url)).1.field "user"
      = some (profileView { user with profilePicture := some url }) := by
  have hid : user._id = userId := (findById_mem db userId user hu).1
  unfold uploadPictureRequest
  rw [multerSingle_accepted f path hf hs]
  unfold uploadPicture
  dsimp only
  rw [hu]
  exact ⟨rfl, rfl, findById_saveDoc db userId user _ hu hid, rfl⟩

/-- A witness of `upload_success`: the old picture's deletion throws. -/
theorem upload_success_witness :
    (uploadPictureRequest [annWithPicture] 1 (some samplePng) "temp/image-1.png" .threw
      (.ok "https://res.cloudinary.com/demo/image/upload/v2/profile-pictures/new.png")).1.status
      = 200 ∧
    findById (uploadPictureRequest [annWithPicture] 1 (some samplePng) "temp/image-1.png" .threw
      (.ok "https://res.cloudinary.com/demo/image/upload/v2/profile-pictures/new.png")).2.1 1
      = some { annWithPicture with
          profilePicture :=
            some "https://res.cloudinary.com/demo/image/upload/v2/profile-pictures/new.png" } :=
  have h := upload_success [annWithPicture] 1 annWithPicture samplePng "temp/image-1.png" .threw
    "https://res.cloudinary.com/demo/image/upload/v2/profile-pictures/new.png"
    (by decide) (by decide) (by decide)
  ⟨h.1, h.2.2.1⟩

/-- Claim C17. Delete picture for a stored account is answered 200 whatever the
host delete call does; afterwards the account's picture reference is empty and
the account is otherwise as before, as is every other document. A second delete
picture is answered 200 and leaves the database as the first one left it. -/
theorem deletePicture_idempotent (db : Store) (userId : Nat) (user : User)
    (del1 del2 : HostDelete) (hwf : db.WF) (hu : findById db userId = some user) :
    (deletePicture db userId del1).1.status = 200 ∧
    (∃ pre post w, db = pre ++ user :: post ∧
      (deletePicture db userId del1).2.1 = pre ++ w :: post ∧
      findById (deletePicture db userId del1).2.1 userId = some w ∧
      truthy w.profilePicture = false ∧
      w = { user with profilePicture := w.profilePicture }) ∧
    (deletePicture (deletePicture db userId del1).2.1 userId del2).1.status = 200 ∧
    (deletePicture (deletePicture db userId del1).2.1 userId del2).2.1
      = (deletePicture db userId del1).2.1 := by
  obtain ⟨hid, pre, post, hdb⟩ := findById_mem db userId user hu
  have hpre : ∀ v ∈ pre, v._id ≠ user._id := WF_split pre post user (hdb ▸ hwf)
  by_cases hpic : truthy user.profilePicture = true
  · have h1 : deletePicture db userId del1
        = (⟨200, [("success", .val (.bool true)),
            ("message", .val (.str "Profile picture removed")),
            ("user", profileView { user with profilePicture := some "" })]⟩,
          saveDoc db { user with profilePicture := some "" },
          [.deleteFromCloudinary (user.profilePicture.getD "")]) := by
      unfold deletePicture
      rw [hu]
      simp only [hpic, if_true]
      cases del1 <;> rfl
    have hfind : findById (saveDoc db { user with profilePicture := some "" }) userId
        = some { user with profilePicture := some "" } :=
      findById_saveDoc db userId user _ hu hid
    have h2 : deletePicture (saveDoc db { user with profilePicture := some "" }) userId del2
        = (⟨200, [("success", .val (.bool true)),
            ("message", .val (.str "Profile picture removed")),
            ("user", profileView { user with profilePicture := some "" })]⟩,
          saveDoc db { user with profilePicture := some "" }, []) := by
      unfold deletePicture
      rw [hfind]
      rfl
    rw [h1]
    dsimp only
    rw [h2]
    refine ⟨rfl, ⟨pre, post, { user with profilePicture := some "" }, hdb, ?_, hfind, rfl, rfl⟩,
      rfl, rfl⟩
    rw [hdb]
    exact saveDoc_split pre post user _ rfl hpre
  · have hpic0 : truthy user.profilePicture = false := by simpa using hpic
    have h1 : ∀ del, deletePicture db userId del
        = (⟨200, [("success", .val (.bool true)),
            ("message", .val (.str "Profile picture removed")),
            ("user", profileView user)]⟩, db, []) := by
      intro del
      unfold deletePicture
      rw [hu]
      simp only [hpic0, Bool.false_eq_true, if_false]
    rw [h1 del1]
    dsimp only
    rw [h1 del2]
    exact ⟨rfl, ⟨pre, post, user, hdb, hdb, hu, hpic0, rfl⟩, rfl, rfl⟩

/-- A witness of `deletePicture_idempotent`: the host delete throws the first time. -/
theorem deletePicture_idempotent_witness :
    (deletePicture [annWithPicture] 1 .threw).2.1
      = [{ annWithPicture with profilePicture := some "" }] ∧
    (deletePicture (deletePicture [annWithPicture] 1 .threw).2.1 1 (.returned "ok")).1.status
      = 200 ∧
    (deletePicture (deletePicture [annWithPicture] 1 .threw).2.1 1 (.returned "ok")).2.1
      = (deletePicture [annWithPicture] 1 .threw).2.1 :=
  have h := deletePicture_idempotent [annWithPicture] 1 annWithPicture .threw (.returned "ok")
    (by decide) (by decide)
  ⟨by decide, h.2.2.1, h.2.2.2⟩

/-! ## Public ids and the order of host calls (C18, C15) -/

theorem publicIdMatch_cloudinary_host (t : List Char) :
    publicIdMatch ("https://res.cloudinary.com/".data ++ t) = some "res".data := by
  simp [publicIdMatch, matchAfterSlash, captureRun, notSlashDot, List.takeWhile]

theorem documentedUrl_data (cloudName version publicId format : String) :
    (documentedUrl cloudName version publicId format).data
      = "https://res.cloudinary.com/".data ++
          (cloudName.data ++ "/image/upload/v".data ++ version.data ++ "/".data ++
            publicId.data ++ ".".data ++ format.data) := by
  simp [documentedUrl, String.data_append, List.append_assoc]

/-- Claim C18, evaluated on the code. For every URL of the documented form the
helper returns `res` or `profile-pictures/res`: the capture group is taken at
the leftmost match of the literal, which is the host name `res.cloudinary.com`.
The URL of the asset `profile-pictures/avatar-1` yields `profile-pictures/res`,
and the URLs of two different assets yield the same public id. -/
theorem getPublicIdFromUrl_returns_host_label :
    (∀ cloudName version publicId format : String,
      getPublicIdFromUrl (documentedUrl cloudName version publicId format) = some "res" ∨
      getPublicIdFromUrl (documentedUrl cloudName version publicId format)
        = some "profile-pictures/res") ∧
    getPublicIdFromUrl (documentedUrl "demo" "1712345678" "profile-pictures/avatar-1" "jpg")
      = some "profile-pictures/res" ∧
    getPublicIdFromUrl (documentedUrl "demo" "1712345678" "profile-pictures/avatar-2" "png")
      = some "profile-pictures/res" ∧
    getPublicIdFromUrl (documentedUrl "demo" "1712345678" "avatar-1" "jpg") = some "res" ∧
    destroyedId (documentedUrl "demo" "1712345678" "profile-pictures/avatar-1" "jpg")
      = some "profile-pictures/res" := by
  refine ⟨?_, by decide, by decide, by decide, by decide⟩
  intro cloudName version publicId format
  have hne : documentedUrl cloudName version publicId format ≠ "" := by
    intro h0
    have h1 := documentedUrl_data cloudName version publicId format
    rw [h0] at h1
    simp at h1
  have hm : publicIdMatch (documentedUrl cloudName version publicId format).data
      = some "res".data := by
    rw [documentedUrl_data]
    exact publicIdMatch_cloudinary_host _
  unfold getPublicIdFromUrl
  rw [if_neg hne, hm]
  dsimp only
  by_cases hinc : includes (documentedUrl cloudName version publicId format).data
      "profile-pictures/".data = true
  · right
    rw [if_neg (by decide), if_pos hinc]
    decide
  · left
    rw [if_neg (by decide), if_neg hinc]

/-- Claim C15, as stated, fails: the account's picture is the asset
`profile-pictures/res`; the upload of the new file fails and the request is
answered 500 with the stored reference kept, yet the handler has already called
`deleteFromCloudinary` on that reference, which the host answered with `ok` and
which names that very asset. -/
theorem upload_failure_after_delete :
    truthy annWithPicture.profilePicture = true ∧
    uploadPictureRequest [annWithPicture] 1 (some samplePng) "temp/image-1.png" (.returned "ok")
        (.error "upload failed")
      = (failure 500 "Server error during picture processing" [], [annWithPicture],
          [.deleteFromCloudinary samplePictureUrl, .uploadToCloudinary "temp/image-1.png"]) ∧
    destroyedId samplePictureUrl = some "profile-pictures/res" := by
  decide

/-- Claim C15, amended. The old picture is deleted before the new one is uploaded.
For a stored account with a picture, when the upload of an accepted file fails
the request is answered 500 and the database, and so the stored picture
reference, is left as it was; the handler's host calls are the delete call for
the stored reference followed by the upload call. -/
theorem upload_failure_keeps_reference (db : Store) (userId : Nat) (user : User)
    (f : UploadFile) (path : String) (del : HostDelete) (err : String)
    (hu : findById db userId = some user) (hpic : truthy user.profilePicture = true)
    (hf : fileFilter f = true) (hs : f.size ≤ maxFileSize) :
    uploadPictureRequest db userId (some f) path del (.error err)
      = (failure 500 "Server error during picture processing" [], db,
          [.deleteFromCloudinary (user.profilePicture.getD ""), .uploadToCloudinary path]) := by
  unfold uploadPictureRequest
  rw [multerSingle_accepted f path hf hs]
  unfold uploadPicture
  dsimp only
  rw [hu]
  dsimp only
  rw [if_pos hpic]
  cases del <;> rfl

/-- A witness of `upload_failure_keeps_reference`: the host delete throws, then the upload fails. -/
theorem upload_failure_keeps_reference_witness :
    uploadPictureRequest [annWithPicture] 1 (some samplePng) "temp/image-1.png" .threw
        (.error "upload failed")
      = (failure 500 "Server error during picture processing" [], [annWithPicture],
          [.deleteFromCloudinary (annWithPicture.profilePicture.getD ""),
           .uploadToCloudinary "temp/image-1.png"]) :=
  upload_failure_keeps_reference [annWithPicture] 1 annWithPicture samplePng "temp/image-1.png"
    .threw "upload failed" (by decide) (by decide) (by decide) (by decide)

/-! ## The client session: logout and account deletion (C19, C20) -/

namespace AuthContext

theorem getItem_removeItem_self (s : Storage) (k : String) : getItem (removeItem s k) k = none := by
  unfold getItem removeItem
  rw [List.find?_filter]
  have h : List.find?
      (fun a : String × String => decide (decide (a.1 ≠ k) = true ∧ decide (a.1 = k) = true)) s
      = none := by
    rw [List.find?_eq_none]
    intro x _
    by_cases hx : x.1 = k <;> simp [hx]
  rw [h]
  rfl

theorem getItem_removeItem_other (s : Storage) (k j : String) (h : j ≠ k) :
    getItem (removeItem s k) j = getItem s j := by
  unfold getItem removeItem
  rw [List.find?_filter]
  have hp : (fun a : String × String =>
        decide (decide (a.1 ≠ k) = true ∧ decide (a.1 = j) = true))
      = (fun a => decide (a.1 = j)) := by
    funext a
    by_cases ha : a.1 = j
    · have hk : a.1 ≠ k := fun hc => h (ha.symm.trans hc)
      simp [ha, hk, h]
    · simp [ha]
  rw [hp]

end AuthContext

/-- Claim C19, as stated, fails: on a device that holds a credential pair, logout
succeeds and removes the token and the profile snapshot, but the key
`stored_credentials` is still present afterwards. -/
theorem logout_keeps_stored_credentials :
    (AuthContext.logout AuthContext.signedIn).1.success = some true ∧
    AuthContext.getItem (AuthContext.logout AuthContext.signedIn).2.storage "stored_credentials"
      = some "ann@x.com secret1" ∧
    AuthContext.getItem (AuthContext.logout AuthContext.signedIn).2.storage "stored_credentials"
      ≠ none := by
  decide

/-- Claim C19, amended. Logout succeeds, and afterwards the keys `userToken` and `userData`
are absent and the in-memory user is null; every other key, `stored_credentials`
among them, holds what it held before. -/
theorem logout_clears_session (c : AuthContext.State) :
    (AuthContext.logout c).1.success = some true ∧
    AuthContext.getItem (AuthContext.logout c).2.storage "userToken" = none ∧
    AuthContext.getItem (AuthContext.logout c).2.storage "userData" = none ∧
    (AuthContext.logout c).2.user = none ∧
    (∀ k, k ≠ "userToken" → k ≠ "userData" →
      AuthContext.getItem (AuthContext.logout c).2.storage k = AuthContext.getItem c.storage k) := by
  unfold AuthContext.logout
  dsimp only
  refine ⟨rfl, ?_, ?_, rfl, ?_⟩
  · rw [AuthContext.getItem_removeItem_other _ _ _ (by decide),
      AuthContext.getItem_removeItem_self]
  · exact AuthContext.getItem_removeItem_self _ _
  · intro k h1 h2
    rw [AuthContext.getItem_removeItem_other _ _ _ h2,
      AuthContext.getItem_removeItem_other _ _ _ h1]

/-- A witness of `logout_clears_session`: the signed-in device. -/
theorem logout_clears_session_witness :
    AuthContext.getItem (AuthContext.logout AuthContext.signedIn).2.storage "userToken" = none ∧
    AuthContext.getItem (AuthContext.logout AuthContext.signedIn).2.storage "userData" = none ∧
    (AuthContext.logout AuthContext.signedIn).2.user = none :=
  have h := logout_clears_session AuthContext.signedIn
  ⟨h.2.1, h.2.2.1, h.2.2.2.1⟩

/-- Claim C20. When the server acknowledges the deletion with success, the client's
`deleteAccount` returns success, the keys `userToken`, `userData`,
`stored_credentials` and `biometric_auth_enabled` are absent afterwards and the
user is null. When the response is not a success, or the request throws, it
returns `success: false` and leaves AsyncStorage and the in-memory user as they were. -/
theorem client_deleteAccount (c : AuthContext.State) :
    (∀ message,
      (AuthContext.deleteAccount c (.responded true message)).1.success = some true ∧
      AuthContext.getItem (AuthContext.deleteAccount c (.responded true message)).2.storage
        "userToken" = none ∧
      AuthContext.getItem (AuthContext.deleteAccount c (.responded true message)).2.storage
        "userData" = none ∧
      AuthContext.getItem (AuthContext.deleteAccount c (.responded true message)).2.storage
        "stored_credentials" = none ∧
      AuthContext.getItem (AuthContext.deleteAccount c (.responded true message)).2.storage
        "biometric_auth_enabled" = none ∧
      (AuthContext.deleteAccount c (.responded true message)).2.user = none) ∧
    (∀ api, (api = .threw none ∨ (∃ m, api = .threw (some m)) ∨
        ∃ message, api = .responded false message) →
      (AuthContext.deleteAccount c api).1.success = some false ∧
      (AuthContext.deleteAccount c api).2.storage = c.storage ∧
      (AuthContext.deleteAccount c api).2.user = c.user) := by
  constructor
  · intro message
    unfold AuthContext.deleteAccount
    dsimp only
    rw [if_pos rfl]
    refine ⟨rfl, ?_, ?_, ?_, ?_, rfl⟩
    · dsimp only
      rw [AuthContext.getItem_removeItem_other _ _ _ (by decide),
        AuthContext.getItem_removeItem_other _ _ _ (by decide),
        AuthContext.getItem_removeItem_other _ _ _ (by decide),
        AuthContext.getItem_removeItem_self]
    · dsimp only
      rw [AuthContext.getItem_removeItem_other _ _ _ (by decide),
        AuthContext.getItem_removeItem_other _ _ _ (by decide),
        AuthContext.getItem_removeItem_self]
    · dsimp only
      rw [AuthContext.getItem_removeItem_other _ _ _ (by decide),
        AuthContext.getItem_removeItem_self]
    · exact AuthContext.getItem_removeItem_self _ _
  · rintro api (rfl | ⟨m, rfl⟩ | ⟨message, rfl⟩) <;> exact ⟨rfl, rfl, rfl⟩

/-- A witness of `client_deleteAccount`: the signed-in device, once acknowledged and once refused. -/
theorem client_deleteAccount_witness :
    (AuthContext.deleteAccount AuthContext.signedIn (.responded true none)).2.storage = [] ∧
    (AuthContext.deleteAccount AuthContext.signedIn (.responded true none)).2.user = none ∧
    (AuthContext.deleteAccount AuthContext.signedIn (.responded false none)).1.success
      = some false ∧
    (AuthContext.deleteAccount AuthContext.signedIn (.responded false none)).2.storage
      = AuthContext.signedIn.storage :=
  have h := client_deleteAccount AuthContext.signedIn
  ⟨by decide, (h.1 none).2.2.2.2.2, (h.2 _ (Or.inr (Or.inr ⟨none, rfl⟩))).1,
   (h.2 _ (Or.inr (Or.inr ⟨none, rfl⟩))).2.1⟩

/-! ## Every reachable database holds verified accounts only (C26) -/

theorem saveDoc_AllVerified (db : Store) (w : User) (h : db.AllVerified)
    (hw : w.captchaVerified = true) : (saveDoc db w).AllVerified := by
  intro v hv
  rcases saveDoc_mem db w v hv with hv | hv
  · exact h v hv
  · rw [hv]; exact hw

theorem step_AllVerified (env : Env) (db : Store) (op : Op) (h : db.AllVerified) :
    (step env db op).AllVerified := by
  cases op with
  | register ctx b =>
    simp only [step]
    rcases register_cases env ctx db b with ⟨_, hdb⟩ |
      ⟨_, _, _, _, _, _, _, _, _, u, hdb, _, _, hcv, _⟩
    · rw [hdb]; exact h
    · rw [hdb]
      intro v hv
      rcases List.mem_append.1 hv with hv | hv
      · exact h v hv
      · rw [List.mem_singleton] at hv
        rw [hv]; exact hcv
  | login ctx b =>
    simp only [step]
    unfold login
    simp only []
    split_ifs
    · exact h
    · split
      · exact h
      · rename_i user hfind
        have hu : user.captchaVerified = true := h user (List.mem_of_find?_eq_some hfind)
        split_ifs
        · exact h
        · exact h
        · split
          · exact saveDoc_AllVerified db _ h hu
          · exact saveDoc_AllVerified db _ h hu
  | getProfile k => exact h
  | updateProfile k p =>
    simp only [step]
    unfold updateProfile
    split
    · exact h
    · rename_i user hfind
      have hu : user.captchaVerified = true := h user (findById_mem_of_some db k user hfind)
      simp only []
      split_ifs
      · exact h
      · apply saveDoc_AllVerified db _ h
        rw [(applyPatch_frame _ p).2.2.2.2.2.2]
        exact hu
      · apply saveDoc_AllVerified db _ h
        rw [(applyPatch_frame _ p).2.2.2.2.2.2]
        exact hu
  | uploadPicture k m del up =>
    simp only [step]
    unfold uploadPicture
    cases m with
    | error msg => exact h
    | noFile => exact h
    | file path =>
      simp only []
      cases hfind : findById db k with
      | none => exact h
      | some user =>
        cases up with
        | error e => exact h
        | ok url =>
          exact saveDoc_AllVerified db _ h (h user (findById_mem_of_some db k user hfind))
  | deletePicture k del =>
    simp only [step]
    unfold deletePicture
    split
    · exact h
    · rename_i user hfind
      split_ifs
      · exact saveDoc_AllVerified db _ h (h user (findById_mem_of_some db k user hfind))
      · exact h
  | deleteAccount k =>
    simp only [step]
    unfold deleteAccount
    split
    · exact h
    · intro v hv
      exact h v ((deleteById_sublist db k).subset hv)

theorem login_not_403_of_AllVerified (env : Env) (ctx : Ctx) (db : Store) (b : LoginBody)
    (h : db.AllVerified) : (login env ctx db b).1.status ≠ 403 := by
  unfold login
  simp only []
  split_ifs
  · simp [failure]
  · split
    · simp [failure]
    · rename_i user hfind
      have hu : user.captchaVerified = true := h user (List.mem_of_find?_eq_some hfind)
      split_ifs with hc hv
      · simp [failure]
      · rw [hu] at hv
        exact absurd hv (by decide)
      · split <;> simp [failure]

/-- Claim C26. In every database reached from the empty one by register, login,
get profile, profile update, picture upload, picture delete and account delete,
every document has `captchaVerified = true`; no login on such a database is
answered 403. -/
theorem run_AllVerified (env : Env) (ops : List Op) :
    (run env ops).AllVerified ∧
    ∀ ctx b, (login env ctx (run env ops) b).1.status ≠ 403 := by
  have key : ∀ (l : List Op) (db : Store), db.AllVerified →
      (l.foldl (step env) db).AllVerified := by
    intro l
    induction l with
    | nil => intro db h; exact h
    | cons op rest ih => intro db h; exact ih _ (step_AllVerified env db op h)
  have hrun : (run env ops).AllVerified := key ops [] (by simp [Store.AllVerified])
  exact ⟨hrun, fun ctx b => login_not_403_of_AllVerified env ctx _ b hrun⟩

/-- A witness of `run_AllVerified`: the two accounts of the sample run. -/
theorem run_AllVerified_witness :
    (run sampleEnv caseClashOps).map (fun u => u.captchaVerified) = [true, true] ∧
    (run sampleEnv caseClashOps).AllVerified :=
  ⟨by decide, (run_AllVerified sampleEnv caseClashOps).1⟩

/-! ## The decision table of register (C25) -/

theorem register_invalid_400 (env : Env) (ctx : Ctx) (db : Store) (b : RegisterBody)
    (h : RegisterInvalid env db b) : (register env ctx db b).1.status = 400 := by
  unfold register
  by_cases h1 : (!truthy b.name || !truthy b.email || !truthy b.password) = true
  · rw [if_pos h1]; rfl
  · rw [if_neg h1]
    dsimp only
    by_cases h2 : jsLength (b.password.getD "") < 6
    · rw [if_pos h2]; rfl
    · rw [if_neg h2]
      by_cases h3 : (!emailRegexTest (b.email.getD "")) = true
      · rw [if_pos h3]; rfl
      · rw [if_neg h3]
        by_cases h4 : (findOne db (env.toLowerCase (b.email.getD ""))).isSome = true
        · rw [if_pos h4]; rfl
        · exfalso
          rcases h with h | h | h | h | h | h
          · rw [h] at h1; exact h1 (by simp)
          · rw [h] at h1; exact h1 (by simp)
          · rw [h] at h1; exact h1 (by simp)
          · exact h2 h
          · rw [h] at h3; exact h3 rfl
          · exact h4 h

theorem register_valid_eq (env : Env) (ctx : Ctx) (db : Store) (b : RegisterBody)
    (h : ¬ RegisterInvalid env db b) :
    register env ctx db b =
      if !(b.captchaVerified.getD false) then
        (failure 403 "CAPTCHA verification required" [("requiresCaptcha", .val (.bool true))], db)
      else
        match formatDateOfBirth env b.dateOfBirth with
        | none =>
          (failure 400 "Invalid date of birth format"
            [("validationErrors", .obj [("dateOfBirth", .str "Invalid date format")])], db)
        | some formattedDateOfBirth =>
          match insertDoc db
            { _id := ctx.newId, name := jsTrim (b.name.getD ""),
              email := jsTrim (env.toLowerCase (b.email.getD "")),
              password := env.hash (b.password.getD "") (env.genSalt 10 ctx.rand),
              countryCode := jsTrim (optOr b.countryCode "+1"),
              phoneNumber := jsTrim (optOr b.phoneNumber ""),
              address := jsTrim (optOr b.address ""),
              dateOfBirth := formattedDateOfBirth, profilePicture := none,
              captchaVerified := true, createdAt := ctx.now, lastLogin := ctx.now } with
          | none =>
            (failure 500 "Server error during registration"
              [("error", .val (.str duplicateKeyMessage))], db)
          | some db1 =>
            (⟨201, [("success", .val (.bool true)),
                    ("token", .val (.str (env.jwtSign ctx.newId (jwtKey env) "7d" ctx.now))),
                    ("user", registerView
                      { _id := ctx.newId, name := jsTrim (b.name.getD ""),
                        email := jsTrim (env.toLowerCase (b.email.getD "")),
                        password := env.hash (b.password.getD "") (env.genSalt 10 ctx.rand),
                        countryCode := jsTrim (optOr b.countryCode "+1"),
                        phoneNumber := jsTrim (optOr b.phoneNumber ""),
                        address := jsTrim (optOr b.address ""),
                        dateOfBirth := formattedDateOfBirth, profilePicture := none,
                        captchaVerified := true, createdAt := ctx.now,
                        lastLogin := ctx.now })]⟩, db1) := by
  unfold RegisterInvalid at h
  simp only [not_or, Bool.not_eq_false, not_lt] at h
  obtain ⟨hn, he, hp, hlen, hre, hex⟩ := h
  unfold register
  have h1 : ¬ (!truthy b.name || !truthy b.email || !truthy b.password) = true := by
    rw [hn, he, hp]; decide
  have h3 : ¬ (!emailRegexTest (b.email.getD "")) = true := by rw [hre]; decide
  rw [if_neg h1]
  dsimp only
  rw [if_neg (Nat.not_lt.2 hlen), if_neg h3, if_neg hex]
  try rfl

theorem insertDoc_fresh (db : Store) (u : User) (h : ∀ v ∈ db, v._id ≠ u._id) :
    insertDoc db u = some (db ++ [u]) := by
  unfold insertDoc
  have hany : ¬ (db.any (fun v => decide (v._id = u._id))) = true := by
    simp only [List.any_eq_true, decide_eq_true_eq, not_exists, not_and]
    exact h
  rw [if_neg hany]

/-- Claim C25. The decision table of register. The status is 400 when a required
field is empty, the `length` of the password is below six, the email fails the
shape check or a document with the lower-cased email exists; otherwise 403 when
`captchaVerified` is not true; otherwise 400 when `dateOfBirth` is given and is
not a parseable date; otherwise 201, the ObjectId of the new document being
fresh. The database gains exactly one document when the status is 201 and is
unchanged for every other status. -/
theorem register_decision_table (env : Env) (ctx : Ctx) (db : Store) (b : RegisterBody) :
    (RegisterInvalid env db b → (register env ctx db b).1.status = 400) ∧
    (¬ RegisterInvalid env db b → b.captchaVerified ≠ some true →
      (register env ctx db b).1.status = 403) ∧
    (¬ RegisterInvalid env db b → b.captchaVerified = some true →
      truthy b.dateOfBirth = true → env.parseDate (b.dateOfBirth.getD "") = none →
      (register env ctx db b).1.status = 400) ∧
    (¬ RegisterInvalid env db b → b.captchaVerified = some true →
      ¬ (truthy b.dateOfBirth = true ∧ env.parseDate (b.dateOfBirth.getD "") = none) →
      (∀ v ∈ db, v._id ≠ ctx.newId) →
      (register env ctx db b).1.status = 201) ∧
    ((register env ctx db b).1.status = 201 → ∃ u, (register env ctx db b).2 = db ++ [u]) ∧
    ((register env ctx db b).1.status ≠ 201 → (register env ctx db b).2 = db) := by
  refine ⟨register_invalid_400 env ctx db b, ?_, ?_, ?_, ?_, ?_⟩
  · intro hv hc
    rw [register_valid_eq env ctx db b hv]
    have hc2 : (!(b.captchaVerified.getD false)) = true := by
      cases hcv : b.captchaVerified with
      | none => rfl
      | some v =>
        cases v with
        | false => rfl
        | true => exact absurd hcv hc
    rw [if_pos hc2]
    rfl
  · intro hv hc hd hparse
    rw [register_valid_eq env ctx db b hv]
    have hc2 : ¬ (!(b.captchaVerified.getD false)) = true := by rw [hc]; decide
    have hf : formatDateOfBirth env b.dateOfBirth = none := by
      unfold formatDateOfBirth
      rw [if_pos hd, hparse]
    rw [if_neg hc2, hf]
    rfl
  · intro hv hc hd hfresh
    rw [register_valid_eq env ctx db b hv]
    have hc2 : ¬ (!(b.captchaVerified.getD false)) = true := by rw [hc]; decide
    rw [if_neg hc2]
    have hf : ∃ d, formatDateOfBirth env b.dateOfBirth = some d := by
      unfold formatDateOfBirth
      by_cases ht : truthy b.dateOfBirth = true
      · rw [if_pos ht]
        cases hp : env.parseDate (b.dateOfBirth.getD "") with
        | none => exact absurd ⟨ht, hp⟩ hd
        | some d => exact ⟨some d, rfl⟩
      · rw [if_neg ht]
        exact ⟨none, rfl⟩
    obtain ⟨d, hd2⟩ := hf
    rw [hd2]
    dsimp only
    rw [insertDoc_fresh db _ hfresh]
  · intro h201
    rcases register_cases env ctx db b with ⟨hne, _⟩ |
      ⟨_, _, _, _, _, _, _, _, _, u, hdb, _⟩
    · exact absurd h201 hne
    · exact ⟨u, hdb⟩
  · intro hne
    rcases register_cases env ctx db b with ⟨_, hdb⟩ | ⟨h201, _⟩
    · exact hdb
    · exact absurd h201 hne

/-- A witness of `register_decision_table`: the four rows on the empty database,
the password of three emoji, whose `length` is six, and the email `ÄNN@X.COM`
after `änn@x.com`. -/
theorem register_decision_table_witness :
    (register sampleEnv ⟨1000, 0, 1⟩ [] (sampleRegister "Ann" "ann@x.com" "😀😀😀")).1.status
      = 201 ∧
    (register sampleEnv ⟨2000, 0, 2⟩
      (register sampleEnv ⟨1000, 0, 1⟩ [] (sampleRegister "Ann" "änn@x.com" "secret1")).2
      (sampleRegister "Anna" "ÄNN@X.COM" "secret2")).1.status = 400 ∧
    (register sampleEnv ⟨1000, 0, 1⟩ [] (sampleRegister "Ann" "ann@x" "secret1")).1.status = 400 ∧
    (register sampleEnv ⟨1000, 0, 1⟩ []
      { sampleRegister "Ann" "ann@x.com" "secret1" with captchaVerified := some false }).1.status
      = 403 ∧
    (register sampleEnv ⟨1000, 0, 1⟩ []
      { sampleRegister "Ann" "ann@x.com" "secret1" with dateOfBirth := some "soon" }).1.status
      = 400 ∧
    (register sampleEnv ⟨1000, 0, 1⟩ [] (sampleRegister "Ann" "ann@x.com" "secret1")).1.status
      = 201 :=
  ⟨(register_decision_table sampleEnv ⟨1000, 0, 1⟩ []
      (sampleRegister "Ann" "ann@x.com" "😀😀😀")).2.2.2.1
      (by decide) (by decide) (by decide) (by decide),
   (register_decision_table sampleEnv ⟨2000, 0, 2⟩
      (register sampleEnv ⟨1000, 0, 1⟩ [] (sampleRegister "Ann" "änn@x.com" "secret1")).2
      (sampleRegister "Anna" "ÄNN@X.COM" "secret2")).1 (by decide),
   (register_decision_table sampleEnv ⟨1000, 0, 1⟩ []
      (sampleRegister "Ann" "ann@x" "secret1")).1 (by decide),
   (register_decision_table sampleEnv ⟨1000, 0, 1⟩ []
      { sampleRegister "Ann" "ann@x.com" "secret1" with captchaVerified := some false }).2.1
      (by decide) (by decide),
   (register_decision_table sampleEnv ⟨1000, 0, 1⟩ []
      { sampleRegister "Ann" "ann@x.com" "secret1" with dateOfBirth := some "soon" }).2.2.1
      (by decide) (by decide) (by decide) (by decide),
   (register_decision_table sampleEnv ⟨1000, 0, 1⟩ []
      (sampleRegister "Ann" "ann@x.com" "secret1")).2.2.2.1
      (by decide) (by decide) (by decide) (by decide)⟩

/-! ## Stored names, and what login reveals (C27, C29) -/

/-- Claim C27, evaluated on the code. A register request whose name is three
spaces passes the required-field check, is answered 201, and the document it
stores has the empty name; its email and password hash are non-empty. -/
theorem register_blank_name_stored_empty :
    (register sampleEnv ⟨1000, 0, 1⟩ [] (sampleRegister "   " "ann@x.com" "secret1")).1.status
      = 201 ∧
    (register sampleEnv ⟨1000, 0, 1⟩ [] (sampleRegister "   " "ann@x.com" "secret1")).2.map
      (fun u => (u.name, u.email, u.password)) = [("", "ann@x.com", "salt$secret1")] := by
  decide

/-- Claim C29, as stated, fails: with the empty password, the login with an
unregistered email and the login with a registered email are both answered 400
`All fields are required`, not `Invalid credentials`. -/
theorem login_empty_password_same_answer :
    findOne [verifiedAnn] "zed@x.com" = none ∧
    findOne [verifiedAnn] "ann@x.com" = some verifiedAnn ∧
    sampleEnv.compare "" verifiedAnn.password = false ∧
    (login sampleEnv ⟨2000, 0, 0⟩ [verifiedAnn] ⟨some "zed@x.com", some ""⟩).1
      = failure 400 "All fields are required" [] ∧
    (login sampleEnv ⟨2000, 0, 0⟩ [verifiedAnn] ⟨some "ann@x.com", some ""⟩).1
      = failure 400 "All fields are required" [] ∧
    (login sampleEnv ⟨2000, 0, 0⟩ [verifiedAnn] ⟨some "zed@x.com", some ""⟩).1.message
      ≠ some "Invalid credentials" := by
  decide

/-- Claim C29, amended. For every password, a login with a non-empty unregistered
email and a login with a non-empty registered email whose hash the password does
not verify against are answered identically, with status 400, and neither
changes the database; the answer is `Invalid credentials` when the password is
non-empty and `All fields are required` when it is empty. -/
theorem login_hides_registration (env : Env) (ctx1 ctx2 : Ctx) (db : Store)
    (password e1 e2 : String) (u : User)
    (h1 : e1 ≠ "") (h2 : e2 ≠ "") (hun : findOne db e1 = none) (hreg : findOne db e2 = some u)
    (hcmp : env.compare password u.password = false) :
    (login env ctx1 db ⟨some e1, some password⟩).1
      = (login env ctx2 db ⟨some e2, some password⟩).1 ∧
    (login env ctx1 db ⟨some e1, some password⟩).1
      = failure 400 (if password = "" then "All fields are required" else "Invalid credentials")
          [] ∧
    (login env ctx1 db ⟨some e1, some password⟩).2 = db ∧
    (login env ctx2 db ⟨some e2, some password⟩).2 = db := by
  have ht1 : truthy (some e1) = true := by simp [truthy, h1]
  have ht2 : truthy (some e2) = true := by simp [truthy, h2]
  by_cases hp : password = ""
  · subst hp
    have ha : ∀ (ctx : Ctx) (e : String), login env ctx db ⟨some e, some ""⟩
        = (failure 400 "All fields are required" [], db) := by
      intro ctx e
      have hf : truthy (some "") = false := by decide
      unfold login
      dsimp only
      rw [hf]
      simp
    rw [ha ctx1 e1, ha ctx2 e2]
    exact ⟨rfl, rfl, rfl, rfl⟩
  · have htp : truthy (some password) = true := by simp [truthy, hp]
    have ha : login env ctx1 db ⟨some e1, some password⟩
        = (failure 400 "Invalid credentials" [], db) := by
      unfold login
      dsimp only
      rw [ht1, htp]
      simp only [Bool.not_true, Bool.or_self, Bool.false_eq_true, if_false, Option.getD_some]
      rw [hun]
    have hb : login env ctx2 db ⟨some e2, some password⟩
        = (failure 400 "Invalid credentials" [], db) := by
      unfold login
      dsimp only
      rw [ht2, htp]
      simp only [Bool.not_true, Bool.or_self, Bool.false_eq_true, if_false, Option.getD_some]
      rw [hreg]
      dsimp only
      have hc : (!env.compare password u.password) = true := by rw [hcmp]; rfl
      rw [if_pos hc]
    rw [ha, hb, if_neg hp]
    exact ⟨rfl, rfl, rfl, rfl⟩

/-- A witness of `login_hides_registration`: the password `wrong`. -/
theorem login_hides_registration_witness :
    (login sampleEnv ⟨2000, 0, 0⟩ [verifiedAnn] ⟨some "zed@x.com", some "wrong"⟩).1
      = (login sampleEnv ⟨3000, 0, 0⟩ [verifiedAnn] ⟨some "ann@x.com", some "wrong"⟩).1 ∧
    (login sampleEnv ⟨2000, 0, 0⟩ [verifiedAnn] ⟨some "zed@x.com", some "wrong"⟩).1
      = failure 400 "Invalid credentials" [] :=
  have h := login_hides_registration sampleEnv ⟨2000, 0, 0⟩ ⟨3000, 0, 0⟩ [verifiedAnn] "wrong"
    "zed@x.com" "ann@x.com" verifiedAnn (by decide) (by decide) (by decide) (by decide)
    (by decide)
  ⟨h.1, h.2.1⟩

/-! ## Profile update: patch semantics (C30) -/

theorem applyPatch_values (u : User) (p : ProfilePatch) :
    (applyPatch u p).name = (if truthy p.name then p.name.getD "" else u.name) ∧
    (applyPatch u p).countryCode
      = (if truthy p.countryCode then p.countryCode.getD "" else u.countryCode) ∧
    (applyPatch u p).phoneNumber = p.phoneNumber.getD u.phoneNumber ∧
    (applyPatch u p).address = p.address.getD u.address ∧
    (applyPatch u p).profilePicture
      = (if p.profilePicture.isSome then p.profilePicture else u.profilePicture) := by
  obtain ⟨name, email, cc, phone, addr, pic⟩ := p
  simp only [applyPatch]
  refine ⟨?_, ?_, ?_, ?_, ?_⟩ <;>
    (split_ifs <;> cases phone <;> cases addr <;> cases pic <;> first | rfl | simp_all)

/-- Claim C30. The patch semantics of profile update, for a stored account. The
email is replaced only when the patch email is non-empty and differs from the
current one; when a document with that email exists the update is answered 400
and nothing is stored, otherwise the email is stored exactly as given. The name
and the country code are replaced only by a non-empty value; phone number,
address and profile picture are replaced by any value the patch carries, the
empty string included. -/
theorem updateProfile_patch_semantics (db : Store) (id : Nat) (p : ProfilePatch) (u : User)
    (hu : findById db id = some u) :
    ((truthy p.email = true ∧ p.email.getD "" ≠ u.email ∧
        (findOne db (p.email.getD "")).isSome = true) →
      updateProfile db id p = (failure 400 "Email already in use" [], db)) ∧
    (¬ (truthy p.email = true ∧ p.email.getD "" ≠ u.email ∧
        (findOne db (p.email.getD "")).isSome = true) →
      (updateProfile db id p).1.status = 200 ∧
      ∃ w, findById (updateProfile db id p).2 id = some w ∧
        w.email = (if truthy p.email = true ∧ p.email.getD "" ≠ u.email
                   then p.email.getD "" else u.email) ∧
        w.name = (if truthy p.name then p.name.getD "" else u.name) ∧
        w.countryCode = (if truthy p.countryCode then p.countryCode.getD "" else u.countryCode) ∧
        w.phoneNumber = p.phoneNumber.getD u.phoneNumber ∧
        w.address = p.address.getD u.address ∧
        w.profilePicture
          = (if p.profilePicture.isSome then p.profilePicture else u.profilePicture)) := by
  have hid : u._id = id := (findById_mem db id u hu).1
  constructor
  · rintro ⟨ht, hne, hex⟩
    unfold updateProfile
    rw [hu]
    dsimp only
    have hc : (truthy p.email && decide (p.email.getD "" ≠ u.email) &&
        (findOne db (p.email.getD "")).isSome) = true := by
      rw [ht, hex]
      simp [hne]
    rw [if_pos hc]
  · intro hnot
    unfold updateProfile
    rw [hu]
    dsimp only
    have hc : ¬ (truthy p.email && decide (p.email.getD "" ≠ u.email) &&
        (findOne db (p.email.getD "")).isSome) = true := by
      intro hc
      simp only [Bool.and_eq_true, decide_eq_true_eq] at hc
      exact hnot ⟨hc.1.1, hc.1.2, hc.2⟩
    rw [if_neg hc]
    by_cases hch : truthy p.email = true ∧ p.email.getD "" ≠ u.email
    · have hb : (truthy p.email && decide (p.email.getD "" ≠ u.email)) = true := by
        simp only [Bool.and_eq_true, decide_eq_true_eq]
        exact hch
      rw [if_pos hch]
      simp only [hb, if_true]
      obtain ⟨f1, f2, _⟩ := applyPatch_frame { u with email := p.email.getD "" } p
      obtain ⟨v1, v2, v3, v4, v5⟩ := applyPatch_values { u with email := p.email.getD "" } p
      exact ⟨by first | rfl | trivial, _, findById_saveDoc db id u _ hu (f1.trans hid), f2, v1, v2, v3, v4, v5⟩
    · have hb : ¬ (truthy p.email && decide (p.email.getD "" ≠ u.email)) = true := by
        simp only [Bool.and_eq_true, decide_eq_true_eq]
        exact hch
      rw [if_neg hch]
      simp only [hb, if_false]
      obtain ⟨f1, f2, _⟩ := applyPatch_frame u p
      obtain ⟨v1, v2, v3, v4, v5⟩ := applyPatch_values u p
      exact ⟨by first | rfl | trivial, _, findById_saveDoc db id u _ hu (f1.trans hid), f2, v1, v2, v3, v4, v5⟩

/-- A witness of `updateProfile_patch_semantics`: an empty name and an empty
address in the patch, with an email in upper case. -/
theorem updateProfile_patch_semantics_witness :
    findById (updateProfile [verifiedAnn] 1
        { emailPatch "ANNA@X.COM" with name := some "", address := some "" }).2 1
      = some { verifiedAnn with email := "ANNA@X.COM", address := "" } ∧
    (updateProfile [verifiedAnn] 1
        { emailPatch "ANNA@X.COM" with name := some "", address := some "" }).1.status = 200 :=
  ⟨by decide,
   ((updateProfile_patch_semantics [verifiedAnn] 1
      { emailPatch "ANNA@X.COM" with name := some "", address := some "" } verifiedAnn
      (by decide)).2 (by decide)).1⟩

/-! ## Tokens (C23) -/

/-- The token of a register answered 201 (lines 137-142). -/
theorem register_token (env : Env) (ctx : Ctx) (db : Store) (b : RegisterBody)
    (h201 : (register env ctx db b).1.status = 201) :
    (register env ctx db b).1.field "token"
      = some (.val (.str (env.jwtSign ctx.newId (jwtKey env) "7d" ctx.now))) := by
  generalize hr : register env ctx db b = r at h201 ⊢
  unfold register at hr
  simp only [] at hr
  split_ifs at hr with h1 h2 h3 h4 h5
  · subst hr; simp [failure] at h201
  · subst hr; simp [failure] at h201
  · subst hr; simp [failure] at h201
  · subst hr; simp [failure] at h201
  · subst hr; simp [failure] at h201
  · split at hr
    · subst hr; simp [failure] at h201
    · split at hr
      · subst hr; simp [failure] at h201
      · subst hr; rfl

/-! ## The client: biometric login and the credential cache (C21, C22) -/

namespace AuthContext

theorem getItem_append (s t : Storage) (k : String) :
    getItem (s ++ t) k = (getItem s k).orElse (fun _ => getItem t k) := by
  unfold getItem
  rw [List.find?_append]
  cases List.find? (fun kv => decide (kv.1 = k)) s <;> rfl

theorem getItem_setItem_self (s : Storage) (k v : String) : getItem (setItem s k v) k = some v := by
  unfold setItem
  rw [getItem_append, getItem_removeItem_self]
  simp [getItem]

theorem getItem_setItem_other (s : Storage) (k v j : String) (h : j ≠ k) :
    getItem (setItem s k v) j = getItem s j := by
  unfold setItem
  rw [getItem_append, getItem_removeItem_other s k j h]
  have hn : getItem [(k, v)] j = none := by
    simp [getItem, List.find?, Ne.symm h]
  rw [hn]
  cases getItem s j <;> rfl

/-- The three results of `login`, and the keys it writes. -/
theorem login_cases (codec : Codec) (api : LoginApi) (c : State) (email password : Option String) :
    ((login codec api c email password).1 = ⟨none, some true, none⟩ ∨
     (login codec api c email password).1 = ⟨some true, none, none⟩ ∨
     ∃ m, (login codec api c email password).1 = ⟨some false, none, m⟩) ∧
    ∀ k, k ≠ "userToken" → k ≠ "userData" →
      getItem (login codec api c email password).2.storage k = getItem c.storage k := by
  unfold login
  dsimp only
  cases api email password with
  | threw m => exact ⟨Or.inr (Or.inr ⟨m, rfl⟩), fun _ _ _ => rfl⟩
  | responded rc token u =>
    cases rc with
    | true => exact ⟨Or.inl rfl, fun _ _ _ => rfl⟩
    | false =>
      refine ⟨Or.inr (Or.inl rfl), fun k h1 h2 => ?_⟩
      simp only [Bool.false_eq_true, if_false]
      rw [getItem_setItem_other _ _ _ _ h2, getItem_setItem_other _ _ _ _ h1]

theorem register_storage (codec : Codec) (api : RegisterApi) (c : State) (userData : RegisterBody) :
    ∀ k, k ≠ "userToken" → k ≠ "userData" →
      getItem (register codec api c userData).2.1.storage k = getItem c.storage k := by
  intro k h1 h2
  unfold register
  dsimp only
  split_ifs
  · rfl
  · cases api userData with
    | threw m => rfl
    | responded rc token u =>
      simp only []
      rw [getItem_setItem_other _ _ _ _ h2, getItem_setItem_other _ _ _ _ h1]

end AuthContext

/-- Claim C21. The function `authenticateWithBiometric`. When the biometric check
throws or returns a result whose `success` is not true, `login` is not called,
and a returned result is handed back unchanged. When it succeeds and no
credential string is stored, the result is `success: false` with the error
`No stored credentials found`, and `login` is not called. When it succeeds and
the stored string holds the pair `email`, `password`, `login` is called once,
with that pair, and its result and state are returned. -/
theorem authenticateWithBiometric_contract (codec : AuthContext.Codec)
    (api : AuthContext.LoginApi) (c : AuthContext.State) :
    (∀ result, result.success ≠ some true →
      AuthContext.authenticateWithBiometric codec (.returned result) api c = (result, c, [])) ∧
    (∀ message, (AuthContext.authenticateWithBiometric codec (.threw message) api c).2
      = (c, [])) ∧
    (∀ result, result.success = some true →
      truthy (AuthContext.getItem c.storage "stored_credentials") = false →
      AuthContext.authenticateWithBiometric codec (.returned result) api c
        = (⟨some false, none, some "No stored credentials found"⟩, c, [])) ∧
    (∀ result stored email password, result.success = some true →
      AuthContext.getItem c.storage "stored_credentials" = some stored → stored ≠ "" →
      codec.parseCredentials stored = .ok (email, password) →
      AuthContext.authenticateWithBiometric codec (.returned result) api c
        = ((AuthContext.login codec api c email password).1,
           (AuthContext.login codec api c email password).2, [(email, password)])) := by
  refine ⟨?_, fun _ => rfl, ?_, ?_⟩
  · intro result hs
    unfold AuthContext.authenticateWithBiometric
    have h : (!(result.success.getD false)) = true := by
      cases hr : result.success with
      | none => rfl
      | some v =>
        cases v with
        | false => rfl
        | true => exact absurd hr hs
    dsimp only
    rw [if_pos h]
  · intro result hs ht
    unfold AuthContext.authenticateWithBiometric
    dsimp only
    rw [hs, ht]
    rfl
  · intro result stored email password hs hg hne hp
    unfold AuthContext.authenticateWithBiometric
    dsimp only
    have ht : truthy (some stored) = true := by simp [truthy, hne]
    rw [hs, hg, ht]
    simp only [Option.getD_some, Bool.not_true, Bool.false_eq_true, if_false]
    rw [hp]

/-- A witness of `authenticateWithBiometric_contract`: on the signed-in device
the biometric check succeeds and `login` is called once with the stored pair. -/
theorem authenticateWithBiometric_contract_witness :
    AuthContext.authenticateWithBiometric sampleCodec (.returned ⟨some true, none, none⟩)
        sampleLoginApi AuthContext.signedIn
      = ((AuthContext.login sampleCodec sampleLoginApi AuthContext.signedIn
            (some "ann@x.com") (some "secret1")).1,
         (AuthContext.login sampleCodec sampleLoginApi AuthContext.signedIn
            (some "ann@x.com") (some "secret1")).2,
         [(some "ann@x.com", some "secret1")]) ∧
    (AuthContext.login sampleCodec sampleLoginApi AuthContext.signedIn
        (some "ann@x.com") (some "secret1")).1 = ⟨some true, none, none⟩ :=
  ⟨(authenticateWithBiometric_contract sampleCodec sampleLoginApi AuthContext.signedIn).2.2.2
      ⟨some true, none, none⟩ "ann@x.com secret1" (some "ann@x.com") (some "secret1")
      rfl (by decide) (by decide) rfl,
   by decide⟩

/-- Claim C22. The key `stored_credentials` is written by `handleLogin` alone, and
only after a call of `login` returned success: when the form is valid and the
first call succeeds, or the first call asks for the CAPTCHA, the CAPTCHA screen
reports a verification and the second call succeeds, the key holds the email and
password of the form, which are the arguments of every call of `login` made; in
every other case the key holds what it held before. The provider functions
`login`, `register`, `enableBiometric`, `disableBiometric` and
`authenticateWithBiometric` leave the key as it was. -/
theorem stored_credentials_written_after_login_success (codec : AuthContext.Codec)
    (first retry : AuthContext.LoginApi) (verified : Bool) (c : AuthContext.State)
    (formData : LoginScreen.Form) :
    AuthContext.getItem (LoginScreen.handleLogin codec first retry verified c formData).1.storage
        "stored_credentials"
      = (if LoginScreen.validateForm formData = true ∧
            ((AuthContext.login codec first c (some formData.email)
                (some formData.password)).1.success = some true ∨
             ((AuthContext.login codec first c (some formData.email)
                (some formData.password)).1.requiresCaptcha = some true ∧ verified = true ∧
              (AuthContext.login codec retry
                (AuthContext.login codec first c (some formData.email)
                  (some formData.password)).2
                (some formData.email) (some formData.password)).1.success = some true))
         then some (codec.stringifyCredentials formData.email formData.password)
         else AuthContext.getItem c.storage "stored_credentials") ∧
    (∀ call ∈ (LoginScreen.handleLogin codec first retry verified c formData).2,
      call = (some formData.email, some formData.password)) ∧
    (∀ api email password,
      AuthContext.getItem (AuthContext.login codec api c email password).2.storage
        "stored_credentials" = AuthContext.getItem c.storage "stored_credentials") ∧
    (∀ api userData,
      AuthContext.getItem (AuthContext.register codec api c userData).2.1.storage
        "stored_credentials" = AuthContext.getItem c.storage "stored_credentials") ∧
    AuthContext.getItem (AuthContext.enableBiometric c).2.storage "stored_credentials"
      = AuthContext.getItem c.storage "stored_credentials" ∧
    AuthContext.getItem (AuthContext.disableBiometric c).2.storage "stored_credentials"
      = AuthContext.getItem c.storage "stored_credentials" ∧
    (∀ bio api,
      AuthContext.getItem (AuthContext.authenticateWithBiometric codec bio api c).2.1.storage
        "stored_credentials" = AuthContext.getItem c.storage "stored_credentials") := by
  have hlogin : ∀ (api : AuthContext.LoginApi) (d : AuthContext.State) (e p : Option String),
      AuthContext.getItem (AuthContext.login codec api d e p).2.storage "stored_credentials"
        = AuthContext.getItem d.storage "stored_credentials" := fun api d e p =>
    (AuthContext.login_cases codec api d e p).2 _ (by decide) (by decide)
  refine ⟨?_, ?_, fun api e p => hlogin api c e p,
    fun api u => AuthContext.register_storage codec api c u _ (by decide) (by decide), ?_, ?_, ?_⟩
  · unfold LoginScreen.handleLogin
    by_cases hv : LoginScreen.validateForm formData = true
    · rw [if_pos hv]
      dsimp only
      generalize hr1 : AuthContext.login codec first c (some formData.email)
        (some formData.password) = r1
      have h1 := hlogin first c (some formData.email) (some formData.password)
      have hc1 := (AuthContext.login_cases codec first c (some formData.email)
        (some formData.password)).1
      rw [hr1] at h1 hc1
      generalize hr2 : AuthContext.login codec retry r1.2 (some formData.email)
        (some formData.password) = r2
      have h2 := hlogin retry r1.2 (some formData.email) (some formData.password)
      have hc2 := (AuthContext.login_cases codec retry r1.2 (some formData.email)
        (some formData.password)).1
      rw [hr2] at h2 hc2
      rcases hc1 with hc1 | hc1 | ⟨m1, hc1⟩
      · -- the first call asks for the CAPTCHA
        rw [hc1]
        cases verified with
        | false => simp [hv, h1]
        | true =>
          rcases hc2 with hc2 | hc2 | ⟨m2, hc2⟩
          · rw [hc2]; simp [hv, h1, h2]
          · rw [hc2]; simp [hv, AuthContext.getItem_setItem_self]
          · rw [hc2]; simp [hv, h1, h2]
      · rw [hc1]; simp [hv, AuthContext.getItem_setItem_self]
      · rw [hc1]; simp [hv, h1]
    · rw [if_neg hv]
      simp [hv]
  · intro call hcall
    unfold LoginScreen.handleLogin at hcall
    dsimp only at hcall
    split_ifs at hcall <;> simp at hcall <;> try exact hcall
  · unfold AuthContext.enableBiometric AuthContext.serviceEnableBiometric
    exact AuthContext.getItem_setItem_other _ _ _ _ (by decide)
  · unfold AuthContext.disableBiometric AuthContext.serviceDisableBiometric
    exact AuthContext.getItem_setItem_other _ _ _ _ (by decide)
  · intro bio api
    unfold AuthContext.authenticateWithBiometric
    cases bio with
    | threw m => rfl
    | returned result =>
      dsimp only
      split_ifs
      · rfl
      · rfl
      · cases codec.parseCredentials
          ((AuthContext.getItem c.storage "stored_credentials").getD "") with
        | error m => rfl
        | ok pair => exact hlogin api c pair.1 pair.2

/-- A witness of `stored_credentials_written_after_login_success`: on a device
that holds nothing, a login that succeeds stores the pair of the form, and a
login answered with the CAPTCHA whose verification is not reported stores
nothing. -/
theorem stored_credentials_written_after_login_success_witness :
    AuthContext.getItem (LoginScreen.handleLogin sampleCodec sampleLoginApi sampleLoginApi false
        freshDevice sampleLoginForm).1.storage "stored_credentials"
      = some "ann@x.com secret1" ∧
    AuthContext.getItem (LoginScreen.handleLogin sampleCodec captchaLoginApi sampleLoginApi false
        freshDevice sampleLoginForm).1.storage "stored_credentials" = none ∧
    (∀ call ∈ (LoginScreen.handleLogin sampleCodec captchaLoginApi sampleLoginApi true
        freshDevice sampleLoginForm).2, call = (some "ann@x.com", some "secret1")) :=
  ⟨by decide, by decide,
   (stored_credentials_written_after_login_success sampleCodec captchaLoginApi sampleLoginApi
      true freshDevice sampleLoginForm).2.1⟩

/-! ## The CAPTCHA flag and the CAPTCHA Gate (C24) -/

/-- Claim C24, as stated, fails: the execution that consists of one register
request whose body carries `captchaVerified: true` persists an Identity with
`captchaVerified = true`, and no verification of a CAPTCHA answer occurs in it. -/
theorem register_persists_flag_without_verification :
    gatePassed [.api (.register ⟨1000, 0, 1⟩ (sampleRegister "Ann" "ann@x.com" "secret1"))]
      = false ∧
    (exec sampleEnv
        [.api (.register ⟨1000, 0, 1⟩ (sampleRegister "Ann" "ann@x.com" "secret1"))]).map
        (fun u => (u.email, u.captchaVerified))
      = [("ann@x.com", true)] := by
  decide

theorem handleVerify_true (userInput : String) (api : String → AuthContext.ApiOutcome)
    (h : CaptchaScreen.handleVerify userInput api = true) :
    jsTrim userInput ≠ "" ∧ ∃ message, api userInput = .responded true message := by
  unfold CaptchaScreen.handleVerify at h
  by_cases he : jsTrim userInput = ""
  · rw [if_pos he] at h
    exact absurd h (by decide)
  · rw [if_neg he] at h
    refine ⟨he, ?_⟩
    unfold AuthContext.verifyCaptcha at h
    cases hapi : api userInput with
    | threw m => rw [hapi] at h; simp at h
    | responded s m =>
      rw [hapi] at h
      dsimp only at h
      subst h
      exact ⟨m, rfl⟩

/-- Claim C24, amended. The server sets the flag on the word of the request: a
register request changes the database only when its body carries
`captchaVerified: true`, and then adds one Identity whose flag is true; no
request to the CAPTCHA Gate changes the database. The registration screen of the
client sends a register request only for a form that passes its validation and
after the CAPTCHA screen has received a successful answer to the verification of
a non-blank input, and the body it sends carries `captchaVerified: true`. -/
theorem captcha_flag_follows_request (env : Env) (ctx : Ctx) (db : Store) (b : RegisterBody)
    (codec : AuthContext.Codec) (isoDate : Int → String) (today : Int) (userInput : String)
    (captchaApi : String → AuthContext.ApiOutcome) (api : AuthContext.RegisterApi)
    (c : AuthContext.State) (formData : RegisterScreen.Form) :
    ((register env ctx db b).2 ≠ db →
      b.captchaVerified = some true ∧
      ∃ u, (register env ctx db b).2 = db ++ [u] ∧ u.captchaVerified = true) ∧
    (∀ success, Request.step env db (.captchaVerify success) = db) ∧
    Request.step env db .captchaIssue = db ∧
    (∀ body ∈ (RegisterScreen.handleRegister codec isoDate today
        (CaptchaScreen.handleVerify userInput captchaApi) api c formData).2,
      RegisterScreen.validateForm today formData = true ∧
      jsTrim userInput ≠ "" ∧ (∃ message, captchaApi userInput = .responded true message) ∧
      body.captchaVerified = some true) := by
  refine ⟨?_, fun _ => rfl, rfl, ?_⟩
  · intro hne
    rcases register_cases env ctx db b with ⟨_, hdb⟩ |
      ⟨_, _, _, _, _, _, _, hc, _, u, hst, _, _, hv, _⟩
    · exact absurd hdb hne
    · exact ⟨hc, u, hst, hv⟩
  · intro body hbody
    unfold RegisterScreen.handleRegister at hbody
    by_cases hv : RegisterScreen.validateForm today formData = true
    · rw [if_pos hv] at hbody
      by_cases hver : CaptchaScreen.handleVerify userInput captchaApi = true
      · rw [if_pos hver] at hbody
        obtain ⟨h1, h2⟩ := handleVerify_true userInput captchaApi hver
        refine ⟨hv, h1, h2, ?_⟩
        cases hd : formData.dateOfBirth with
        | none =>
          rw [hd] at hbody
          simp at hbody
        | some d =>
          rw [hd] at hbody
          dsimp only at hbody
          unfold AuthContext.register at hbody
          dsimp only at hbody
          have hcv : (!((RegisterScreen.requestBody isoDate formData d).captchaVerified.getD
              false)) = false := rfl
          rw [hcv] at hbody
          simp only [Bool.false_eq_true, if_false] at hbody
          cases hapi : api (RegisterScreen.requestBody isoDate formData d) with
          | threw m =>
            rw [hapi] at hbody
            simp only [List.mem_singleton] at hbody
            rw [hbody]
            rfl
          | responded rc token u =>
            rw [hapi] at hbody
            simp only [List.mem_singleton] at hbody
            rw [hbody]
            rfl
      · rw [if_neg hver] at hbody
        simp at hbody
    · rw [if_neg hv] at hbody
      simp at hbody

/-- A witness of `captcha_flag_follows_request`: the sample form, after a
verified CAPTCHA, sends one request with the flag; the server stores the flag of
the request. -/
theorem captcha_flag_follows_request_witness :
    (RegisterScreen.handleRegister sampleCodec sampleIsoDate 1000000000000
        (CaptchaScreen.handleVerify "x7Kq" (fun _ => .responded true none)) sampleRegisterApi
        freshDevice sampleRegisterForm).2.map (fun body => (body.email, body.captchaVerified))
      = [(some "ann@x.com", some true)] ∧
    ∀ body ∈ (RegisterScreen.handleRegister sampleCodec sampleIsoDate 1000000000000
        (CaptchaScreen.handleVerify "x7Kq" (fun _ => .responded true none)) sampleRegisterApi
        freshDevice sampleRegisterForm).2,
      RegisterScreen.validateForm 1000000000000 sampleRegisterForm = true ∧
      jsTrim "x7Kq" ≠ "" ∧
      (∃ message, (fun _ => AuthContext.ApiOutcome.responded true none : String →
          AuthContext.ApiOutcome) "x7Kq" = .responded true message) ∧
      body.captchaVerified = some true :=
  ⟨by decide,
   (captcha_flag_follows_request sampleEnv ⟨1000, 0, 1⟩ []
      (sampleRegister "Ann" "ann@x.com" "secret1") sampleCodec sampleIsoDate 1000000000000
      "x7Kq" (fun _ => .responded true none) sampleRegisterApi freshDevice
      sampleRegisterForm).2.2.2⟩

/-! ## The validation of the client refines the validation of the server (C28) -/

theorem jsTrim_empty : jsTrim "" = "" := by decide

/-- What a registration form that passes `validateForm` satisfies. -/
theorem RegisterScreen.validateForm_true (today : Int) (formData : RegisterScreen.Form)
    (h : RegisterScreen.validateForm today formData = true) :
    jsTrim formData.name ≠ "" ∧ formData.email ≠ "" ∧ emailRegexTest formData.email = true ∧
    formData.password ≠ "" ∧ 6 ≤ jsLength formData.password ∧
    formData.password = formData.confirmPassword ∧ jsTrim formData.address ≠ "" ∧
    ∃ d, formData.dateOfBirth = some d ∧ d ≤ today := by
  unfold RegisterScreen.validateForm RegisterScreen.formErrors at h
  simp only [decide_eq_true_eq, List.length_eq_zero, List.append_eq_nil] at h
  obtain ⟨⟨⟨⟨⟨h1, h2⟩, h3⟩, h4⟩, h5⟩, h6⟩ := h
  have g1 : jsTrim formData.name ≠ "" := by
    intro hc; rw [if_pos hc] at h1; simp at h1
  have g2 : formData.email ≠ "" := by
    intro hc; rw [if_pos hc] at h2; simp at h2
  rw [if_neg g2] at h2
  have g3 : emailRegexTest formData.email = true := by
    by_contra hc
    have hc2 : (!emailRegexTest formData.email) = true := by simpa using hc
    rw [if_pos hc2] at h2; simp at h2
  have g4 : formData.password ≠ "" := by
    intro hc; rw [if_pos hc] at h3; simp at h3
  rw [if_neg g4] at h3
  have g5 : 6 ≤ jsLength formData.password := by
    by_contra hc
    rw [if_pos (Nat.lt_of_not_le hc)] at h3; simp at h3
  have g6 : formData.password = formData.confirmPassword := by
    by_contra hc
    rw [if_pos hc] at h4; simp at h4
  have g7 : jsTrim formData.address ≠ "" := by
    intro hc; rw [if_pos hc] at h5; simp at h5
  refine ⟨g1, g2, g3, g4, g5, g6, g7, ?_⟩
  cases hd : formData.dateOfBirth with
  | none => rw [hd] at h6; simp at h6
  | some d =>
    rw [hd] at h6
    refine ⟨d, rfl, ?_⟩
    by_contra hc
    have hlt : d > today := lt_of_not_le hc
    simp only [if_pos hlt] at h6
    simp at h6

/-- Claim C28. A registration form that passes `validateForm` of the registration
screen has a date of birth, and the request the screen sends for it passes the
required-field, password-length and email-shape checks of the server and carries
`captchaVerified: true`; when the server parses the date the screen formats and
the ObjectId of the new document is fresh, the answer is 201 unless a document
with the lower-cased email exists, which is answered 400 with `User already
exists`. The login screen accepts a form exactly when its email is non-empty
and passes the same email test as the server and its password is non-empty,
and such a form passes the required-field check of the server. -/
theorem client_validation_refines_server (env : Env) (ctx : Ctx) (db : Store) (today : Int)
    (isoDate : Int → String) (formData : RegisterScreen.Form)
    (hv : RegisterScreen.validateForm today formData = true) :
    (∃ d, formData.dateOfBirth = some d ∧ d ≤ today ∧
      truthy (RegisterScreen.requestBody isoDate formData d).name = true ∧
      truthy (RegisterScreen.requestBody isoDate formData d).email = true ∧
      truthy (RegisterScreen.requestBody isoDate formData d).password = true ∧
      6 ≤ jsLength ((RegisterScreen.requestBody isoDate formData d).password.getD "") ∧
      emailRegexTest ((RegisterScreen.requestBody isoDate formData d).email.getD "") = true ∧
      (RegisterScreen.requestBody isoDate formData d).captchaVerified = some true ∧
      (env.parseDate (isoDate d) ≠ none → (∀ v ∈ db, v._id ≠ ctx.newId) →
        ((findOne db (env.toLowerCase formData.email)).isSome = false ∧
          (register env ctx db (RegisterScreen.requestBody isoDate formData d)).1.status = 201) ∨
        ((findOne db (env.toLowerCase formData.email)).isSome = true ∧
          (register env ctx db (RegisterScreen.requestBody isoDate formData d)).1.status = 400 ∧
          (register env ctx db (RegisterScreen.requestBody isoDate formData d)).1.message
            = some "User already exists"))) ∧
    (∀ f : LoginScreen.Form, LoginScreen.validateForm f = true ↔
      (f.email ≠ "" ∧ emailRegexTest f.email = true ∧ f.password ≠ "")) ∧
    (∀ f : LoginScreen.Form, LoginScreen.validateForm f = true →
      ∀ ctx2 db2, (login env ctx2 db2 ⟨some f.email, some f.password⟩).1.message
        ≠ some "All fields are required") := by
  obtain ⟨g1, g2, g3, g4, g5, _, _, d, hd, hle⟩ :=
    RegisterScreen.validateForm_true today formData hv
  have hname : formData.name ≠ "" := by
    intro hc
    rw [hc] at g1
    exact g1 jsTrim_empty
  have hlogin : ∀ f : LoginScreen.Form, LoginScreen.validateForm f = true ↔
      (f.email ≠ "" ∧ emailRegexTest f.email = true ∧ f.password ≠ "") := by
    intro f
    unfold LoginScreen.validateForm LoginScreen.formErrors
    simp only [decide_eq_true_eq, List.length_eq_zero, List.append_eq_nil]
    by_cases h1 : f.email = ""
    · simp [h1]
    · by_cases h2 : emailRegexTest f.email = true
      · by_cases h3 : f.password = ""
        · simp [h1, h2, h3]
        · simp [h1, h2, h3]
      · simp [h1, h2]
  refine ⟨⟨d, hd, hle, ?_, ?_, ?_, g5, g3, rfl, ?_⟩, hlogin, ?_⟩
  · simpa [RegisterScreen.requestBody, truthy] using hname
  · simpa [RegisterScreen.requestBody, truthy] using g2
  · simpa [RegisterScreen.requestBody, truthy] using g4
  · intro hparse hfresh
    have hn : truthy (RegisterScreen.requestBody isoDate formData d).name = true := by
      simpa [RegisterScreen.requestBody, truthy] using hname
    have he : truthy (RegisterScreen.requestBody isoDate formData d).email = true := by
      simpa [RegisterScreen.requestBody, truthy] using g2
    have hp : truthy (RegisterScreen.requestBody isoDate formData d).password = true := by
      simpa [RegisterScreen.requestBody, truthy] using g4
    cases hex : (findOne db (env.toLowerCase formData.email)).isSome with
    | true =>
      right
      rw [register_existing env ctx db _ hn he hp g5 g3 hex]
      exact ⟨rfl, rfl, rfl⟩
    | false =>
      left
      refine ⟨rfl, ?_⟩
      have hvalid : ¬ RegisterInvalid env db (RegisterScreen.requestBody isoDate formData d) := by
        unfold RegisterInvalid
        rw [hn, he, hp]
        have hex2 : (findOne db (env.toLowerCase
            ((RegisterScreen.requestBody isoDate formData d).email.getD ""))).isSome = false := hex
        have g3b : emailRegexTest ((RegisterScreen.requestBody isoDate formData d).email.getD "")
            = true := g3
        have g5b : ¬ jsLength ((RegisterScreen.requestBody isoDate formData d).password.getD "") < 6 :=
          Nat.not_lt.2 g5
        rw [hex2, g3b]
        simp [g5b]
      rw [register_valid_eq env ctx db _ hvalid]
      have hc2 : (!((RegisterScreen.requestBody isoDate formData d).captchaVerified.getD false))
          = false := rfl
      rw [hc2]
      simp only [Bool.false_eq_true, if_false]
      have hf : ∃ x, formatDateOfBirth env (RegisterScreen.requestBody isoDate formData d).dateOfBirth
          = some x := by
        unfold formatDateOfBirth
        by_cases ht : truthy (RegisterScreen.requestBody isoDate formData d).dateOfBirth = true
        · rw [if_pos ht]
          cases hpd : env.parseDate
              ((RegisterScreen.requestBody isoDate formData d).dateOfBirth.getD "") with
          | none => exact absurd hpd hparse
          | some x => exact ⟨some x, rfl⟩
        · rw [if_neg ht]
          exact ⟨none, rfl⟩
      obtain ⟨x, hx⟩ := hf
      rw [hx]
      dsimp only
      rw [insertDoc_fresh db _ hfresh]
  · intro f hf ctx2 db2
    obtain ⟨h1, _, h3⟩ := (hlogin f).1 hf
    have ht : (!truthy (some f.email) || !truthy (some f.password)) = false := by
      simp [truthy, h1, h3]
    generalize hr : login env ctx2 db2 ⟨some f.email, some f.password⟩ = r
    unfold login at hr
    dsimp only at hr
    rw [ht] at hr
    simp only [Bool.false_eq_true, if_false] at hr
    split at hr
    · subst hr
      simp [failure, Response.message, Response.field]
    · split_ifs at hr
      · subst hr
        simp [failure, Response.message, Response.field]
      · subst hr
        simp [failure, Response.message, Response.field]
      · split at hr <;> subst hr <;> simp [failure, Response.message, Response.field]

/-- A witness of `client_validation_refines_server`: the sample form on the empty
database is answered 201, and so is the form whose password is three emoji. -/
theorem client_validation_refines_server_witness :
    RegisterScreen.validateForm 1000000000000
      { sampleRegisterForm with password := "😀😀😀", confirmPassword := "😀😀😀" } = true ∧
    (register sampleEnv ⟨1000, 0, 1⟩ []
      (RegisterScreen.requestBody sampleIsoDate
        { sampleRegisterForm with password := "😀😀😀", confirmPassword := "😀😀😀" }
        946684800000)).1.status = 201 ∧
    RegisterScreen.validateForm 1000000000000 sampleRegisterForm = true ∧
    (register sampleEnv ⟨1000, 0, 1⟩ []
      (RegisterScreen.requestBody sampleIsoDate sampleRegisterForm 946684800000)).1.status = 201 ∧
    ∀ f : LoginScreen.Form, LoginScreen.validateForm f = true ↔
      (f.email ≠ "" ∧ emailRegexTest f.email = true ∧ f.password ≠ "") :=
  ⟨by decide, by decide, by decide, by decide,
   (client_validation_refines_server sampleEnv ⟨1000, 0, 1⟩ [] 1000000000000 sampleIsoDate
      sampleRegisterForm (by decide)).2.1⟩

/-! ## Tokens: key, lifetime and resolution (C23) -/

/-- The signing key is the configured secret, or the fallback of line 139 when the
variable is unset or empty. -/
theorem jwtKey_eq (env : Env) (key : String)
    (hkey : (env.JWT_SECRET = some key ∧ key ≠ "") ∨
      ((env.JWT_SECRET = none ∨ env.JWT_SECRET = some "") ∧ key = "your-jwt-secret")) :
    jwtKey env = key := by
  unfold jwtKey optOr
  rcases hkey with ⟨h, hne⟩ | ⟨h | h, hk⟩
  · rw [h]
    simp [strOr, hne]
  · rw [h, hk]
  · rw [h, hk]
    rfl

/-- A login answered 200: the account found, the database afterwards and the token. -/
theorem login_issue (env : Env) (ctx : Ctx) (db : Store) (b : LoginBody) (hwf : db.WF)
    (h200 : (login env ctx db b).1.status = 200) :
    ∃ u, findOne db (b.email.getD "") = some u ∧
      findById (login env ctx db b).2 u._id = some { u with lastLogin := ctx.now } ∧
      (login env ctx db b).1.field "token"
        = some (.val (.str (env.jwtSign u._id (jwtKey env) "7d" ctx.now))) := by
  unfold login at h200 ⊢
  by_cases h1 : (!truthy b.email || !truthy b.password) = true
  · rw [if_pos h1] at h200
    simp [failure] at h200
  · rw [if_neg h1] at h200 ⊢
    simp only [] at h200 ⊢
    cases hfind : findOne db (b.email.getD "") with
    | none =>
      rw [hfind] at h200
      simp [failure] at h200
    | some u =>
      rw [hfind] at h200
      simp only [] at h200 ⊢
      obtain ⟨_, pre, post, hdb⟩ := findOne_split db _ u hfind
      have hpre : ∀ v ∈ pre, v._id ≠ u._id := WF_split pre post u (hdb ▸ hwf)
      by_cases hc : (!env.compare (b.password.getD "") u.password) = true
      · rw [if_pos hc] at h200
        simp [failure] at h200
      · rw [if_neg hc] at h200 ⊢
        by_cases hv : (!u.captchaVerified) = true
        · rw [if_pos hv] at h200
          simp [failure] at h200
        · rw [if_neg hv]
          refine ⟨u, rfl, ?_⟩
          have hsave : saveDoc db { u with lastLogin := ctx.now }
              = pre ++ { u with lastLogin := ctx.now } :: post := by
            rw [hdb]
            exact saveDoc_split pre post u _ rfl hpre
          rw [hsave]
          have hfb : findById (pre ++ { u with lastLogin := ctx.now } :: post) u._id
              = some { u with lastLogin := ctx.now } :=
            findById_split pre post { u with lastLogin := ctx.now } hpre
          simp only [hfb]
          refine ⟨?_, ?_⟩ <;> trivial

theorem tokenVerify_sign (id : Nat) (key : String) (t t' : Int) :
    tokenVerify (tokenEnv.jwtSign id key "7d" t) key t' = some id := by
  have hd : (tokenEnv.jwtSign id key "7d" t).data
      = (key ++ ":").data ++ List.replicate id 't' := by
    simp [tokenEnv, String.data_append]
  unfold tokenVerify
  have hp : (key ++ ":").data.isPrefixOf (tokenEnv.jwtSign id key "7d" t).data = true := by
    rw [hd, List.isPrefixOf_iff_prefix]
    exact List.prefix_append _ _
  rw [if_pos hp]
  have hl : (tokenEnv.jwtSign id key "7d" t).length = key.length + 1 + id := by
    have hlen : ∀ s : String, s.length = s.data.length := fun _ => rfl
    rw [hlen, hlen key, hd, String.data_append, List.length_append, List.length_append,
      List.length_replicate]
    rfl
  rw [hl]
  congr 1
  omega

/-- Claim C23. Let `key` be the process-wide secret: the variable `JWT_SECRET`,
or `your-jwt-secret` when it is unset or empty. The token of a register answered
201 is the signature, with `key` and the lifetime `7d` at the time of the
request, of the id of the document just inserted, which is the id of the user
object in the response and finds that document in the database afterwards. The
token of a login answered 200 is the signature, with the same key and lifetime,
of the id of the account found, which finds the updated account afterwards. A
login into the account a register created is signed for the id the register
signed. For a signing library whose resolver returns the signed id during the
seven days after issuance, resolving either token with `key` in that window
yields that id. -/
theorem token_issue (env : Env) (ctx : Ctx) (db : Store) (key : String)
    (verify : String → String → Int → Option Nat)
    (hkey : (env.JWT_SECRET = some key ∧ key ≠ "") ∨
      ((env.JWT_SECRET = none ∨ env.JWT_SECRET = some "") ∧ key = "your-jwt-secret"))
    (hjwt : ∀ (id : Nat) (k : String) (t t' : Int), t ≤ t' → t' < t + sevenDays →
      verify (env.jwtSign id k "7d" t) k t' = some id)
    (hwf : db.WF) :
    (∀ b, (register env ctx db b).1.status = 201 →
      ∃ u, (register env ctx db b).2 = db ++ [u] ∧
        findById (register env ctx db b).2 u._id = some u ∧
        (register env ctx db b).1.field "user" = some (registerView u) ∧
        (register env ctx db b).1.field "token"
          = some (.val (.str (env.jwtSign u._id key "7d" ctx.now))) ∧
        ∀ t', ctx.now ≤ t' → t' < ctx.now + sevenDays →
          verify (env.jwtSign u._id key "7d" ctx.now) key t' = some u._id) ∧
    (∀ b, (login env ctx db b).1.status = 200 →
      ∃ u, findOne db (b.email.getD "") = some u ∧
        findById (login env ctx db b).2 u._id = some { u with lastLogin := ctx.now } ∧
        (login env ctx db b).1.field "token"
          = some (.val (.str (env.jwtSign u._id key "7d" ctx.now))) ∧
        ∀ t', ctx.now ≤ t' → t' < ctx.now + sevenDays →
          verify (env.jwtSign u._id key "7d" ctx.now) key t' = some u._id) ∧
    (∀ b1 b2 ctx2 u, (register env ctx db b1).1.status = 201 →
      (login env ctx2 (register env ctx db b1).2 b2).1.status = 200 →
      findOne (register env ctx db b1).2 (b2.email.getD "") = some u → u._id = ctx.newId →
      (register env ctx db b1).1.field "token"
        = some (.val (.str (env.jwtSign ctx.newId key "7d" ctx.now))) ∧
      (login env ctx2 (register env ctx db b1).2 b2).1.field "token"
        = some (.val (.str (env.jwtSign ctx.newId key "7d" ctx2.now)))) := by
  have hk := jwtKey_eq env key hkey
  refine ⟨?_, ?_, ?_⟩
  · intro b h201
    rcases register_cases env ctx db b with ⟨hne, _⟩ |
      ⟨_, _, _, _, _, _, _, _, hfresh, u, hst, hid, _, _, _, _, _, _, huser, _⟩
    · exact absurd h201 hne
    · have htok := register_token env ctx db b h201
      rw [hk, ← hid] at htok
      refine ⟨u, hst, ?_, huser, htok, fun t' h1 h2 => hjwt _ _ _ _ h1 h2⟩
      rw [hst]
      have hsplit := findById_split db [] u (by rw [hid]; exact hfresh)
      exact hsplit
  · intro b h200
    obtain ⟨u, hf, hst, htok⟩ := login_issue env ctx db b hwf h200
    rw [hk] at htok
    exact ⟨u, hf, hst, htok, fun t' h1 h2 => hjwt _ _ _ _ h1 h2⟩
  · intro b1 b2 ctx2 u h201 h200 hfind hid
    have htok1 := register_token env ctx db b1 h201
    rw [hk] at htok1
    obtain ⟨w, hf, _, htok2⟩ := login_issue env ctx2 _ b2 (register_WF env ctx db b1 hwf) h200
    rw [hfind] at hf
    have hw : u = w := Option.some.inj hf
    subst hw
    rw [hk, hid] at htok2
    exact ⟨htok1, htok2⟩

/-- A witness of `token_issue`: the toy signer with the secret `s3cret`. On the
empty database a register creates the account 1 and its token is `s3cret:t`; the
login into that account gets the same token, and both resolve to 1. -/
theorem token_issue_witness :
    (register tokenEnv ⟨1000, 0, 1⟩ [] (sampleRegister "Ann" "ann@x.com" "secret1")).1.field "token"
      = some (.val (.str "s3cret:t")) ∧
    (login tokenEnv ⟨2000, 0, 0⟩
      (register tokenEnv ⟨1000, 0, 1⟩ [] (sampleRegister "Ann" "ann@x.com" "secret1")).2
      ⟨some "ann@x.com", some "secret1"⟩).1.field "token" = some (.val (.str "s3cret:t")) ∧
    tokenVerify "s3cret:t" "s3cret" 5000 = some 1 ∧
    tokenVerify "s3cret:t" "your-jwt-secret" 5000 = none ∧
    (∃ u, (register tokenEnv ⟨1000, 0, 1⟩ []
          (sampleRegister "Ann" "ann@x.com" "secret1")).2 = [] ++ [u] ∧
        findById (register tokenEnv ⟨1000, 0, 1⟩ []
          (sampleRegister "Ann" "ann@x.com" "secret1")).2 u._id = some u ∧
        (register tokenEnv ⟨1000, 0, 1⟩ []
          (sampleRegister "Ann" "ann@x.com" "secret1")).1.field "user" = some (registerView u) ∧
        (register tokenEnv ⟨1000, 0, 1⟩ []
          (sampleRegister "Ann" "ann@x.com" "secret1")).1.field "token"
          = some (.val (.str (tokenEnv.jwtSign u._id "s3cret" "7d" 1000))) ∧
        ∀ t', (1000 : Int) ≤ t' → t' < 1000 + sevenDays →
          tokenVerify (tokenEnv.jwtSign u._id "s3cret" "7d" 1000) "s3cret" t' = some u._id) :=
  ⟨by decide, by decide, by decide, by decide,
   (token_issue tokenEnv ⟨1000, 0, 1⟩ [] "s3cret" tokenVerify (Or.inl ⟨rfl, by decide⟩)
      (fun id k t t' _ _ => tokenVerify_sign id k t t') (by decide)).1
      (sampleRegister "Ann" "ann@x.com" "secret1") (by decide)⟩

end StockBuddy
